import Mathlib

/-!
# Frame ring and fence synchronisation of the DirectX 12 renderer

A shallow embedding of `src/main.cpp` (`signal`, `waitForFenceValue`, `flush`, `render`,
`updateRenderTargetViews`, `resize`, `setFullscreen`, `WndProc`, `getAdapter` and the
start-up sequence of `wWinMain`) and of `src/raytracing.h` (`createBottomLevelAS`,
`createTopLevelAS`, `createAccelerationStructures`, `createShaderBindingTable`). The helper
classes of `dxr/`, which these functions call, are modelled from the specification.

The global variables of the program become the fields of one record that is
passed from call to call.  Calls into Direct3D / DXGI / Win32 are appended to an
event trace in program order.  Everything the program reads back from the
outside world (the back-buffer index reported by the swap chain, the progress of
the GPU on the fence) is an explicit argument.  Unsigned machine integers are
natural numbers with the wrap-around written out.
-/

namespace DX12

/-! ## Constants -/

/-- The constant `gNumFrames`: number of swap-chain back buffers. -/
def gNumFrames : Nat := 3

/-- Number of values of a `uint64_t`. -/
def UINT64_SIZE : Nat := 2 ^ 64

/-- Number of values of a `DWORD`. -/
def DWORD_SIZE : Nat := 2 ^ 32

/-- The Win32 constant `INFINITE` (`0xFFFFFFFF`). -/
def INFINITE : Nat := 0xFFFFFFFF

/-- The value `std::chrono::milliseconds::max().count()`, the largest signed 64-bit integer. -/
def millisecondsMax : Nat := 2 ^ 63 - 1

/-- The flag `DXGI_PRESENT_ALLOW_TEARING`. -/
def DXGI_PRESENT_ALLOW_TEARING : Nat := 0x200

/-! ## Recorded commands -/

/-- The resource states used by `render` (`D3D12_RESOURCE_STATE_*`). -/
inductive ResourceState where
  | present
  | renderTarget
  | copySource
  | copyDest
  | unorderedAccess
  deriving DecidableEq, Repr

/-- The two resources `render` transitions: a swap-chain back buffer and the ray-tracing output image. -/
inductive Resource where
  | backBuffer (index : Nat)
  | raytracingOutput
  deriving DecidableEq, Repr

/-- The record `D3D12_DISPATCH_RAYS_DESC` as filled in by `render`. -/
structure DispatchRaysDesc where
  rayGenStart : Nat
  rayGenSize : Nat
  missStart : Nat
  missSize : Nat
  missStride : Nat
  hitGroupStart : Nat
  hitGroupSize : Nat
  hitGroupStride : Nat
  width : Nat
  height : Nat
  depth : Nat
  deriving DecidableEq, Repr

/-- A world transform (`DirectX::XMMATRIX`). The program only builds the identity; `other`
stands for any other matrix. -/
inductive Transform where
  | identity
  | other (id : Nat)
  deriving DecidableEq, Repr

/-- One instance registered with the top-level generator: the bottom-level result buffer it
refers to, its transform, its instance index and its hit-group index. -/
structure Instance where
  bottomLevelAS : Nat
  transform : Transform
  instanceID : Nat
  hitGroupIndex : Nat
  deriving DecidableEq, Repr

/-- One vertex buffer registered with the bottom-level generator, with the arguments of
`AddVertexBuffer`. -/
structure VertexBufferEntry where
  vertexBuffer : Nat
  vertexOffsetInBytes : Nat
  vertexCount : Nat
  vertexSizeInBytes : Nat
  transformBuffer : Nat
  transformOffsetInBytes : Nat
  deriving DecidableEq, Repr

/-- Commands recorded into `gCommandList`: by `render`, and the two build commands recorded
during start-up. -/
inductive Cmd where
  | setGraphicsRootSignature
  | rsSetViewports
  | rsSetScissorRects
  | resourceBarrier (resource : Resource) (before after : ResourceState)
  | omSetRenderTargets (rtv : Nat)
  | clearRenderTargetView (rtv : Nat)
  | iaSetPrimitiveTopology
  | iaSetVertexBuffers
  | drawInstanced (vertexCount instanceCount startVertex startInstance : Nat)
  | setDescriptorHeaps
  | setPipelineState1
  | dispatchRays (desc : DispatchRaysDesc)
  | copyResource (dst src : Resource)
  | buildBottomLevelAS (vertexBuffers : List VertexBufferEntry) (scratch result : Nat)
  | buildTopLevelAS (instances : List Instance) (scratch result instanceDescs : Nat)
  deriving DecidableEq, Repr

/-- Calls made by the program on the device, the queue, the fence, the swap chain and (from
`WndProc` and `setFullscreen`) the window, in program order. -/
inductive Event where
  | signal (fenceValue : Nat)
  | setEventOnCompletion (fenceValue : Nat)
  | waitForSingleObject (timeout : Nat)
  | allocatorReset (slot : Nat)
  | commandListReset (slot : Nat)
  | close
  | executeCommandLists (cmds : List Cmd)
  | present (syncInterval flags : Nat)
  | getCurrentBackBufferIndex
  | backBufferReset (slot : Nat)
  | getDesc
  | resizeBuffers (bufferCount width height : Nat)
  | getBuffer (slot : Nat)
  | createRenderTargetView (slot : Nat)
  | getWindowRect
  | setWindowLong (style : Nat)
  | monitorFromWindow
  | getMonitorInfo
  | setWindowPos (insertAfter x y cx cy : Int) (flags : Nat)
  | showWindow (cmdShow : Nat)
  | setWindowText (title : String)
  | postQuitMessage (exitCode : Int)
  | getClientRect
  | defWindowProc
  | createSwapChain (width height bufferCount : Nat)
  | createRaytracingOutputBuffer (width height : Nat)
  deriving DecidableEq, Repr

/-! ## Program state -/

/-- What `gSBTGenerator` and `gSBTStorage` report to `render`; fixed once the table is built. -/
structure SBTInfo where
  address : Nat
  rayGenSectionSize : Nat
  missSectionSize : Nat
  missEntrySize : Nat
  hitGroupSectionSize : Nat
  hitGroupEntrySize : Nat
  deriving DecidableEq, Repr

/-- The largest value of a `LONG` and of a `long` (32 bits on the target). -/
def LONG_MAX : Int := 2 ^ 31 - 1

/-- The least value of a `LONG` and of a `long` (32 bits on the target). -/
def LONG_MIN : Int := -(2 ^ 31)

/-- The 32-bit two's-complement value congruent to `x` modulo 2^32: what a `LONG` or `int`
computation yields on the target when the exact result is `x`. -/
def toLONG (x : Int) : Int := (x - LONG_MIN) % 2 ^ 32 + LONG_MIN

/-- The difference `a - b` of two `LONG` values as the target computes it, in 32 bits. -/
def subLONG (a b : Int) : Int := toLONG (a - b)

/-- The Win32 record `RECT`; the coordinates are `LONG` values. -/
structure Rect where
  left : Int
  top : Int
  right : Int
  bottom : Int
  deriving DecidableEq, Repr

/-- The globals of `main.cpp` that the frame loop reads or writes, together with the
fence object (`completed` is what `gFence->GetCompletedValue()` returns), the trace of
API calls, and the history `submitted` of frame submissions as pairs
(slot whose allocator backed the command list, fence value signalled right after it). -/
structure Renderer where
  gClientWidth : Nat
  gClientHeight : Nat
  gIsInitialized : Bool
  gWindowRect : Rect
  gCurrentBackBufferIndex : Nat
  gFenceValue : Nat
  gFrameFenceValues : List Nat
  gVSync : Bool
  gTearingSupported : Bool
  gFullscreen : Bool
  gRayTracingEnabled : Bool
  sbt : SBTInfo
  completed : Nat
  trace : List Event
  submitted : List (Nat × Nat)
  deriving DecidableEq, Repr

/-- Values the outside world hands back during one `render` or `resize` call. -/
structure FrameEnv where
  /-- Result of `gSwapChain->GetCurrentBackBufferIndex()`. -/
  nextIndex : Nat
  /-- Fence value the GPU has reached when `GetCompletedValue()` is called. -/
  reached : Nat
  /-- Fence value the GPU has reached when `WaitForSingleObject` returns. -/
  woken : Nat
  deriving DecidableEq, Repr

/-! ## Fence synchroniser -/

/-- The GPU runs on its own timeline: the fence moves up to `reached` if that is ahead of
the current completed value and never moves back. -/
def gpuAdvance (s : Renderer) (reached : Nat) : Renderer :=
  { s with completed := max s.completed reached }

/-- The function `signal`: `fenceValue++`, then `commandQueue->Signal(fence, fenceValue)`;
returns the new counter value. The counter is a `uint64_t`. -/
def signal (s : Renderer) : Renderer × Nat :=
  let fenceValueForSignal := (s.gFenceValue + 1) % UINT64_SIZE
  ({ s with gFenceValue := fenceValueForSignal,
            trace := s.trace ++ [Event.signal fenceValueForSignal] },
   fenceValueForSignal)

/-- The conversion `static_cast<DWORD>(duration.count())`. -/
def toDWORD (count : Nat) : Nat := count % DWORD_SIZE

/-- The function `waitForFenceValue`. When the fence is behind `fenceValue` an event is
registered for that value and the thread waits on it with the given timeout. An infinite
wait returns once the event fired, that is once the fence reached `fenceValue`; a finite
one may return earlier. -/
def waitForFenceValue (s : Renderer) (fenceValue : Nat) (woken : Nat) (duration : Nat) : Renderer :=
  if s.completed < fenceValue then
    { s with
      trace := s.trace ++ [Event.setEventOnCompletion fenceValue,
                           Event.waitForSingleObject (toDWORD duration)],
      completed := if toDWORD duration = INFINITE then max fenceValue woken
                   else max s.completed woken }
  else s

/-- The function `flush`: `signal` and then `waitForFenceValue` on the value it returned,
with the default (maximal) duration. -/
def flush (s : Renderer) (reached woken : Nat) : Renderer :=
  let r := signal s
  waitForFenceValue (gpuAdvance r.1 reached) r.2 woken millisecondsMax

/-! ## Command recorder and frame loop -/

/-- Number of values of a `uint32_t`. -/
def UINT32_SIZE : Nat := 2 ^ 32

/-- The raster branch of `render` for back buffer `i`. -/
def rasterCommands (i : Nat) : List Cmd :=
  [ Cmd.resourceBarrier (Resource.backBuffer i) ResourceState.present ResourceState.renderTarget,
    Cmd.omSetRenderTargets i,
    Cmd.clearRenderTargetView i,
    Cmd.iaSetPrimitiveTopology,
    Cmd.iaSetVertexBuffers,
    Cmd.drawInstanced 3 1 0 0 ]

/-- The dispatch descriptor `render` fills in on the ray-tracing branch. The three section
sizes are read into `uint32_t` locals; the start addresses are 64-bit sums. -/
def dispatchDesc (s : Renderer) : DispatchRaysDesc :=
  let rayGenerationSectionSizeInBytes := s.sbt.rayGenSectionSize % UINT32_SIZE
  let missSectionSizeInBytes := s.sbt.missSectionSize % UINT32_SIZE
  let hitGroupsSectionSize := s.sbt.hitGroupSectionSize % UINT32_SIZE
  { rayGenStart := s.sbt.address
    rayGenSize := rayGenerationSectionSizeInBytes
    missStart := (s.sbt.address + rayGenerationSectionSizeInBytes) % UINT64_SIZE
    missSize := missSectionSizeInBytes
    missStride := s.sbt.missEntrySize
    hitGroupStart :=
      ((s.sbt.address + rayGenerationSectionSizeInBytes) % UINT64_SIZE + missSectionSizeInBytes)
        % UINT64_SIZE
    hitGroupSize := hitGroupsSectionSize
    hitGroupStride := s.sbt.hitGroupEntrySize
    width := s.gClientWidth
    height := s.gClientHeight
    depth := 1 }

/-- The ray-tracing branch of `render` for back buffer `i`. -/
def raytraceCommands (s : Renderer) (i : Nat) : List Cmd :=
  [ Cmd.setDescriptorHeaps,
    Cmd.resourceBarrier Resource.raytracingOutput ResourceState.copySource
      ResourceState.unorderedAccess,
    Cmd.setPipelineState1,
    Cmd.dispatchRays (dispatchDesc s),
    Cmd.resourceBarrier Resource.raytracingOutput ResourceState.unorderedAccess
      ResourceState.copySource,
    Cmd.resourceBarrier (Resource.backBuffer i) ResourceState.present ResourceState.copyDest,
    Cmd.copyResource (Resource.backBuffer i) Resource.raytracingOutput,
    Cmd.resourceBarrier (Resource.backBuffer i) ResourceState.copyDest
      ResourceState.renderTarget ]

/-- Everything `render` records into `gCommandList` between `Reset` and `Close`. -/
def recordCommands (s : Renderer) : List Cmd :=
  [Cmd.setGraphicsRootSignature, Cmd.rsSetViewports, Cmd.rsSetScissorRects]
    ++ (if !s.gRayTracingEnabled then rasterCommands s.gCurrentBackBufferIndex
        else raytraceCommands s s.gCurrentBackBufferIndex)
    ++ [Cmd.resourceBarrier (Resource.backBuffer s.gCurrentBackBufferIndex)
          ResourceState.renderTarget ResourceState.present]

/-- The function `render`: reset the current slot's allocator, record and submit the frame,
present, signal the fence and store the value in the slot, re-query the back-buffer index,
and wait for the fence value stored in the slot that is current now. -/
def render (s : Renderer) (e : FrameEnv) : Renderer :=
  let i := s.gCurrentBackBufferIndex
  let syncInterval := if s.gVSync then 1 else 0
  let presentFlags :=
    if s.gTearingSupported && !s.gVSync then DXGI_PRESENT_ALLOW_TEARING else 0
  let s1 := { s with
    trace := s.trace ++ [Event.allocatorReset i, Event.commandListReset i, Event.close,
                         Event.executeCommandLists (recordCommands s),
                         Event.present syncInterval presentFlags] }
  let r := signal s1
  let s2 := { r.1 with
    gFrameFenceValues := r.1.gFrameFenceValues.set i r.2,
    submitted := r.1.submitted ++ [(i, r.2)] }
  let s3 := { s2 with
    gCurrentBackBufferIndex := e.nextIndex,
    trace := s2.trace ++ [Event.getCurrentBackBufferIndex] }
  waitForFenceValue (gpuAdvance s3 e.reached)
    (s3.gFrameFenceValues.getD s3.gCurrentBackBufferIndex 0) e.woken millisecondsMax

/-- The function `updateRenderTargetViews`: one `GetBuffer` and one
`CreateRenderTargetView` per back buffer, in index order. -/
def updateRenderTargetViews (s : Renderer) : Renderer :=
  (List.range gNumFrames).foldl
    (fun st i => { st with
      trace := st.trace ++ [Event.getBuffer i, Event.createRenderTargetView i] }) s

/-- One iteration of the release loop of `resize`: drop the reference to back buffer `i`
and overwrite its fence value with the one of the current slot. -/
def releaseBackBuffer (st : Renderer) (i : Nat) : Renderer :=
  { st with
    trace := st.trace ++ [Event.backBufferReset i],
    gFrameFenceValues :=
      st.gFrameFenceValues.set i (st.gFrameFenceValues.getD st.gCurrentBackBufferIndex 0) }

/-- The function `resize`. The arguments are `uint32_t` values. -/
def resize (s : Renderer) (width height : Nat) (e : FrameEnv) : Renderer :=
  if s.gClientWidth ≠ width ∨ s.gClientHeight ≠ height then
    let s1 := { s with gClientWidth := max 1 width, gClientHeight := max 1 height }
    let s2 := flush s1 e.reached e.woken
    let s3 := (List.range gNumFrames).foldl releaseBackBuffer s2
    let s4 := { s3 with
      trace := s3.trace ++ [Event.getDesc,
                            Event.resizeBuffers gNumFrames s3.gClientWidth s3.gClientHeight] }
    let s5 := { s4 with
      gCurrentBackBufferIndex := e.nextIndex,
      trace := s4.trace ++ [Event.getCurrentBackBufferIndex] }
    updateRenderTargetViews s5
  else s

/-! ## Window procedure and fullscreen switch -/

/-- The window style `WS_CAPTION` of the Windows SDK. -/
def WS_CAPTION : Nat := 0x00C00000

/-- The window style `WS_SYSMENU` of the Windows SDK. -/
def WS_SYSMENU : Nat := 0x00080000

/-- The window style `WS_THICKFRAME` of the Windows SDK. -/
def WS_THICKFRAME : Nat := 0x00040000

/-- The window style `WS_MINIMIZEBOX` of the Windows SDK. -/
def WS_MINIMIZEBOX : Nat := 0x00020000

/-- The window style `WS_MAXIMIZEBOX` of the Windows SDK. -/
def WS_MAXIMIZEBOX : Nat := 0x00010000

/-- The window style `WS_OVERLAPPEDWINDOW` of the Windows SDK: an overlapped window with
caption, system menu, sizing frame, minimise and maximise box. -/
def WS_OVERLAPPEDWINDOW : Nat :=
  WS_CAPTION ||| WS_SYSMENU ||| WS_THICKFRAME ||| WS_MINIMIZEBOX ||| WS_MAXIMIZEBOX

/-- The 32-bit complement `~x`. -/
def complement32 (x : Nat) : Nat := 0xFFFFFFFF ^^^ (x % UINT32_SIZE)

/-- The constant `HWND_TOP`. -/
def HWND_TOP : Int := 0

/-- The constant `HWND_NOTOPMOST`. -/
def HWND_NOTOPMOST : Int := -2

/-- The flag `SWP_NOACTIVATE`. -/
def SWP_NOACTIVATE : Nat := 0x0010

/-- The flag `SWP_FRAMECHANGED`. -/
def SWP_FRAMECHANGED : Nat := 0x0020

/-- The show command `SW_NORMAL`. -/
def SW_NORMAL : Nat := 1

/-- The show command `SW_MAXIMIZE`. -/
def SW_MAXIMIZE : Nat := 3

/-- What the window system reports during `setFullscreen`. -/
structure WindowEnv where
  /-- Rectangle `GetWindowRect(ghWnd, ...)` reports: the one the window has right now. -/
  windowRect : Rect
  /-- The field `rcMonitor` that `GetMonitorInfo` reports for the nearest monitor. -/
  monitorRect : Rect
  deriving DecidableEq, Repr

/-- The function `setFullscreen`. Nothing happens when `gFullscreen` already has the
requested value. Going fullscreen stores the current window rectangle in `gWindowRect`,
switches to the borderless style and covers the nearest monitor; going back restores the
overlapped-window style and the stored rectangle. Coordinates are `LONG` values and the
extents are their differences, computed in 32 bits. -/
def setFullscreen (s : Renderer) (fullscreen : Bool) (w : WindowEnv) : Renderer :=
  if s.gFullscreen ≠ fullscreen then
    let s1 := { s with gFullscreen := fullscreen }
    if s1.gFullscreen then
      let s2 := { s1 with
        gWindowRect := w.windowRect,
        trace := s1.trace ++ [Event.getWindowRect] }
      let windowStyle := WS_OVERLAPPEDWINDOW &&& complement32
        (WS_CAPTION ||| WS_SYSMENU ||| WS_THICKFRAME ||| WS_MINIMIZEBOX ||| WS_MAXIMIZEBOX)
      { s2 with
        trace := s2.trace ++ [Event.setWindowLong windowStyle,
          Event.monitorFromWindow, Event.getMonitorInfo,
          Event.setWindowPos HWND_TOP w.monitorRect.left w.monitorRect.top
            (subLONG w.monitorRect.right w.monitorRect.left)
            (subLONG w.monitorRect.bottom w.monitorRect.top)
            (SWP_FRAMECHANGED ||| SWP_NOACTIVATE),
          Event.showWindow SW_MAXIMIZE] }
    else
      { s1 with
        trace := s1.trace ++ [Event.setWindowLong WS_OVERLAPPEDWINDOW,
          Event.setWindowPos HWND_NOTOPMOST s1.gWindowRect.left s1.gWindowRect.top
            (subLONG s1.gWindowRect.right s1.gWindowRect.left)
            (subLONG s1.gWindowRect.bottom s1.gWindowRect.top)
            (SWP_FRAMECHANGED ||| SWP_NOACTIVATE),
          Event.showWindow SW_NORMAL] }
  else s

/-- The virtual-key code of the letter V, the character constant `'V'`. -/
def VK_V : Nat := 0x56

/-- The virtual-key code `VK_SPACE`. -/
def VK_SPACE : Nat := 0x20

/-- The virtual-key code `VK_ESCAPE`. -/
def VK_ESCAPE : Nat := 0x1B

/-- The virtual-key code `VK_RETURN`. -/
def VK_RETURN : Nat := 0x0D

/-- The virtual-key code `VK_F11`. -/
def VK_F11 : Nat := 0x7A

/-- The window title shown while ray tracing is on. -/
def titleRtxOn : String := "Unreal Engine 6 (RTX: on)"

/-- The window title shown while ray tracing is off. -/
def titleRtxOff : String := "Unreal Engine 6 (RTX: off)"

/-- The messages `WndProc` distinguishes; `other` stands for every message it leaves to
`DefWindowProcW`. -/
inductive Message where
  | WM_PAINT
  | WM_SYSKEYDOWN
  | WM_KEYDOWN
  | WM_SYSCHAR
  | WM_SIZE
  | WM_DESTROY
  | other
  deriving DecidableEq, Repr

/-- What the outside world hands back while one message is handled. -/
structure MessageEnv where
  /-- Swap-chain index and fence progress, for `render` and `resize`. -/
  frame : FrameEnv
  /-- Whether `GetAsyncKeyState(VK_MENU)` has its top bit set: Alt is held. -/
  alt : Bool
  /-- Window and monitor rectangles, for `setFullscreen`. -/
  window : WindowEnv
  /-- Rectangle `GetClientRect(ghWnd, ...)` reports. -/
  clientRect : Rect
  deriving DecidableEq, Repr

/-- The inner `switch (wParam)` of `WndProc` for a key-down message. The case label
`VK_F11` sits inside the `if (alt)` block of the case `VK_RETURN`: F11 always reaches
`setFullscreen(!gFullscreen)`, Enter only with Alt held. -/
def keyDown (s : Renderer) (wParam : Nat) (env : MessageEnv) : Renderer :=
  if wParam = VK_V then
    { s with gVSync := !s.gVSync }
  else if wParam = VK_SPACE then
    let s1 := { s with gRayTracingEnabled := !s.gRayTracingEnabled }
    if s1.gRayTracingEnabled then
      { s1 with trace := s1.trace ++ [Event.setWindowText titleRtxOn] }
    else
      { s1 with trace := s1.trace ++ [Event.setWindowText titleRtxOff] }
  else if wParam = VK_ESCAPE then
    { s with trace := s.trace ++ [Event.postQuitMessage 0] }
  else if wParam = VK_RETURN then
    if env.alt then setFullscreen s (!s.gFullscreen) env.window else s
  else if wParam = VK_F11 then
    setFullscreen s (!s.gFullscreen) env.window
  else s

/-- The conversion of an `int` argument to the `uint32_t` parameter of `resize`. -/
def toUInt32 (x : Int) : Nat := (x % (UINT32_SIZE : Int)).toNat

/-- The function `WndProc`. Before start-up has finished every message goes to
`DefWindowProcW`. The call `update()` made for `WM_PAINT` only maintains its own frame
counter and is left out. -/
def WndProc (s : Renderer) (message : Message) (wParam : Nat) (env : MessageEnv) : Renderer :=
  if s.gIsInitialized then
    match message with
    | Message.WM_PAINT => render s env.frame
    | Message.WM_SYSKEYDOWN => keyDown s wParam env
    | Message.WM_KEYDOWN => keyDown s wParam env
    | Message.WM_SYSCHAR => s
    | Message.WM_SIZE =>
      let width := subLONG env.clientRect.right env.clientRect.left
      let height := subLONG env.clientRect.bottom env.clientRect.top
      resize { s with trace := s.trace ++ [Event.getClientRect] }
        (toUInt32 width) (toUInt32 height) env.frame
    | Message.WM_DESTROY => { s with trace := s.trace ++ [Event.postQuitMessage 0] }
    | Message.other => { s with trace := s.trace ++ [Event.defWindowProc] }
  else { s with trace := s.trace ++ [Event.defWindowProc] }

/-- The exit codes passed to `PostQuitMessage` in a trace, oldest first. -/
def quitRequests (t : List Event) : List Int :=
  t.filterMap fun ev =>
    match ev with
    | Event.postQuitMessage c => some c
    | _ => none

/-- A message environment used in examples: Alt not held, a 1296 x 759 window at (320, 180)
on a 1920 x 1080 monitor. -/
def envDefault : MessageEnv :=
  { frame := { nextIndex := 1, reached := 0, woken := 0 }
    alt := false
    window := { windowRect := { left := 320, top := 180, right := 1616, bottom := 939 },
                monitorRect := { left := 0, top := 0, right := 1920, bottom := 1080 } }
    clientRect := { left := 0, top := 0, right := 1280, bottom := 720 } }

/-- The environment `envDefault` with Alt held. -/
def envAlt : MessageEnv := { envDefault with alt := true }

/-! ## Adapter selection -/

/-- The flag `DXGI_ADAPTER_FLAG_SOFTWARE`. -/
def DXGI_ADAPTER_FLAG_SOFTWARE : Nat := 2

/-- What `getAdapter` learns about one enumerated adapter: the fields `Flags` and
`DedicatedVideoMemory` of its `DXGI_ADAPTER_DESC1`, and whether the trial call of
`D3D12CreateDevice` on it succeeds. -/
structure AdapterDesc where
  flags : Nat
  dedicatedVideoMemory : Nat
  createsDevice : Bool
  deriving DecidableEq, Repr

/-- An adapter is eligible when it is not a software adapter and can create a D3D12 device. -/
def AdapterDesc.eligible (d : AdapterDesc) : Bool :=
  (d.flags &&& DXGI_ADAPTER_FLAG_SOFTWARE == 0) && d.createsDevice

/-- The locals of `getAdapter` that survive an iteration: the largest memory seen so far
and the adapter held in `dxgiAdapter4`, as its enumeration index (`none` for the empty
pointer). -/
structure AdapterScan where
  maxDedicatedVideoMemory : Nat
  dxgiAdapter4 : Option Nat
  deriving DecidableEq, Repr

/-- One iteration of the loop of `getAdapter`, for the adapter enumerated at index `i`. The
conversion of the adapter to `IDXGIAdapter4` is taken to succeed. -/
def getAdapterStep (st : AdapterScan) (i : Nat) (d : AdapterDesc) : AdapterScan :=
  if (d.flags &&& DXGI_ADAPTER_FLAG_SOFTWARE) = 0 ∧ d.createsDevice = true
      ∧ d.dedicatedVideoMemory > st.maxDedicatedVideoMemory then
    { maxDedicatedVideoMemory := d.dedicatedVideoMemory, dxgiAdapter4 := some i }
  else st

/-- The loop of `getAdapter` over the adapters `EnumAdapters1` yields from index `i` on. -/
def getAdapterLoop : AdapterScan → Nat → List AdapterDesc → AdapterScan
  | st, _, [] => st
  | st, i, d :: rest => getAdapterLoop (getAdapterStep st i d) (i + 1) rest

/-- The function `getAdapter`: the enumeration index of the adapter it returns, `none` when
it returns the empty pointer. -/
def getAdapter (adapters : List AdapterDesc) : Option Nat :=
  (getAdapterLoop { maxDedicatedVideoMemory := 0, dxgiAdapter4 := none } 0 adapters).dxgiAdapter4

/-! ## Acceleration structures -/

/-- The largest value of an `int`. -/
def INT_MAX : Nat := 2 ^ 31 - 1

/-- The record `AccelerationStructureBuffers`; buffers are named by their handles, 0 for
the empty pointer. -/
structure AccelerationStructureBuffers where
  pScratch : Nat
  pResult : Nat
  pInstanceDesc : Nat
  deriving DecidableEq, Repr

/-- Modelled from the spec: the class `nv_helpers_dx12::BottomLevelASGenerator`
(`dxr/BottomLevelASGenerator.h`, not among the sources). Section 4.4: "for each vertex
buffer, register it as a geometry input (stride, count, no index buffer in the base case)".
The generator is the list of vertex buffers registered so far. -/
structure BottomLevelASGenerator where
  vertexBuffers : List VertexBufferEntry
  deriving DecidableEq, Repr

/-- Modelled from the spec: the method `BottomLevelASGenerator::AddVertexBuffer`, which
registers one more vertex buffer. -/
def BottomLevelASGenerator.AddVertexBuffer (g : BottomLevelASGenerator)
    (vertexBuffer vertexOffsetInBytes vertexCount vertexSizeInBytes transformBuffer
      transformOffsetInBytes : Nat) : BottomLevelASGenerator :=
  { vertexBuffers := g.vertexBuffers ++
      [{ vertexBuffer := vertexBuffer, vertexOffsetInBytes := vertexOffsetInBytes,
         vertexCount := vertexCount, vertexSizeInBytes := vertexSizeInBytes,
         transformBuffer := transformBuffer,
         transformOffsetInBytes := transformOffsetInBytes }] }

/-- Modelled from the spec: the method `BottomLevelASGenerator::Generate`. Section 4.4:
"issue a build command into the active command list, writing into `result` using `scratch`
as working memory". -/
def BottomLevelASGenerator.Generate (g : BottomLevelASGenerator) (commandList : List Cmd)
    (scratch result : Nat) : List Cmd :=
  commandList ++ [Cmd.buildBottomLevelAS g.vertexBuffers scratch result]

/-- Modelled from the spec: the class `nv_helpers_dx12::TopLevelASGenerator`
(`dxr/TopLevelASGenerator.h`, not among the sources). Section 4.4: "register each instance
with its world transform and a unique instance index". The generator is the list of
instances registered so far. -/
structure TopLevelASGenerator where
  instances : List Instance
  deriving DecidableEq, Repr

/-- Modelled from the spec: the method `TopLevelASGenerator::AddInstance`, which registers
one more instance with the given transform, instance index and hit-group index. -/
def TopLevelASGenerator.AddInstance (g : TopLevelASGenerator) (bottomLevelAS : Nat)
    (transform : Transform) (instanceID hitGroupIndex : Nat) : TopLevelASGenerator :=
  { instances := g.instances ++
      [{ bottomLevelAS := bottomLevelAS, transform := transform, instanceID := instanceID,
         hitGroupIndex := hitGroupIndex }] }

/-- Modelled from the spec: the method `TopLevelASGenerator::Generate`. Section 4.4: "issue
the TLAS build command referencing the instance-descriptor buffer". -/
def TopLevelASGenerator.Generate (g : TopLevelASGenerator) (commandList : List Cmd)
    (scratch result instanceDescs : Nat) : List Cmd :=
  commandList ++ [Cmd.buildTopLevelAS g.instances scratch result instanceDescs]

/-- The function `createBottomLevelAS`. `sizeofVertex` is `sizeof(Vertex)` (the type is
declared in `vertex.h`); `scratch` and `result` are the buffers `CreateBuffer` returns. The
result is the buffer record and the command list after the build command was recorded. -/
def createBottomLevelAS (commandList : List Cmd) (vertexBuffers : List (Nat × Nat))
    (sizeofVertex scratch result : Nat) : AccelerationStructureBuffers × List Cmd :=
  let bottomLevelAS := vertexBuffers.foldl
    (fun g buffer => g.AddVertexBuffer buffer.1 0 buffer.2 sizeofVertex 0 0)
    ({ vertexBuffers := [] } : BottomLevelASGenerator)
  let buffers : AccelerationStructureBuffers :=
    { pScratch := scratch, pResult := result, pInstanceDesc := 0 }
  (buffers, bottomLevelAS.Generate commandList buffers.pScratch buffers.pResult)

/-- The loop of `createTopLevelAS` from counter value `i` on: instance `i` of the input is
registered with instance index `static_cast<UINT>(i)` and hit-group index 0. -/
def addInstances : TopLevelASGenerator → Nat → List (Nat × Transform) → TopLevelASGenerator
  | g, _, [] => g
  | g, i, inst :: rest =>
    addInstances (g.AddInstance inst.1 inst.2 (i % UINT32_SIZE) 0) (i + 1) rest

/-- The function `createTopLevelAS`; `scratch`, `result` and `instanceDesc` are the buffers
`CreateBuffer` returns. The result is the buffer record, the generator after the
registrations, and the command list after the build command was recorded. -/
def createTopLevelAS (commandList : List Cmd) (topLevelASGenerator : TopLevelASGenerator)
    (instances : List (Nat × Transform)) (scratch result instanceDesc : Nat) :
    AccelerationStructureBuffers × TopLevelASGenerator × List Cmd :=
  let generator := addInstances topLevelASGenerator 0 instances
  let buffers : AccelerationStructureBuffers :=
    { pScratch := scratch, pResult := result, pInstanceDesc := instanceDesc }
  (buffers, generator,
    generator.Generate commandList buffers.pScratch buffers.pResult buffers.pInstanceDesc)

/-- The buffers `CreateBuffer` hands out during `createAccelerationStructures`. -/
structure ASEnv where
  bottomScratch : Nat
  bottomResult : Nat
  topScratch : Nat
  topResult : Nat
  topInstanceDesc : Nat
  deriving DecidableEq, Repr

/-- What `createAccelerationStructures` leaves behind: its two output records, the
generator and the command list. -/
structure ASBuild where
  bottomLevelBuffers : AccelerationStructureBuffers
  topLevelBuffers : AccelerationStructureBuffers
  topLevelASGenerator : TopLevelASGenerator
  commandList : List Cmd
  deriving DecidableEq, Repr

/-- The function `createAccelerationStructures`: one vertex buffer of 3 vertices goes into
the bottom-level structure, whose result buffer becomes the one instance, at the identity
transform, of the top-level structure. -/
def createAccelerationStructures (commandList : List Cmd) (vertexBuffer sizeofVertex : Nat)
    (topLevelASGenerator : TopLevelASGenerator) (env : ASEnv) : ASBuild :=
  let vertexBuffers := [(vertexBuffer, 3)]
  let bottom := createBottomLevelAS commandList vertexBuffers sizeofVertex
    env.bottomScratch env.bottomResult
  let instances := [(bottom.1.pResult, Transform.identity)]
  let top := createTopLevelAS bottom.2 topLevelASGenerator instances
    env.topScratch env.topResult env.topInstanceDesc
  { bottomLevelBuffers := bottom.1
    topLevelBuffers := top.1
    topLevelASGenerator := top.2.1
    commandList := top.2.2 }

/-! ## Shader binding table -/

/-- Modelled from the spec: one record handed to the class
`nv_helpers_dx12::ShaderBindingTableGenerator` (`dxr/ShaderBindingTableGenerator.h`, not
among the sources): an entry-point name and the list of its root arguments. -/
structure SBTEntry where
  entryPoint : String
  inputData : List Nat
  deriving DecidableEq, Repr

/-- Modelled from the spec: the class `nv_helpers_dx12::ShaderBindingTableGenerator`, which
is not among the sources. Section 3: the table is "an ordered sequence of fixed-stride
records grouped into three contiguous sections", ray-generation, miss and hit-group. The
generator is the three lists of records added so far. -/
structure ShaderBindingTableGenerator where
  rayGen : List SBTEntry
  miss : List SBTEntry
  hitGroup : List SBTEntry
  deriving DecidableEq, Repr

/-- Modelled from the spec: the sizes the table layout depends on and the spec leaves
symbolic: the size of the shader identifier that heads every record, the size of one root
argument, the record alignment and the section alignment `A`. -/
structure SBTConstants where
  identifierSize : Nat
  argumentSize : Nat
  recordAlignment : Nat
  sectionAlignment : Nat
  deriving DecidableEq, Repr

/-- Modelled from the spec: `alignUp(x, a)`, the least multiple of `a` that is at least `x`. -/
def alignUp (x a : Nat) : Nat := (x + a - 1) / a * a

/-- Modelled from the spec: the method `ShaderBindingTableGenerator::Reset`. Section 4.5:
"clears any previously accumulated records". -/
def ShaderBindingTableGenerator.Reset (_g : ShaderBindingTableGenerator) :
    ShaderBindingTableGenerator :=
  { rayGen := [], miss := [], hitGroup := [] }

/-- Modelled from the spec: the method `AddRayGenerationProgram`, which appends a
ray-generation record (section 4.5: "append typed records"). -/
def ShaderBindingTableGenerator.AddRayGenerationProgram (g : ShaderBindingTableGenerator)
    (entryPoint : String) (inputData : List Nat) : ShaderBindingTableGenerator :=
  { g with rayGen := g.rayGen ++ [{ entryPoint := entryPoint, inputData := inputData }] }

/-- Modelled from the spec: the method `AddMissProgram`, which appends a miss record. -/
def ShaderBindingTableGenerator.AddMissProgram (g : ShaderBindingTableGenerator)
    (entryPoint : String) (inputData : List Nat) : ShaderBindingTableGenerator :=
  { g with miss := g.miss ++ [{ entryPoint := entryPoint, inputData := inputData }] }

/-- Modelled from the spec: the method `AddHitGroup`, which appends a hit-group record. -/
def ShaderBindingTableGenerator.AddHitGroup (g : ShaderBindingTableGenerator)
    (entryPoint : String) (inputData : List Nat) : ShaderBindingTableGenerator :=
  { g with hitGroup := g.hitGroup ++ [{ entryPoint := entryPoint, inputData := inputData }] }

/-- Modelled from the spec: the byte size of one record. Section 4.5: "header (opaque
shader identifier, fixed size) + concatenated root-argument bytes". -/
def recordSize (c : SBTConstants) (e : SBTEntry) : Nat :=
  c.identifierSize + c.argumentSize * e.inputData.length

/-- Modelled from the spec: the stride of a group. Section 4.5: "per-group stride = max
record size within that group, rounded up to the GPU record-alignment boundary". -/
def entrySize (c : SBTConstants) (entries : List SBTEntry) : Nat :=
  alignUp ((entries.map (recordSize c)).foldl max 0) c.recordAlignment

/-- Modelled from the spec: the size of a section. Section 4.5: "section size = stride x
record count, each section additionally rounded up to the section-alignment boundary". -/
def sectionSize (c : SBTConstants) (entries : List SBTEntry) : Nat :=
  alignUp (entrySize c entries * entries.length) c.sectionAlignment

/-- Modelled from the spec: the method `ComputeSBTSize`. Section 4.5: "total = sum of the
three section sizes". -/
def ShaderBindingTableGenerator.ComputeSBTSize (g : ShaderBindingTableGenerator)
    (c : SBTConstants) : Nat :=
  sectionSize c g.rayGen + sectionSize c g.miss + sectionSize c g.hitGroup

/-- Modelled from the spec: what the getters `GetRayGenSectionSize`, `GetMissSectionSize`,
`GetMissEntrySize`, `GetHitGroupSectionSize` and `GetHitGroupEntrySize` of the generator
report to `render`, for a table stored at `address`: the section sizes and strides of
section 4.5. -/
def ShaderBindingTableGenerator.info (g : ShaderBindingTableGenerator) (c : SBTConstants)
    (address : Nat) : SBTInfo :=
  { address := address
    rayGenSectionSize := sectionSize c g.rayGen
    missSectionSize := sectionSize c g.miss
    missEntrySize := entrySize c g.miss
    hitGroupSectionSize := sectionSize c g.hitGroup
    hitGroupEntrySize := entrySize c g.hitGroup }

/-- The entry-point name of the ray-generation shader. -/
def nameRayGen : String := "RayGen"

/-- The entry-point name of the miss shader. -/
def nameMiss : String := "Miss"

/-- The name of the hit group. -/
def nameHitGroup : String := "HitGroup"

/-- The function `createShaderBindingTable`, up to the allocation of the buffer: the
generator after the four registrations (the miss program is added twice), and the
`uint32_t` size the buffer is created with. `heapPointer` is the start of the descriptor
heap and `vertexBufferAddress` the GPU address of the vertex buffer. -/
def createShaderBindingTable (sbtGenerator : ShaderBindingTableGenerator) (c : SBTConstants)
    (heapPointer vertexBufferAddress : Nat) : ShaderBindingTableGenerator × Nat :=
  let g0 := sbtGenerator.Reset
  let g1 := g0.AddRayGenerationProgram nameRayGen [heapPointer]
  let g2 := g1.AddMissProgram nameMiss []
  let g3 := g2.AddMissProgram nameMiss []
  let g4 := g3.AddHitGroup nameHitGroup [vertexBufferAddress]
  let sbtSize := g4.ComputeSBTSize c % UINT32_SIZE
  (g4, sbtSize)

/-- The sizes of Direct3D 12 on a 64-bit target: 32-byte shader identifiers, 8-byte root
arguments, records aligned to 32 bytes and sections to 64 bytes. -/
def d3d12Constants : SBTConstants :=
  { identifierSize := 32, argumentSize := 8, recordAlignment := 32, sectionAlignment := 64 }

/-! ## Command line -/

/-- The characters `iswspace` accepts in the C locale: space, tab, line feed, vertical tab,
form feed and carriage return. -/
def iswspace (ch : Char) : Bool :=
  ch.toNat == 32 || (9 ≤ ch.toNat && ch.toNat ≤ 13)

/-- The C library call `wcstol(str, nullptr, 10)`: leading white space is skipped, an
optional sign is read, then decimal digits as far as they go. No digits give 0; a value
outside the range of `long` gives `LONG_MAX` or `LONG_MIN`. -/
def wcstol (str : String) : Int :=
  let rest := str.toList.dropWhile iswspace
  let negative := rest.head? == some '-'
  let unsigned :=
    if rest.head? == some '-' || rest.head? == some '+' then rest.drop 1 else rest
  let digits := unsigned.takeWhile Char.isDigit
  let magnitude : Nat := digits.foldl (fun acc ch => acc * 10 + (ch.toNat - 48)) 0
  let value : Int := if negative then -(magnitude : Int) else (magnitude : Int)
  if value > LONG_MAX then LONG_MAX else if value < LONG_MIN then LONG_MIN else value

/-- The option `-w`. -/
def optW : String := "-w"

/-- The option `--width`. -/
def optWidth : String := "--width"

/-- The option `-h`. -/
def optH : String := "-h"

/-- The option `--height`. -/
def optHeight : String := "--height"

/-- Whether an argument is one of the four options `parseCommandLineArguments` knows. -/
def isSizeOption (arg : String) : Bool :=
  arg == optW || arg == optWidth || arg == optH || arg == optHeight

/-- The progress of `parseCommandLineArguments`: the globals, the indices at which `argv`
has been read so far (oldest first), and whether an element past the end of `argv` was
read, after which nothing is known about the run. -/
structure ArgScan where
  state : Renderer
  reads : List Nat
  fault : Bool
  deriving DecidableEq, Repr

/-- The read of `argv[j]` as the value of an option: the element is parsed with `wcstol`
and stored, as a `uint32_t`, by `store`. The index is not compared with `argc`; reading an
element that does not exist is recorded as a fault. -/
def readValue (argv : List String) (st : ArgScan) (j : Nat)
    (store : Renderer → Nat → Renderer) : ArgScan :=
  match argv[j]? with
  | some value =>
    { st with state := store st.state (toUInt32 (wcstol value)), reads := st.reads ++ [j] }
  | none => { st with reads := st.reads ++ [j], fault := true }

/-- One iteration of the loop of `parseCommandLineArguments`, for `i < argc`. -/
def parseStep (argv : List String) (st : ArgScan) (i : Nat) : ArgScan :=
  if st.fault then st
  else
    let arg := argv.getD i ""
    let st0 := { st with reads := st.reads ++ [i] }
    let st1 :=
      if arg = optW ∨ arg = optWidth then
        readValue argv st0 (i + 1) fun s v => { s with gClientWidth := v }
      else st0
    if arg = optH ∨ arg = optHeight then
      readValue argv st1 (i + 1) fun s v => { s with gClientHeight := v }
    else st1

/-- The function `parseCommandLineArguments` on the argument vector `argv` (of length
`argc`) that `CommandLineToArgvW` returns. -/
def parseCommandLineArguments (s : Renderer) (argv : List String) : ArgScan :=
  (List.range argv.length).foldl (parseStep argv) { state := s, reads := [], fault := false }

/-- The program name, as the first element of every argument vector. -/
def programName : String := "renderer.exe"

/-! ## Start-up -/

/-- The static initialisers of the globals; the fence is created with value 0. -/
def startup : Renderer :=
  { gClientWidth := 1280
    gClientHeight := 720
    gIsInitialized := false
    gWindowRect := { left := 0, top := 0, right := 0, bottom := 0 }
    gCurrentBackBufferIndex := 0
    gFenceValue := 0
    gFrameFenceValues := List.replicate gNumFrames 0
    gVSync := true
    gTearingSupported := false
    gFullscreen := false
    gRayTracingEnabled := false
    sbt := { address := 0, rayGenSectionSize := 0, missSectionSize := 0, missEntrySize := 0,
             hitGroupSectionSize := 0, hitGroupEntrySize := 0 }
    completed := 0
    trace := []
    submitted := [] }

/-- What the outside world supplies during start-up. -/
structure BootEnv where
  /-- Client size left in `gClientWidth`, `gClientHeight` by `parseCommandLineArguments`. -/
  width : Nat
  height : Nat
  /-- Result of `checkTearingSupport()`. -/
  tearing : Bool
  /-- Rectangle of the freshly created window, as `GetWindowRect` reports it. -/
  windowRect : Rect
  /-- Back-buffer index reported right after the swap chain is created. -/
  firstIndex : Nat
  /-- Layout of the shader binding table built during start-up. -/
  sbt : SBTInfo
  /-- Commands recorded into the set-up command list (the acceleration-structure builds). -/
  setupCommands : List Cmd
  /-- Fence progress during the closing `flush`, and the index reported after it. -/
  frame : FrameEnv
  deriving DecidableEq, Repr

/-- The part of `wWinMain` before the message loop, as far as it touches the frame-loop
state: the creation of the swap chain with the client size, the first index query, the
render-target views, the set-up command list (recorded on the allocator of the first index),
the creation of the ray-tracing output image with the client size, the submission of the
command list, the `flush`, and the second index query. -/
def wWinMainInit (b : BootEnv) : Renderer :=
  let s0 := { startup with
    gClientWidth := b.width, gClientHeight := b.height, gTearingSupported := b.tearing,
    gWindowRect := b.windowRect }
  let s1 := { s0 with
    gCurrentBackBufferIndex := b.firstIndex,
    trace := s0.trace ++ [Event.createSwapChain s0.gClientWidth s0.gClientHeight gNumFrames,
                          Event.getCurrentBackBufferIndex] }
  let s2 := updateRenderTargetViews s1
  let s3 := { s2 with
    sbt := b.sbt,
    trace := s2.trace ++ [Event.createRaytracingOutputBuffer s2.gClientWidth s2.gClientHeight,
                          Event.close, Event.executeCommandLists b.setupCommands] }
  let s4 := flush s3 b.frame.reached b.frame.woken
  let s5 := { s4 with submitted := s4.submitted ++ [(b.firstIndex, s4.gFenceValue)] }
  { s5 with
    gCurrentBackBufferIndex := b.frame.nextIndex,
    trace := s5.trace ++ [Event.getCurrentBackBufferIndex],
    gIsInitialized := true }

/-! ## Runs of the message loop -/

/-- What can happen after start-up: a `render()` call, a `resize(w, h)` call, or the GPU
making progress between two calls. -/
inductive Action where
  | render (e : FrameEnv)
  | resize (width height : Nat) (e : FrameEnv)
  | gpu (reached : Nat)
  deriving DecidableEq, Repr

/-- Effect of one action. -/
def step (s : Renderer) : Action → Renderer
  | Action.render e => render s e
  | Action.resize width height e => resize s width height e
  | Action.gpu reached => gpuAdvance s reached

/-- Effect of a sequence of actions, oldest first. -/
def run (s : Renderer) (acts : List Action) : Renderer :=
  acts.foldl step s

/-- The swap chain only reports indices of existing back buffers. -/
def Action.indexOk : Action → Prop
  | Action.render e => e.nextIndex < gNumFrames
  | Action.resize _ _ e => e.nextIndex < gNumFrames
  | Action.gpu _ => True

instance (a : Action) : Decidable a.indexOk := by
  cases a <;> simp only [Action.indexOk] <;> infer_instance

/-- A start-up with the default 1280 x 720 client size, first back buffer 0, and a GPU that
does no more than it is waited for; the swap chain reports back buffer 0 after the flush. -/
def bootDefault : BootEnv :=
  { width := 1280
    height := 720
    tearing := false
    windowRect := { left := 320, top := 180, right := 1616, bottom := 939 }
    firstIndex := 0
    sbt := { address := 0, rayGenSectionSize := 0, missSectionSize := 0, missEntrySize := 0,
             hitGroupSectionSize := 0, hitGroupEntrySize := 0 }
    setupCommands := []
    frame := { nextIndex := 0, reached := 0, woken := 0 } }

/-- The fence values passed to `commandQueue->Signal` in a trace, oldest first. -/
def signalled (t : List Event) : List Nat :=
  t.filterMap fun ev =>
    match ev with
    | Event.signal v => some v
    | _ => none

/-- Fence value signalled at the most recent submission on `slot`, if there was one. -/
def lastSubmitted (hist : List (Nat × Nat)) (slot : Nat) : Option Nat :=
  ((hist.filter fun f => f.1 == slot).getLast?).map Prod.snd

/-- The submitted frames whose signalled fence value is still greater than the completed
value of the fence. -/
def inFlight (s : Renderer) : List (Nat × Nat) :=
  s.submitted.filter fun f => decide (s.completed < f.2)

/-- The invariant of the frame ring between two calls: the current index and the fence-value
array are well formed, every fence value issued so far is at most the counter, later
submissions carry larger fence values, a submission the GPU has not reached yet is the one
recorded in its slot, and the fence has reached the value recorded in the current slot. -/
structure FrameInv (s : Renderer) : Prop where
  index_lt : s.gCurrentBackBufferIndex < gNumFrames
  length_eq : s.gFrameFenceValues.length = gNumFrames
  submitted_le : ∀ f ∈ s.submitted, f.2 ≤ s.gFenceValue
  signalled_le : ∀ v ∈ signalled s.trace, v ≤ s.gFenceValue
  increasing : s.submitted.Pairwise fun a b => a.2 < b.2
  recorded : ∀ f ∈ s.submitted, s.completed < f.2 →
    f.1 < gNumFrames ∧ s.gFrameFenceValues.getD f.1 0 = f.2
  current_idle : s.gFrameFenceValues.getD s.gCurrentBackBufferIndex 0 ≤ s.completed

/-- A run used as an example: three frames on back buffers 0, 1, 2 with the GPU lagging,
a resize to 800 x 600, and one more frame. -/
def sampleRun : List Action :=
  [ Action.render { nextIndex := 1, reached := 0, woken := 0 },
    Action.render { nextIndex := 2, reached := 0, woken := 0 },
    Action.render { nextIndex := 0, reached := 0, woken := 0 },
    Action.gpu 3,
    Action.resize 800 600 { nextIndex := 0, reached := 0, woken := 0 },
    Action.render { nextIndex := 1, reached := 0, woken := 0 } ]

/-- The values returned by `n` successive calls of `signal` on the same counter, oldest first. -/
def signalReturns : Nat → Renderer → List Nat
  | 0, _ => []
  | n + 1, s => (signal s).2 :: signalReturns n (signal s).1

/-! ## Resource states along a recorded command list -/

/-- The states of the two resources `render` transitions, as tracked while walking through
a command list: the back buffer of the frame and the ray-tracing output image. -/
structure Tracked where
  backBuffer : ResourceState
  output : ResourceState
  deriving DecidableEq, Repr

/-- One step of the walk for the frame on back buffer `i`. A transition barrier must name
the tracked state of its resource as its `before` state and moves the resource to its
`after` state; a clear or a draw needs the back buffer in `renderTarget`; `DispatchRays`
needs the output image in `unorderedAccess`; `CopyResource` must copy from the output image
in `copySource` to the back buffer in `copyDest`. `none` reports a violation. -/
def trackCmd (i : Nat) (t : Tracked) : Cmd → Option Tracked
  | Cmd.resourceBarrier (Resource.backBuffer j) before after =>
      if j = i ∧ t.backBuffer = before then some { t with backBuffer := after } else none
  | Cmd.resourceBarrier Resource.raytracingOutput before after =>
      if t.output = before then some { t with output := after } else none
  | Cmd.clearRenderTargetView _ =>
      if t.backBuffer = ResourceState.renderTarget then some t else none
  | Cmd.drawInstanced _ _ _ _ =>
      if t.backBuffer = ResourceState.renderTarget then some t else none
  | Cmd.dispatchRays _ =>
      if t.output = ResourceState.unorderedAccess then some t else none
  | Cmd.copyResource dst src =>
      if dst = Resource.backBuffer i ∧ src = Resource.raytracingOutput
          ∧ t.output = ResourceState.copySource ∧ t.backBuffer = ResourceState.copyDest
      then some t else none
  | _ => some t

/-- The walk over a whole command list; `none` as soon as one command violates the rules
of `trackCmd`. -/
def trackCommands (i : Nat) : Tracked → List Cmd → Option Tracked
  | t, [] => some t
  | t, c :: rest =>
    match trackCmd i t c with
    | some t2 => trackCommands i t2 rest
    | none => none

/-- The tracked states between two frames: back buffer presented, output image readable as
a copy source (the state `createRaytracingOutputBuffer` creates it in). -/
def betweenFrames : Tracked :=
  { backBuffer := ResourceState.present, output := ResourceState.copySource }

/-- A start-up like `bootDefault` whose shader binding table lies at address `0x10000` with
three 64-byte sections (one 64-byte ray-gen record, two 32-byte miss records, one 64-byte
hit-group record). -/
def bootRayTracing : BootEnv :=
  { bootDefault with
    sbt := { address := 0x10000, rayGenSectionSize := 64, missSectionSize := 64,
             missEntrySize := 32, hitGroupSectionSize := 64, hitGroupEntrySize := 64 } }

/-! ## Extents of the images a frame touches -/

/-- The extents requested for the swap-chain back buffers by the calls in a trace, oldest
first: the creation of the swap chain and every `ResizeBuffers` call. -/
def backBufferExtents (t : List Event) : List (Nat × Nat) :=
  t.filterMap fun ev =>
    match ev with
    | Event.createSwapChain w h _ => some (w, h)
    | Event.resizeBuffers _ w h => some (w, h)
    | _ => none

/-- The extent the back buffers have after the calls in a trace. -/
def backBufferExtent (t : List Event) : Option (Nat × Nat) :=
  (backBufferExtents t).getLast?

/-- The extents with which a ray-tracing output image was created by the calls in a trace,
oldest first. -/
def outputImageExtents (t : List Event) : List (Nat × Nat) :=
  t.filterMap fun ev =>
    match ev with
    | Event.createRaytracingOutputBuffer w h => some (w, h)
    | _ => none

/-- The extent of the ray-tracing output image after the calls in a trace. -/
def outputImageExtent (t : List Event) : Option (Nat × Nat) :=
  (outputImageExtents t).getLast?

/-- A window environment whose window rectangle spans the whole range of a `LONG`
horizontally: left edge `LONG_MIN`, right edge `LONG_MAX`, 100 units high, on a 1920 x 1080
monitor. -/
def wideWindow : WindowEnv :=
  { windowRect := { left := -2147483648, top := 0, right := 2147483647, bottom := 100 },
    monitorRect := { left := 0, top := 0, right := 1920, bottom := 1080 } }

/-! ## Fence synchroniser: properties -/

theorem signal_snd (s : Renderer) : (signal s).2 = (s.gFenceValue + 1) % UINT64_SIZE := rfl

theorem signal_fst_gFenceValue (s : Renderer) :
    (signal s).1.gFenceValue = (s.gFenceValue + 1) % UINT64_SIZE := rfl

theorem signalReturns_eq_range' (n : Nat) :
    ∀ s : Renderer, s.gFenceValue + n < UINT64_SIZE →
      signalReturns n s = List.range' (s.gFenceValue + 1) n := by
  induction n with
  | zero => intro s _; rfl
  | succ k ih =>
    intro s h
    have hlt : s.gFenceValue + 1 < UINT64_SIZE := by omega
    have hmod : (s.gFenceValue + 1) % UINT64_SIZE = s.gFenceValue + 1 := Nat.mod_eq_of_lt hlt
    have hk : (signal s).1.gFenceValue + k < UINT64_SIZE := by
      rw [signal_fst_gFenceValue, hmod]; omega
    rw [signalReturns, ih (signal s).1 hk, signal_snd, signal_fst_gFenceValue, hmod]
    rfl

/-- C3 (counterexample): starting from counter value `2^64 - 2`, two successive calls of
`signal` return `2^64 - 1` and then `0`: the second returned value is not greater than the
first, so the returned sequence is not strictly increasing. -/
theorem signal_returns_wrap_counterexample :
    signalReturns 2 { startup with gFenceValue := 2 ^ 64 - 2 } = [2 ^ 64 - 1, 0] ∧
    ¬ (signalReturns 2 { startup with gFenceValue := 2 ^ 64 - 2 }).Chain' (fun a b => a < b) ∧
    ¬ (signalReturns 2 { startup with gFenceValue := 2 ^ 64 - 2 }).Pairwise (fun a b => a < b) := by
  have h : signalReturns 2 { startup with gFenceValue := 2 ^ 64 - 2 } = [2 ^ 64 - 1, 0] := by
    decide
  refine ⟨h, ?_, ?_⟩ <;> rw [h] <;> simp

/-- C3 (amended): for every starting counter value `c` and every `n` with `c + n < 2^64`,
the values returned by `n` successive calls of `signal` are `c + 1, ..., c + n`, a strictly
increasing sequence. -/
theorem signal_returns_strictly_increasing (s : Renderer) (n : Nat)
    (h : s.gFenceValue + n < UINT64_SIZE) :
    signalReturns n s = List.range' (s.gFenceValue + 1) n ∧
    (signalReturns n s).Pairwise (fun a b => a < b) := by
  have hr := signalReturns_eq_range' n s h
  refine ⟨hr, ?_⟩
  rw [hr]
  exact List.pairwise_lt_range' _ _

/-- Instance of the amended C3 at counter value 5 and three calls. -/
theorem signal_returns_strictly_increasing_witness :
    ({ startup with gFenceValue := 5 } : Renderer).gFenceValue + 3 < UINT64_SIZE ∧
    signalReturns 3 { startup with gFenceValue := 5 }
      = List.range' (({ startup with gFenceValue := 5 } : Renderer).gFenceValue + 1) 3 ∧
    (signalReturns 3 { startup with gFenceValue := 5 }).Pairwise (fun a b => a < b) :=
  ⟨by decide, signal_returns_strictly_increasing { startup with gFenceValue := 5 } 3 (by decide)⟩

theorem trace_ne_append_two (t : List Event) (a b : Event) : t ≠ t ++ [a, b] := by
  intro h
  have := congrArg List.length h
  simp at this

/-- C4: `waitForFenceValue` changes nothing (no event is registered, no wait is made, the
state is returned as it was) exactly when the completed value of the fence is already at
least `V`; it registers an event for `V` and then waits exactly when the completed value is
below `V`. -/
theorem waitForFenceValue_noop_iff (s : Renderer) (V woken duration : Nat) :
    (waitForFenceValue s V woken duration = s ↔ V ≤ s.completed) ∧
    ((waitForFenceValue s V woken duration).trace = s.trace ↔ V ≤ s.completed) ∧
    ((waitForFenceValue s V woken duration).trace
        = s.trace ++ [Event.setEventOnCompletion V, Event.waitForSingleObject (toDWORD duration)]
      ↔ s.completed < V) := by
  by_cases h : s.completed < V
  · have hn : ¬ V ≤ s.completed := by omega
    have ht : (waitForFenceValue s V woken duration).trace
        = s.trace ++ [Event.setEventOnCompletion V,
            Event.waitForSingleObject (toDWORD duration)] := by
      simp [waitForFenceValue, h]
    refine ⟨⟨fun he => ?_, fun hh => absurd hh hn⟩, ⟨fun he => ?_, fun hh => absurd hh hn⟩,
      ⟨fun _ => h, fun _ => ht⟩⟩
    · rw [he] at ht; exact absurd ht (trace_ne_append_two _ _ _)
    · rw [he] at ht; exact absurd ht (trace_ne_append_two _ _ _)
  · have hv : V ≤ s.completed := by omega
    have he : waitForFenceValue s V woken duration = s := by
      simp [waitForFenceValue, h]
    refine ⟨⟨fun _ => hv, fun _ => he⟩, ⟨fun _ => hv, fun _ => by rw [he]⟩,
      ⟨fun ht => ?_, fun hh => absurd hh h⟩⟩
    rw [he] at ht
    exact absurd ht (trace_ne_append_two _ _ _)

/-! ### Fields left alone by the fence operations -/

@[simp] theorem waitForFenceValue_gFenceValue (s : Renderer) (V w d : Nat) :
    (waitForFenceValue s V w d).gFenceValue = s.gFenceValue := by
  unfold waitForFenceValue; split <;> rfl

@[simp] theorem waitForFenceValue_gFrameFenceValues (s : Renderer) (V w d : Nat) :
    (waitForFenceValue s V w d).gFrameFenceValues = s.gFrameFenceValues := by
  unfold waitForFenceValue; split <;> rfl

@[simp] theorem waitForFenceValue_gCurrentBackBufferIndex (s : Renderer) (V w d : Nat) :
    (waitForFenceValue s V w d).gCurrentBackBufferIndex = s.gCurrentBackBufferIndex := by
  unfold waitForFenceValue; split <;> rfl

@[simp] theorem waitForFenceValue_submitted (s : Renderer) (V w d : Nat) :
    (waitForFenceValue s V w d).submitted = s.submitted := by
  unfold waitForFenceValue; split <;> rfl

@[simp] theorem waitForFenceValue_gClientWidth (s : Renderer) (V w d : Nat) :
    (waitForFenceValue s V w d).gClientWidth = s.gClientWidth := by
  unfold waitForFenceValue; split <;> rfl

@[simp] theorem waitForFenceValue_gClientHeight (s : Renderer) (V w d : Nat) :
    (waitForFenceValue s V w d).gClientHeight = s.gClientHeight := by
  unfold waitForFenceValue; split <;> rfl

theorem toDWORD_millisecondsMax : toDWORD millisecondsMax = INFINITE := by decide

/-- An infinite wait returns with the fence at or beyond the awaited value. -/
theorem waitForFenceValue_reached (s : Renderer) (V w : Nat) :
    V ≤ (waitForFenceValue s V w millisecondsMax).completed := by
  unfold waitForFenceValue
  split
  · simp [toDWORD_millisecondsMax]
  · omega

/-- The completed value never decreases across a wait. -/
theorem waitForFenceValue_mono (s : Renderer) (V w d : Nat) :
    s.completed ≤ (waitForFenceValue s V w d).completed := by
  unfold waitForFenceValue
  split
  · simp only
    split
    · rename_i h _
      exact le_trans (Nat.le_of_lt h) (le_max_left _ _)
    · exact le_max_left _ _
  · exact le_refl _

@[simp] theorem signalled_append (t u : List Event) :
    signalled (t ++ u) = signalled t ++ signalled u := by
  simp [signalled, List.filterMap_append]

/-- The events `waitForFenceValue` adds are never `Signal` calls. -/
@[simp] theorem waitForFenceValue_signalled (s : Renderer) (V w d : Nat) :
    signalled (waitForFenceValue s V w d).trace = signalled s.trace := by
  unfold waitForFenceValue
  split
  · simp [signalled]
  · rfl

@[simp] theorem signalled_signal (v : Nat) : signalled [Event.signal v] = [v] := rfl

theorem flush_signalled (s : Renderer) (reached woken : Nat) :
    signalled (flush s reached woken).trace
      = signalled s.trace ++ [(s.gFenceValue + 1) % UINT64_SIZE] := by
  unfold flush
  rw [waitForFenceValue_signalled]
  simp [gpuAdvance, signal]

@[simp] theorem flush_gFenceValue (s : Renderer) (reached woken : Nat) :
    (flush s reached woken).gFenceValue = (s.gFenceValue + 1) % UINT64_SIZE := by
  simp [flush, gpuAdvance, signal]

@[simp] theorem flush_submitted (s : Renderer) (reached woken : Nat) :
    (flush s reached woken).submitted = s.submitted := by
  simp [flush, gpuAdvance, signal]

@[simp] theorem flush_gFrameFenceValues (s : Renderer) (reached woken : Nat) :
    (flush s reached woken).gFrameFenceValues = s.gFrameFenceValues := by
  simp [flush, gpuAdvance, signal]

@[simp] theorem flush_gCurrentBackBufferIndex (s : Renderer) (reached woken : Nat) :
    (flush s reached woken).gCurrentBackBufferIndex = s.gCurrentBackBufferIndex := by
  simp [flush, gpuAdvance, signal]

@[simp] theorem flush_gClientWidth (s : Renderer) (reached woken : Nat) :
    (flush s reached woken).gClientWidth = s.gClientWidth := by
  simp [flush, gpuAdvance, signal]

@[simp] theorem flush_gClientHeight (s : Renderer) (reached woken : Nat) :
    (flush s reached woken).gClientHeight = s.gClientHeight := by
  simp [flush, gpuAdvance, signal]

/-- When `flush` returns, the fence has reached the value it signalled. -/
theorem flush_reached (s : Renderer) (reached woken : Nat) :
    (flush s reached woken).gFenceValue ≤ (flush s reached woken).completed := by
  rw [flush_gFenceValue]
  exact waitForFenceValue_reached (gpuAdvance (signal s).1 reached) (signal s).2 woken

/-- The completed value never decreases across a `flush`. -/
theorem flush_mono (s : Renderer) (reached woken : Nat) :
    s.completed ≤ (flush s reached woken).completed := by
  unfold flush
  refine le_trans ?_ (waitForFenceValue_mono _ _ _ _)
  simp [gpuAdvance, signal]

/-- C5: `flush` is `signal` followed by `waitForFenceValue` on exactly the value `signal`
returned (with the default, infinite, duration). It advances `gFenceValue` by exactly 1, and
when it returns the completed value of the fence is at least the new `gFenceValue`, hence at
least every fence value signalled earlier and at least the fence value of every earlier
submission: all previously submitted work has retired. The counter is assumed not to be at
the last 64-bit value, and earlier fence values are those issued by this counter. -/
theorem flush_signal_then_wait (s : Renderer) (reached woken : Nat)
    (hno : s.gFenceValue + 1 < UINT64_SIZE)
    (hsig : ∀ v ∈ signalled s.trace, v ≤ s.gFenceValue)
    (hsub : ∀ f ∈ s.submitted, f.2 ≤ s.gFenceValue) :
    flush s reached woken
      = waitForFenceValue (gpuAdvance (signal s).1 reached) (signal s).2 woken millisecondsMax ∧
    (signal s).2 = s.gFenceValue + 1 ∧
    (flush s reached woken).gFenceValue = s.gFenceValue + 1 ∧
    (flush s reached woken).gFenceValue ≤ (flush s reached woken).completed ∧
    (∀ v ∈ signalled (flush s reached woken).trace, v ≤ (flush s reached woken).completed) ∧
    (∀ f ∈ (flush s reached woken).submitted, f.2 ≤ (flush s reached woken).completed) := by
  have hmod : (s.gFenceValue + 1) % UINT64_SIZE = s.gFenceValue + 1 := Nat.mod_eq_of_lt hno
  have hret : (signal s).2 = s.gFenceValue + 1 := by rw [signal_snd, hmod]
  have hfv : (flush s reached woken).gFenceValue = s.gFenceValue + 1 := by
    rw [flush_gFenceValue, hmod]
  have hge : s.gFenceValue + 1 ≤ (flush s reached woken).completed := by
    have h1 := flush_reached s reached woken
    rw [hfv] at h1
    exact h1
  refine ⟨rfl, hret, hfv, by rw [hfv]; exact hge, fun v hv => ?_, fun f hf => ?_⟩
  · rw [flush_signalled, hmod, List.mem_append, List.mem_singleton] at hv
    rcases hv with h | h
    · have := hsig v h
      omega
    · omega
  · rw [flush_submitted] at hf
    have := hsub f hf
    omega

/-- Instance of C5 at the state reached by start-up. -/
theorem flush_signal_then_wait_witness :
    ((wWinMainInit bootDefault).gFenceValue + 1 < UINT64_SIZE) ∧
    (∀ v ∈ signalled (wWinMainInit bootDefault).trace,
      v ≤ (wWinMainInit bootDefault).gFenceValue) ∧
    (∀ f ∈ (wWinMainInit bootDefault).submitted, f.2 ≤ (wWinMainInit bootDefault).gFenceValue) ∧
    (flush (wWinMainInit bootDefault) 0 0
      = waitForFenceValue (gpuAdvance (signal (wWinMainInit bootDefault)).1 0)
          (signal (wWinMainInit bootDefault)).2 0 millisecondsMax ∧
    (signal (wWinMainInit bootDefault)).2 = (wWinMainInit bootDefault).gFenceValue + 1 ∧
    (flush (wWinMainInit bootDefault) 0 0).gFenceValue
      = (wWinMainInit bootDefault).gFenceValue + 1 ∧
    (flush (wWinMainInit bootDefault) 0 0).gFenceValue
      ≤ (flush (wWinMainInit bootDefault) 0 0).completed ∧
    (∀ v ∈ signalled (flush (wWinMainInit bootDefault) 0 0).trace,
      v ≤ (flush (wWinMainInit bootDefault) 0 0).completed) ∧
    (∀ f ∈ (flush (wWinMainInit bootDefault) 0 0).submitted,
      f.2 ≤ (flush (wWinMainInit bootDefault) 0 0).completed)) :=
  ⟨by decide, by decide, by decide,
    flush_signal_then_wait (wWinMainInit bootDefault) 0 0 (by decide) (by decide) (by decide)⟩

/-! ## Frame loop: what `render` does to the state -/

theorem getD_set_self (l : List Nat) (i v : Nat) (h : i < l.length) :
    (l.set i v).getD i 0 = v := by
  simp [List.getElem?_set, h]

theorem getD_set_ne (l : List Nat) (i j v : Nat) (h : i ≠ j) :
    (l.set i v).getD j 0 = l.getD j 0 := by
  simp [List.getElem?_set, h]

@[simp] theorem render_gFenceValue (s : Renderer) (e : FrameEnv) :
    (render s e).gFenceValue = (s.gFenceValue + 1) % UINT64_SIZE := by
  simp [render, gpuAdvance, signal]

@[simp] theorem render_gFrameFenceValues (s : Renderer) (e : FrameEnv) :
    (render s e).gFrameFenceValues
      = s.gFrameFenceValues.set s.gCurrentBackBufferIndex ((s.gFenceValue + 1) % UINT64_SIZE) := by
  simp [render, gpuAdvance, signal]

@[simp] theorem render_gCurrentBackBufferIndex (s : Renderer) (e : FrameEnv) :
    (render s e).gCurrentBackBufferIndex = e.nextIndex := by
  simp [render, gpuAdvance, signal]

@[simp] theorem render_submitted (s : Renderer) (e : FrameEnv) :
    (render s e).submitted
      = s.submitted ++ [(s.gCurrentBackBufferIndex, (s.gFenceValue + 1) % UINT64_SIZE)] := by
  simp [render, gpuAdvance, signal]

@[simp] theorem render_gClientWidth (s : Renderer) (e : FrameEnv) :
    (render s e).gClientWidth = s.gClientWidth := by
  simp [render, gpuAdvance, signal]

@[simp] theorem render_gClientHeight (s : Renderer) (e : FrameEnv) :
    (render s e).gClientHeight = s.gClientHeight := by
  simp [render, gpuAdvance, signal]

theorem render_signalled (s : Renderer) (e : FrameEnv) :
    signalled (render s e).trace
      = signalled s.trace ++ [(s.gFenceValue + 1) % UINT64_SIZE] := by
  unfold render
  rw [waitForFenceValue_signalled]
  simp [gpuAdvance, signal, signalled]

/-- When `render` returns, the fence has reached the value stored in the slot that is
current now. -/
theorem render_reached (s : Renderer) (e : FrameEnv) :
    (render s e).gFrameFenceValues.getD (render s e).gCurrentBackBufferIndex 0
      ≤ (render s e).completed := by
  rw [render_gFrameFenceValues, render_gCurrentBackBufferIndex]
  unfold render
  exact waitForFenceValue_reached _ _ _

/-- The completed value never decreases across `render`. -/
theorem render_mono (s : Renderer) (e : FrameEnv) :
    s.completed ≤ (render s e).completed := by
  unfold render
  refine le_trans ?_ (waitForFenceValue_mono _ _ _ _)
  simp [gpuAdvance, signal]

/-- C9: one call of `render`, in either render mode, from a state with a valid current
back-buffer index (and a fence counter below the last 64-bit value) increases `gFenceValue`
by exactly 1, stores the new value in `gFrameFenceValues` at the index that was current when
`render` began, and leaves the fence values of all other slots unchanged. -/
theorem render_advances_fence_by_one (s : Renderer) (rt : Bool) (e : FrameEnv)
    (hidx : s.gCurrentBackBufferIndex < gNumFrames)
    (hlen : s.gFrameFenceValues.length = gNumFrames)
    (hno : s.gFenceValue + 1 < UINT64_SIZE) :
    (render { s with gRayTracingEnabled := rt } e).gFenceValue = s.gFenceValue + 1 ∧
    (render { s with gRayTracingEnabled := rt } e).gFrameFenceValues.getD
        s.gCurrentBackBufferIndex 0 = s.gFenceValue + 1 ∧
    (∀ k, k ≠ s.gCurrentBackBufferIndex →
      (render { s with gRayTracingEnabled := rt } e).gFrameFenceValues.getD k 0
        = s.gFrameFenceValues.getD k 0) ∧
    (render { s with gRayTracingEnabled := rt } e).gFrameFenceValues.length = gNumFrames := by
  have hmod : (s.gFenceValue + 1) % UINT64_SIZE = s.gFenceValue + 1 := Nat.mod_eq_of_lt hno
  refine ⟨?_, ?_, ?_, ?_⟩
  · rw [render_gFenceValue]; exact hmod
  · rw [render_gFrameFenceValues]
    show (s.gFrameFenceValues.set s.gCurrentBackBufferIndex
      ((s.gFenceValue + 1) % UINT64_SIZE)).getD s.gCurrentBackBufferIndex 0 = _
    rw [getD_set_self _ _ _ (by rw [hlen]; exact hidx), hmod]
  · intro k hk
    rw [render_gFrameFenceValues]
    exact getD_set_ne _ _ _ _ (Ne.symm hk)
  · rw [render_gFrameFenceValues, List.length_set]
    exact hlen

/-- Instance of C9 at the state reached by start-up, in ray-tracing mode. -/
theorem render_advances_fence_by_one_witness :
    (wWinMainInit bootDefault).gCurrentBackBufferIndex < gNumFrames ∧
    (wWinMainInit bootDefault).gFrameFenceValues.length = gNumFrames ∧
    (wWinMainInit bootDefault).gFenceValue + 1 < UINT64_SIZE ∧
    ((render { wWinMainInit bootDefault with gRayTracingEnabled := true }
        { nextIndex := 1, reached := 0, woken := 0 }).gFenceValue
      = (wWinMainInit bootDefault).gFenceValue + 1 ∧
    (render { wWinMainInit bootDefault with gRayTracingEnabled := true }
        { nextIndex := 1, reached := 0, woken := 0 }).gFrameFenceValues.getD
        (wWinMainInit bootDefault).gCurrentBackBufferIndex 0
      = (wWinMainInit bootDefault).gFenceValue + 1 ∧
    (∀ k, k ≠ (wWinMainInit bootDefault).gCurrentBackBufferIndex →
      (render { wWinMainInit bootDefault with gRayTracingEnabled := true }
        { nextIndex := 1, reached := 0, woken := 0 }).gFrameFenceValues.getD k 0
        = (wWinMainInit bootDefault).gFrameFenceValues.getD k 0) ∧
    (render { wWinMainInit bootDefault with gRayTracingEnabled := true }
        { nextIndex := 1, reached := 0, woken := 0 }).gFrameFenceValues.length = gNumFrames) :=
  ⟨by decide, by decide, by decide,
    render_advances_fence_by_one (wWinMainInit bootDefault) true
      { nextIndex := 1, reached := 0, woken := 0 } (by decide) (by decide) (by decide)⟩

/-! ## Start-up and `updateRenderTargetViews` -/

/-- The trace written by `updateRenderTargetViews`. -/
theorem updateRenderTargetViews_eq (s : Renderer) :
    updateRenderTargetViews s = { s with
      trace := s.trace ++ [Event.getBuffer 0, Event.createRenderTargetView 0,
        Event.getBuffer 1, Event.createRenderTargetView 1,
        Event.getBuffer 2, Event.createRenderTargetView 2] } := by
  simp [updateRenderTargetViews, gNumFrames, List.range_succ]

@[simp] theorem wWinMainInit_gFenceValue (b : BootEnv) : (wWinMainInit b).gFenceValue = 1 := by
  simp [wWinMainInit, updateRenderTargetViews_eq, startup, UINT64_SIZE]

@[simp] theorem wWinMainInit_gFrameFenceValues (b : BootEnv) :
    (wWinMainInit b).gFrameFenceValues = [0, 0, 0] := by
  simp [wWinMainInit, updateRenderTargetViews_eq, startup, gNumFrames, List.replicate]

@[simp] theorem wWinMainInit_gCurrentBackBufferIndex (b : BootEnv) :
    (wWinMainInit b).gCurrentBackBufferIndex = b.frame.nextIndex := by
  simp [wWinMainInit]

@[simp] theorem wWinMainInit_submitted (b : BootEnv) :
    (wWinMainInit b).submitted = [(b.firstIndex, 1)] := by
  simp [wWinMainInit, updateRenderTargetViews_eq, startup, UINT64_SIZE]

@[simp] theorem wWinMainInit_gRayTracingEnabled (b : BootEnv) :
    (wWinMainInit b).gRayTracingEnabled = false := by
  simp [wWinMainInit, updateRenderTargetViews_eq, startup, flush, signal, gpuAdvance,
    waitForFenceValue]
  split <;> rfl

theorem wWinMainInit_signalled (b : BootEnv) :
    signalled (wWinMainInit b).trace = [1] := by
  unfold wWinMainInit
  simp only [signalled_append, flush_signalled]
  simp [updateRenderTargetViews_eq, startup, UINT64_SIZE, signalled]

/-- Start-up ends with the fence at or beyond the one value signalled so far. -/
theorem wWinMainInit_reached (b : BootEnv) : 1 ≤ (wWinMainInit b).completed := by
  have key : ∀ S : Renderer, S.gFenceValue = 0 →
      1 ≤ (flush S b.frame.reached b.frame.woken).completed := by
    intro S h0
    have h := flush_reached S b.frame.reached b.frame.woken
    rw [flush_gFenceValue, h0] at h
    exact h
  unfold wWinMainInit
  apply key
  simp [updateRenderTargetViews_eq, startup]

/-! ## One frame cycle from the initialised state -/

/-- C10 (counterexample): start-up with the default size, Rasterize mode, back buffer 0
current. One `render` submits slot 0 with fence value 2; the swap chain then reports back
buffer 1, whose stored fence value 0 is already reached, so `render` returns without
waiting while the fence is still at 1: the submitted slot is not Idle. -/
theorem render_submitted_slot_in_flight_counterexample :
    (wWinMainInit bootDefault).gRayTracingEnabled = false ∧
    (wWinMainInit bootDefault).gCurrentBackBufferIndex = 0 ∧
    (render (wWinMainInit bootDefault)
      { nextIndex := 1, reached := 0, woken := 0 }).gFrameFenceValues.getD 0 0 = 2 ∧
    (render (wWinMainInit bootDefault)
      { nextIndex := 1, reached := 0, woken := 0 }).completed = 1 ∧
    ¬ ((render (wWinMainInit bootDefault)
        { nextIndex := 1, reached := 0, woken := 0 }).gFrameFenceValues.getD 0 0
      ≤ (render (wWinMainInit bootDefault)
        { nextIndex := 1, reached := 0, woken := 0 }).completed) := by
  decide

/-- C10 (amended): starting from the initialised state (Rasterize mode), when one call of
`render` returns, the slot that is current now (the one the swap chain reported, whose
allocator the next `render` resets) is Idle: the completed value of the fence is at least
the fence value stored for it. The slot recorded and submitted by the call holds the new
fence value and is Idle again when the swap chain reports that same slot. -/
theorem render_next_slot_idle (b : BootEnv) (e : FrameEnv)
    (hidx : b.frame.nextIndex < gNumFrames) :
    (wWinMainInit b).gRayTracingEnabled = false ∧
    (render (wWinMainInit b) e).gFrameFenceValues.getD
        (wWinMainInit b).gCurrentBackBufferIndex 0 = (wWinMainInit b).gFenceValue + 1 ∧
    (render (wWinMainInit b) e).gFrameFenceValues.getD
        (render (wWinMainInit b) e).gCurrentBackBufferIndex 0
      ≤ (render (wWinMainInit b) e).completed ∧
    (e.nextIndex = (wWinMainInit b).gCurrentBackBufferIndex →
      (wWinMainInit b).gFenceValue + 1 ≤ (render (wWinMainInit b) e).completed) := by
  have hrec : (render (wWinMainInit b) e).gFrameFenceValues.getD
      (wWinMainInit b).gCurrentBackBufferIndex 0 = (wWinMainInit b).gFenceValue + 1 := by
    rw [render_gFrameFenceValues, wWinMainInit_gFenceValue, wWinMainInit_gFrameFenceValues,
      wWinMainInit_gCurrentBackBufferIndex]
    have hmod : (1 + 1) % UINT64_SIZE = 1 + 1 := by decide
    rw [hmod]
    exact getD_set_self _ _ _ (by simpa [gNumFrames] using hidx)
  refine ⟨wWinMainInit_gRayTracingEnabled b, hrec, render_reached _ e, fun h => ?_⟩
  have hr := render_reached (wWinMainInit b) e
  rw [render_gCurrentBackBufferIndex, h, hrec] at hr
  exact hr

/-- Instance of the amended C10 in which the swap chain reports the submitted slot again:
`render` then waits for the frame it has just submitted. -/
theorem render_next_slot_idle_witness :
    bootDefault.frame.nextIndex < gNumFrames ∧
    ((wWinMainInit bootDefault).gRayTracingEnabled = false ∧
    (render (wWinMainInit bootDefault)
        { nextIndex := 0, reached := 0, woken := 0 }).gFrameFenceValues.getD
        (wWinMainInit bootDefault).gCurrentBackBufferIndex 0
      = (wWinMainInit bootDefault).gFenceValue + 1 ∧
    (render (wWinMainInit bootDefault)
        { nextIndex := 0, reached := 0, woken := 0 }).gFrameFenceValues.getD
        (render (wWinMainInit bootDefault)
          { nextIndex := 0, reached := 0, woken := 0 }).gCurrentBackBufferIndex 0
      ≤ (render (wWinMainInit bootDefault)
          { nextIndex := 0, reached := 0, woken := 0 }).completed ∧
    (({ nextIndex := 0, reached := 0, woken := 0 } : FrameEnv).nextIndex
        = (wWinMainInit bootDefault).gCurrentBackBufferIndex →
      (wWinMainInit bootDefault).gFenceValue + 1
        ≤ (render (wWinMainInit bootDefault)
            { nextIndex := 0, reached := 0, woken := 0 }).completed)) ∧
    (wWinMainInit bootDefault).gFenceValue + 1
      ≤ (render (wWinMainInit bootDefault)
          { nextIndex := 0, reached := 0, woken := 0 }).completed :=
  ⟨by decide,
    render_next_slot_idle bootDefault { nextIndex := 0, reached := 0, woken := 0 } (by decide),
    (render_next_slot_idle bootDefault { nextIndex := 0, reached := 0, woken := 0 }
      (by decide)).2.2.2 (by decide)⟩

/-! ## `resize` -/

/-- The three iterations of the release loop of `resize`, written out. -/
theorem releaseLoop_eq (s : Renderer) :
    (List.range gNumFrames).foldl releaseBackBuffer s =
      releaseBackBuffer (releaseBackBuffer (releaseBackBuffer s 0) 1) 2 := by
  simp [gNumFrames, List.range_succ]

@[simp] theorem releaseBackBuffer_trace (s : Renderer) (i : Nat) :
    (releaseBackBuffer s i).trace = s.trace ++ [Event.backBufferReset i] := rfl

@[simp] theorem releaseBackBuffer_gClientWidth (s : Renderer) (i : Nat) :
    (releaseBackBuffer s i).gClientWidth = s.gClientWidth := rfl

@[simp] theorem releaseBackBuffer_gClientHeight (s : Renderer) (i : Nat) :
    (releaseBackBuffer s i).gClientHeight = s.gClientHeight := rfl

@[simp] theorem releaseBackBuffer_gFenceValue (s : Renderer) (i : Nat) :
    (releaseBackBuffer s i).gFenceValue = s.gFenceValue := rfl

@[simp] theorem releaseBackBuffer_completed (s : Renderer) (i : Nat) :
    (releaseBackBuffer s i).completed = s.completed := rfl

@[simp] theorem releaseBackBuffer_submitted (s : Renderer) (i : Nat) :
    (releaseBackBuffer s i).submitted = s.submitted := rfl

@[simp] theorem releaseBackBuffer_gCurrentBackBufferIndex (s : Renderer) (i : Nat) :
    (releaseBackBuffer s i).gCurrentBackBufferIndex = s.gCurrentBackBufferIndex := rfl

@[simp] theorem releaseBackBuffer_gFrameFenceValues (s : Renderer) (i : Nat) :
    (releaseBackBuffer s i).gFrameFenceValues
      = s.gFrameFenceValues.set i (s.gFrameFenceValues.getD s.gCurrentBackBufferIndex 0) := rfl

/-- The state `resize` returns when its arguments differ from the client size. -/
theorem resize_of_ne (s : Renderer) (w h : Nat) (e : FrameEnv)
    (hne : s.gClientWidth ≠ w ∨ s.gClientHeight ≠ h) :
    resize s w h e =
      updateRenderTargetViews
        { (releaseBackBuffer (releaseBackBuffer (releaseBackBuffer
            (flush { s with gClientWidth := max 1 w, gClientHeight := max 1 h }
              e.reached e.woken) 0) 1) 2) with
          gCurrentBackBufferIndex := e.nextIndex,
          trace := (releaseBackBuffer (releaseBackBuffer (releaseBackBuffer
            (flush { s with gClientWidth := max 1 w, gClientHeight := max 1 h }
              e.reached e.woken) 0) 1) 2).trace
            ++ [Event.getDesc, Event.resizeBuffers gNumFrames (max 1 w) (max 1 h)]
            ++ [Event.getCurrentBackBufferIndex] } := by
  unfold resize
  rw [if_pos hne]
  simp only [releaseLoop_eq, releaseBackBuffer_gClientWidth, releaseBackBuffer_gClientHeight,
    flush_gClientWidth, flush_gClientHeight]

/-- The state `resize` returns when its arguments equal the client size. -/
theorem resize_of_eq (s : Renderer) (w h : Nat) (e : FrameEnv)
    (hw : s.gClientWidth = w) (hh : s.gClientHeight = h) : resize s w h e = s := by
  unfold resize
  rw [if_neg]
  rintro (h1 | h1)
  · exact h1 hw
  · exact h1 hh

theorem waitForFenceValue_trace_of_lt (s : Renderer) (V w d : Nat) (h : s.completed < V) :
    (waitForFenceValue s V w d).trace
      = s.trace ++ [Event.setEventOnCompletion V, Event.waitForSingleObject (toDWORD d)] := by
  simp [waitForFenceValue, h]

theorem waitForFenceValue_of_not_lt (s : Renderer) (V w d : Nat) (h : ¬ s.completed < V) :
    waitForFenceValue s V w d = s := by
  simp [waitForFenceValue, h]

/-- The events `flush` appends: the `Signal` call, followed by the two calls of the wait when
the fence was still behind. -/
theorem flush_trace (s : Renderer) (reached woken : Nat) :
    (flush s reached woken).trace = s.trace ++ [Event.signal ((s.gFenceValue + 1) % UINT64_SIZE)]
    ∨ (flush s reached woken).trace = s.trace ++ [Event.signal ((s.gFenceValue + 1) % UINT64_SIZE),
        Event.setEventOnCompletion ((s.gFenceValue + 1) % UINT64_SIZE),
        Event.waitForSingleObject INFINITE] := by
  unfold flush
  by_cases hc : (gpuAdvance (signal s).1 reached).completed < (signal s).2
  · right
    rw [waitForFenceValue_trace_of_lt _ _ _ _ hc, toDWORD_millisecondsMax]
    simp [gpuAdvance, signal]
  · left
    rw [waitForFenceValue_of_not_lt _ _ _ _ hc]
    simp [gpuAdvance, signal]

/-- The events `resize` appends when its arguments differ from the client size. -/
theorem resize_trace (s : Renderer) (w h : Nat) (e : FrameEnv)
    (hne : s.gClientWidth ≠ w ∨ s.gClientHeight ≠ h) :
    (resize s w h e).trace =
      (flush { s with gClientWidth := max 1 w, gClientHeight := max 1 h }
        e.reached e.woken).trace
      ++ [Event.backBufferReset 0, Event.backBufferReset 1, Event.backBufferReset 2,
          Event.getDesc]
      ++ [Event.resizeBuffers gNumFrames (max 1 w) (max 1 h)]
      ++ [Event.getCurrentBackBufferIndex,
          Event.getBuffer 0, Event.createRenderTargetView 0,
          Event.getBuffer 1, Event.createRenderTargetView 1,
          Event.getBuffer 2, Event.createRenderTargetView 2] := by
  rw [resize_of_ne s w h e hne, updateRenderTargetViews_eq]
  simp

@[simp] theorem updateRenderTargetViews_gClientWidth (s : Renderer) :
    (updateRenderTargetViews s).gClientWidth = s.gClientWidth := by
  rw [updateRenderTargetViews_eq]

@[simp] theorem updateRenderTargetViews_gClientHeight (s : Renderer) :
    (updateRenderTargetViews s).gClientHeight = s.gClientHeight := by
  rw [updateRenderTargetViews_eq]

@[simp] theorem updateRenderTargetViews_gFenceValue (s : Renderer) :
    (updateRenderTargetViews s).gFenceValue = s.gFenceValue := by
  rw [updateRenderTargetViews_eq]

@[simp] theorem updateRenderTargetViews_completed (s : Renderer) :
    (updateRenderTargetViews s).completed = s.completed := by
  rw [updateRenderTargetViews_eq]

@[simp] theorem updateRenderTargetViews_submitted (s : Renderer) :
    (updateRenderTargetViews s).submitted = s.submitted := by
  rw [updateRenderTargetViews_eq]

@[simp] theorem updateRenderTargetViews_gCurrentBackBufferIndex (s : Renderer) :
    (updateRenderTargetViews s).gCurrentBackBufferIndex = s.gCurrentBackBufferIndex := by
  rw [updateRenderTargetViews_eq]

@[simp] theorem updateRenderTargetViews_gFrameFenceValues (s : Renderer) :
    (updateRenderTargetViews s).gFrameFenceValues = s.gFrameFenceValues := by
  rw [updateRenderTargetViews_eq]

theorem resize_gClientWidth_of_ne (s : Renderer) (w h : Nat) (e : FrameEnv)
    (hne : s.gClientWidth ≠ w ∨ s.gClientHeight ≠ h) :
    (resize s w h e).gClientWidth = max 1 w := by
  rw [resize_of_ne s w h e hne]
  simp

theorem resize_gClientHeight_of_ne (s : Renderer) (w h : Nat) (e : FrameEnv)
    (hne : s.gClientWidth ≠ w ∨ s.gClientHeight ≠ h) :
    (resize s w h e).gClientHeight = max 1 h := by
  rw [resize_of_ne s w h e hne]
  simp

/-- The events `resize` appends to the trace, split around the `ResizeBuffers` call. -/
theorem resize_new_events (s : Renderer) (w h : Nat) (e : FrameEnv)
    (hne : s.gClientWidth ≠ w ∨ s.gClientHeight ≠ h) :
    ∃ fl : List Event,
      (fl = [Event.signal ((s.gFenceValue + 1) % UINT64_SIZE)] ∨
       fl = [Event.signal ((s.gFenceValue + 1) % UINT64_SIZE),
             Event.setEventOnCompletion ((s.gFenceValue + 1) % UINT64_SIZE),
             Event.waitForSingleObject INFINITE]) ∧
      (flush { s with gClientWidth := max 1 w, gClientHeight := max 1 h }
        e.reached e.woken).trace = s.trace ++ fl ∧
      (resize s w h e).trace =
        s.trace
        ++ (fl ++ [Event.backBufferReset 0, Event.backBufferReset 1, Event.backBufferReset 2,
                   Event.getDesc])
        ++ Event.resizeBuffers gNumFrames (max 1 w) (max 1 h)
          :: [Event.getCurrentBackBufferIndex,
              Event.getBuffer 0, Event.createRenderTargetView 0,
              Event.getBuffer 1, Event.createRenderTargetView 1,
              Event.getBuffer 2, Event.createRenderTargetView 2] := by
  have ht := resize_trace s w h e hne
  rcases flush_trace { s with gClientWidth := max 1 w, gClientHeight := max 1 h }
      e.reached e.woken with hf | hf
  · exact ⟨_, Or.inl rfl, hf, by rw [ht, hf]; simp⟩
  · exact ⟨_, Or.inr rfl, hf, by rw [ht, hf]; simp⟩

/-- C6: for every call `resize(w, h)` whose arguments differ from the current client
dimensions, the events added to the trace are: the events of `flush()` (the `Signal` call and,
when the fence was behind, the wait), then the release of back buffers 0, 1 and 2, then
(after `GetDesc`) the one `ResizeBuffers` call, and only after it the re-query of the current
back-buffer index and the regeneration of the three render-target views. -/
theorem resize_flush_and_release_before_resizeBuffers (s : Renderer) (w h : Nat) (e : FrameEnv)
    (hne : s.gClientWidth ≠ w ∨ s.gClientHeight ≠ h) :
    ∃ fl pre post : List Event,
      (flush { s with gClientWidth := max 1 w, gClientHeight := max 1 h }
        e.reached e.woken).trace = s.trace ++ fl ∧
      (resize s w h e).trace
        = s.trace ++ pre ++ Event.resizeBuffers gNumFrames (max 1 w) (max 1 h) :: post ∧
      pre = fl ++ [Event.backBufferReset 0, Event.backBufferReset 1, Event.backBufferReset 2,
                   Event.getDesc] ∧
      post = [Event.getCurrentBackBufferIndex,
              Event.getBuffer 0, Event.createRenderTargetView 0,
              Event.getBuffer 1, Event.createRenderTargetView 1,
              Event.getBuffer 2, Event.createRenderTargetView 2] ∧
      Event.signal ((s.gFenceValue + 1) % UINT64_SIZE) ∈ fl ∧
      (∀ i, i < gNumFrames → Event.backBufferReset i ∈ pre) ∧
      (∀ n a b, Event.resizeBuffers n a b ∉ pre) ∧
      (∀ n a b, Event.resizeBuffers n a b ∉ post) ∧
      Event.getCurrentBackBufferIndex ∉ pre ∧
      (∀ i, Event.getBuffer i ∉ pre ∧ Event.createRenderTargetView i ∉ pre) ∧
      Event.getCurrentBackBufferIndex ∈ post ∧
      (∀ i, i < gNumFrames → Event.createRenderTargetView i ∈ post) := by
  obtain ⟨fl, hfl, hflush, htrace⟩ := resize_new_events s w h e hne
  refine ⟨fl, _, _, hflush, htrace, rfl, rfl, ?_, ?_, ?_, ?_, ?_, ?_, ?_, ?_⟩
  · rcases hfl with h1 | h1 <;> simp [h1]
  · intro i hi
    have : i = 0 ∨ i = 1 ∨ i = 2 := by unfold gNumFrames at hi; omega
    rcases this with h1 | h1 | h1 <;> simp [h1]
  · intro n a b
    rcases hfl with h1 | h1 <;> simp [h1]
  · intro n a b
    simp
  · rcases hfl with h1 | h1 <;> simp [h1]
  · intro i
    rcases hfl with h1 | h1 <;> simp [h1]
  · simp
  · intro i hi
    have : i = 0 ∨ i = 1 ∨ i = 2 := by unfold gNumFrames at hi; omega
    rcases this with h1 | h1 | h1 <;> simp [h1]

/-- Instance of C6: a resize to 800 x 600 right after start-up at 1280 x 720. -/
theorem resize_flush_and_release_before_resizeBuffers_witness :
    ((wWinMainInit bootDefault).gClientWidth ≠ 800 ∨
      (wWinMainInit bootDefault).gClientHeight ≠ 600) ∧
    ∃ fl pre post : List Event,
      (flush { wWinMainInit bootDefault with
          gClientWidth := max 1 800, gClientHeight := max 1 600 }
        ({ nextIndex := 0, reached := 0, woken := 0 } : FrameEnv).reached
        ({ nextIndex := 0, reached := 0, woken := 0 } : FrameEnv).woken).trace
          = (wWinMainInit bootDefault).trace ++ fl ∧
      (resize (wWinMainInit bootDefault) 800 600 { nextIndex := 0, reached := 0, woken := 0 }).trace
        = (wWinMainInit bootDefault).trace ++ pre
            ++ Event.resizeBuffers gNumFrames (max 1 800) (max 1 600) :: post ∧
      pre = fl ++ [Event.backBufferReset 0, Event.backBufferReset 1, Event.backBufferReset 2,
                   Event.getDesc] ∧
      post = [Event.getCurrentBackBufferIndex,
              Event.getBuffer 0, Event.createRenderTargetView 0,
              Event.getBuffer 1, Event.createRenderTargetView 1,
              Event.getBuffer 2, Event.createRenderTargetView 2] ∧
      Event.signal (((wWinMainInit bootDefault).gFenceValue + 1) % UINT64_SIZE) ∈ fl ∧
      (∀ i, i < gNumFrames → Event.backBufferReset i ∈ pre) ∧
      (∀ n a b, Event.resizeBuffers n a b ∉ pre) ∧
      (∀ n a b, Event.resizeBuffers n a b ∉ post) ∧
      Event.getCurrentBackBufferIndex ∉ pre ∧
      (∀ i, Event.getBuffer i ∉ pre ∧ Event.createRenderTargetView i ∉ pre) ∧
      Event.getCurrentBackBufferIndex ∈ post ∧
      (∀ i, i < gNumFrames → Event.createRenderTargetView i ∈ post) :=
  ⟨by decide,
    resize_flush_and_release_before_resizeBuffers (wWinMainInit bootDefault) 800 600
      { nextIndex := 0, reached := 0, woken := 0 } (by decide)⟩

/-- C7 (counterexample): after a start-up that left the client size at 0 x 0 (as
`parseCommandLineArguments` does for `-w 0 -h 0`), `resize(0, 0)` finds its arguments equal
to the client size and returns at once: the effective dimensions stay (0, 0), not
(max(1,0), max(1,0)) = (1, 1). -/
theorem resize_zero_not_clamped_counterexample :
    (resize (wWinMainInit { bootDefault with width := 0, height := 0 }) 0 0
      { nextIndex := 0, reached := 0, woken := 0 }).gClientWidth = 0 ∧
    (resize (wWinMainInit { bootDefault with width := 0, height := 0 }) 0 0
      { nextIndex := 0, reached := 0, woken := 0 }).gClientHeight = 0 ∧
    ¬ ((resize (wWinMainInit { bootDefault with width := 0, height := 0 }) 0 0
        { nextIndex := 0, reached := 0, woken := 0 }).gClientWidth = max 1 0 ∧
       (resize (wWinMainInit { bootDefault with width := 0, height := 0 }) 0 0
        { nextIndex := 0, reached := 0, woken := 0 }).gClientHeight = max 1 0) := by
  decide

/-- C7 (amended): for every renderer state and all `w`, `h`, except when `(w, h)` equals
the current client dimensions and has a zero component, after `resize(w, h)` the effective
client dimensions are `(max(1,w), max(1,h))`; every `ResizeBuffers` call the resize makes
is passed exactly these dimensions, and it makes one whenever `(w, h)` differs from the
current client dimensions. -/
theorem resize_clamps_dimensions (s : Renderer) (w h : Nat) (e : FrameEnv)
    (hz : ¬ (s.gClientWidth = w ∧ s.gClientHeight = h ∧ (w = 0 ∨ h = 0))) :
    (resize s w h e).gClientWidth = max 1 w ∧
    (resize s w h e).gClientHeight = max 1 h ∧
    (∀ n a b, Event.resizeBuffers n a b ∈ (resize s w h e).trace.drop s.trace.length →
      a = max 1 w ∧ b = max 1 h) ∧
    ((s.gClientWidth ≠ w ∨ s.gClientHeight ≠ h) →
      Event.resizeBuffers gNumFrames (max 1 w) (max 1 h)
        ∈ (resize s w h e).trace.drop s.trace.length) := by
  by_cases hne : s.gClientWidth ≠ w ∨ s.gClientHeight ≠ h
  · obtain ⟨fl, hfl, _, htrace⟩ := resize_new_events s w h e hne
    have hdrop : (resize s w h e).trace.drop s.trace.length
        = (fl ++ [Event.backBufferReset 0, Event.backBufferReset 1, Event.backBufferReset 2,
                   Event.getDesc])
          ++ Event.resizeBuffers gNumFrames (max 1 w) (max 1 h)
            :: [Event.getCurrentBackBufferIndex,
                Event.getBuffer 0, Event.createRenderTargetView 0,
                Event.getBuffer 1, Event.createRenderTargetView 1,
                Event.getBuffer 2, Event.createRenderTargetView 2] := by
      rw [htrace, List.append_assoc, List.drop_left]
    refine ⟨resize_gClientWidth_of_ne s w h e hne, resize_gClientHeight_of_ne s w h e hne,
      ?_, ?_⟩
    · intro n a b hmem
      rw [hdrop] at hmem
      rcases hfl with h1 | h1 <;> simp [h1] at hmem <;> exact ⟨hmem.2.1, hmem.2.2⟩
    · intro _
      rw [hdrop]
      simp
  · have hw : s.gClientWidth = w := by
      by_contra hc; exact hne (Or.inl hc)
    have hh : s.gClientHeight = h := by
      by_contra hc; exact hne (Or.inr hc)
    have hw0 : w ≠ 0 := fun h0 => hz ⟨hw, hh, Or.inl h0⟩
    have hh0 : h ≠ 0 := fun h0 => hz ⟨hw, hh, Or.inr h0⟩
    rw [resize_of_eq s w h e hw hh]
    refine ⟨?_, ?_, ?_, fun hc => absurd hc hne⟩
    · rw [hw]; exact (max_eq_right (by omega)).symm
    · rw [hh]; exact (max_eq_right (by omega)).symm
    · intro n a b hmem
      simp at hmem

/-- Instance of the amended C7: `resize(0, 0)` after start-up at 1280 x 720 yields (1, 1). -/
theorem resize_clamps_dimensions_witness :
    (¬ ((wWinMainInit bootDefault).gClientWidth = 0 ∧
        (wWinMainInit bootDefault).gClientHeight = 0 ∧ ((0 : Nat) = 0 ∨ (0 : Nat) = 0))) ∧
    (resize (wWinMainInit bootDefault) 0 0
        { nextIndex := 0, reached := 0, woken := 0 }).gClientWidth = 1 ∧
    (resize (wWinMainInit bootDefault) 0 0
        { nextIndex := 0, reached := 0, woken := 0 }).gClientHeight = 1 ∧
    ((resize (wWinMainInit bootDefault) 0 0
        { nextIndex := 0, reached := 0, woken := 0 }).gClientWidth = max 1 0 ∧
    (resize (wWinMainInit bootDefault) 0 0
        { nextIndex := 0, reached := 0, woken := 0 }).gClientHeight = max 1 0 ∧
    (∀ n a b, Event.resizeBuffers n a b
        ∈ (resize (wWinMainInit bootDefault) 0 0
            { nextIndex := 0, reached := 0, woken := 0 }).trace.drop
            (wWinMainInit bootDefault).trace.length →
      a = max 1 0 ∧ b = max 1 0) ∧
    (((wWinMainInit bootDefault).gClientWidth ≠ 0 ∨
        (wWinMainInit bootDefault).gClientHeight ≠ 0) →
      Event.resizeBuffers gNumFrames (max 1 0) (max 1 0)
        ∈ (resize (wWinMainInit bootDefault) 0 0
            { nextIndex := 0, reached := 0, woken := 0 }).trace.drop
            (wWinMainInit bootDefault).trace.length)) :=
  ⟨by decide, by decide, by decide,
    resize_clamps_dimensions (wWinMainInit bootDefault) 0 0
      { nextIndex := 0, reached := 0, woken := 0 } (by decide)⟩

/-- C8 (counterexample): after start-up at 1280 x 720, a first `resize(0, 0)` leaves the
client size at (1, 1). A second `resize(0, 0)` again yields (1, 1), the current client
size, yet it is not a no-op: its arguments (0, 0) differ from (1, 1), so it flushes
(`gFenceValue` goes from 2 to 3), releases the back buffers and calls `ResizeBuffers`. -/
theorem resize_twice_zero_counterexample :
    (resize (wWinMainInit bootDefault) 0 0
      { nextIndex := 0, reached := 0, woken := 0 }).gClientWidth = 1 ∧
    (resize (wWinMainInit bootDefault) 0 0
      { nextIndex := 0, reached := 0, woken := 0 }).gClientHeight = 1 ∧
    (resize (resize (wWinMainInit bootDefault) 0 0 { nextIndex := 0, reached := 0, woken := 0 })
      0 0 { nextIndex := 0, reached := 0, woken := 0 }).gClientWidth = 1 ∧
    (resize (resize (wWinMainInit bootDefault) 0 0 { nextIndex := 0, reached := 0, woken := 0 })
      0 0 { nextIndex := 0, reached := 0, woken := 0 }).gClientHeight = 1 ∧
    (resize (wWinMainInit bootDefault) 0 0
      { nextIndex := 0, reached := 0, woken := 0 }).gFenceValue = 2 ∧
    (resize (resize (wWinMainInit bootDefault) 0 0 { nextIndex := 0, reached := 0, woken := 0 })
      0 0 { nextIndex := 0, reached := 0, woken := 0 }).gFenceValue = 3 ∧
    (resize (resize (wWinMainInit bootDefault) 0 0 { nextIndex := 0, reached := 0, woken := 0 })
      0 0 { nextIndex := 0, reached := 0, woken := 0 }).trace.drop
        (resize (wWinMainInit bootDefault) 0 0
          { nextIndex := 0, reached := 0, woken := 0 }).trace.length
      = [Event.signal 3, Event.setEventOnCompletion 3, Event.waitForSingleObject INFINITE,
         Event.backBufferReset 0, Event.backBufferReset 1, Event.backBufferReset 2,
         Event.getDesc, Event.resizeBuffers 3 1 1, Event.getCurrentBackBufferIndex,
         Event.getBuffer 0, Event.createRenderTargetView 0,
         Event.getBuffer 1, Event.createRenderTargetView 1,
         Event.getBuffer 2, Event.createRenderTargetView 2] := by
  decide

/-- C8 (amended): `resize(w, h)` is a no-op when its arguments equal the current client
dimensions: the state is returned as it was (no flush, no back buffer released, no
`ResizeBuffers` call, client size, `gFenceValue`, `gFrameFenceValues` and the current
back-buffer index unchanged). In particular a second `resize(w, h)` right after a first one
with the same arguments, both at least 1, is a no-op. -/
theorem resize_noop_when_arguments_unchanged (s : Renderer) (w h : Nat) (e e2 : FrameEnv) :
    (s.gClientWidth = w → s.gClientHeight = h → resize s w h e = s) ∧
    (1 ≤ w → 1 ≤ h → resize (resize s w h e) w h e2 = resize s w h e) := by
  refine ⟨fun hw hh => resize_of_eq s w h e hw hh, fun hw hh => ?_⟩
  apply resize_of_eq
  · by_cases hne : s.gClientWidth ≠ w ∨ s.gClientHeight ≠ h
    · rw [resize_gClientWidth_of_ne s w h e hne]; exact max_eq_right hw
    · rw [resize_of_eq s w h e (by by_contra hc; exact hne (Or.inl hc))
        (by by_contra hc; exact hne (Or.inr hc))]
      by_contra hc; exact hne (Or.inl hc)
  · by_cases hne : s.gClientWidth ≠ w ∨ s.gClientHeight ≠ h
    · rw [resize_gClientHeight_of_ne s w h e hne]; exact max_eq_right hh
    · rw [resize_of_eq s w h e (by by_contra hc; exact hne (Or.inl hc))
        (by by_contra hc; exact hne (Or.inr hc))]
      by_contra hc; exact hne (Or.inr hc)

/-- Instance of the amended C8: `resize(1280, 720)` after start-up at 1280 x 720, once and twice. -/
theorem resize_noop_when_arguments_unchanged_witness :
    (wWinMainInit bootDefault).gClientWidth = 1280 ∧
    (wWinMainInit bootDefault).gClientHeight = 720 ∧
    resize (wWinMainInit bootDefault) 1280 720 { nextIndex := 1, reached := 0, woken := 0 }
      = wWinMainInit bootDefault ∧
    resize (resize (wWinMainInit bootDefault) 1280 720
        { nextIndex := 1, reached := 0, woken := 0 }) 1280 720
        { nextIndex := 2, reached := 0, woken := 0 }
      = resize (wWinMainInit bootDefault) 1280 720
        { nextIndex := 1, reached := 0, woken := 0 } :=
  ⟨by decide, by decide,
    (resize_noop_when_arguments_unchanged (wWinMainInit bootDefault) 1280 720
      { nextIndex := 1, reached := 0, woken := 0 }
      { nextIndex := 2, reached := 0, woken := 0 }).1 (by decide) (by decide),
    (resize_noop_when_arguments_unchanged (wWinMainInit bootDefault) 1280 720
      { nextIndex := 1, reached := 0, woken := 0 }
      { nextIndex := 2, reached := 0, woken := 0 }).2 (by decide) (by decide)⟩

/-! ## The frame-ring invariant -/

/-- After the release loop of `resize` every slot holds the fence value the current slot
had before. -/
theorem release_values_getD (fv : List Nat) (cur j : Nat) (hlen : fv.length = 3)
    (hcur : cur < 3) (hj : j < 3) :
    (((fv.set 0 (fv.getD cur 0)).set 1 ((fv.set 0 (fv.getD cur 0)).getD cur 0)).set 2
      (((fv.set 0 (fv.getD cur 0)).set 1 ((fv.set 0 (fv.getD cur 0)).getD cur 0)).getD cur 0)).getD
        j 0 = fv.getD cur 0 := by
  match fv, hlen with
  | [a, b, c], _ =>
    interval_cases cur <;> interval_cases j <;> rfl

theorem frameInv_wWinMainInit (b : BootEnv) (hb : b.frame.nextIndex < gNumFrames) :
    FrameInv (wWinMainInit b) where
  index_lt := by rw [wWinMainInit_gCurrentBackBufferIndex]; exact hb
  length_eq := by rw [wWinMainInit_gFrameFenceValues]; rfl
  submitted_le := by
    intro f hf
    rw [wWinMainInit_submitted, List.mem_singleton] at hf
    rw [hf, wWinMainInit_gFenceValue]
  signalled_le := by
    intro v hv
    rw [wWinMainInit_signalled, List.mem_singleton] at hv
    rw [hv, wWinMainInit_gFenceValue]
  increasing := by rw [wWinMainInit_submitted]; exact List.pairwise_singleton _ _
  recorded := by
    intro f hf hlt
    rw [wWinMainInit_submitted, List.mem_singleton] at hf
    have h1 := wWinMainInit_reached b
    rw [hf] at hlt
    simp only at hlt
    omega
  current_idle := by
    rw [wWinMainInit_gFrameFenceValues, wWinMainInit_gCurrentBackBufferIndex]
    have h1 := wWinMainInit_reached b
    have : ([0, 0, 0] : List Nat).getD b.frame.nextIndex 0 = 0 := by
      unfold gNumFrames at hb
      interval_cases b.frame.nextIndex <;> rfl
    omega

theorem frameInv_gpuAdvance (s : Renderer) (reached : Nat) (inv : FrameInv s) :
    FrameInv (gpuAdvance s reached) where
  index_lt := inv.index_lt
  length_eq := inv.length_eq
  submitted_le := inv.submitted_le
  signalled_le := inv.signalled_le
  increasing := inv.increasing
  recorded := by
    intro f hf hlt
    have hlt' : s.completed < f.2 := lt_of_le_of_lt (le_max_left _ _) hlt
    exact inv.recorded f hf hlt'
  current_idle := le_trans inv.current_idle (le_max_left _ _)

theorem frameInv_render (s : Renderer) (e : FrameEnv) (inv : FrameInv s)
    (he : e.nextIndex < gNumFrames) (hno : s.gFenceValue + 1 < UINT64_SIZE) :
    FrameInv (render s e) := by
  have hmod : (s.gFenceValue + 1) % UINT64_SIZE = s.gFenceValue + 1 := Nat.mod_eq_of_lt hno
  have hmono := render_mono s e
  have hreach := render_reached s e
  constructor
  · rw [render_gCurrentBackBufferIndex]; exact he
  · rw [render_gFrameFenceValues, List.length_set]; exact inv.length_eq
  · intro f hf
    rw [render_submitted, List.mem_append, List.mem_singleton] at hf
    rw [render_gFenceValue, hmod]
    rcases hf with h | h
    · have := inv.submitted_le f h
      omega
    · rw [h, hmod]
  · intro v hv
    rw [render_signalled, List.mem_append, List.mem_singleton] at hv
    rw [render_gFenceValue, hmod]
    rcases hv with h | h
    · have := inv.signalled_le v h
      omega
    · rw [h, hmod]
  · rw [render_submitted, List.pairwise_append]
    refine ⟨inv.increasing, List.pairwise_singleton _ _, ?_⟩
    intro a ha c hc
    rw [List.mem_singleton] at hc
    have := inv.submitted_le a ha
    rw [hc, hmod]
    show a.2 < s.gFenceValue + 1
    omega
  · intro f hf hlt
    rw [render_submitted, List.mem_append, List.mem_singleton] at hf
    rw [render_gFrameFenceValues]
    rcases hf with h | h
    · have hlt' : s.completed < f.2 := lt_of_le_of_lt hmono hlt
      obtain ⟨h1, h2⟩ := inv.recorded f h hlt'
      refine ⟨h1, ?_⟩
      have hne : s.gCurrentBackBufferIndex ≠ f.1 := by
        intro heq
        have hidle := inv.current_idle
        rw [heq, h2] at hidle
        omega
      rw [getD_set_ne _ _ _ _ hne]
      exact h2
    · rw [h]
      refine ⟨inv.index_lt, ?_⟩
      exact getD_set_self _ _ _ (by rw [inv.length_eq]; exact inv.index_lt)
  · exact hreach

theorem resize_gFenceValue_of_ne (s : Renderer) (w h : Nat) (e : FrameEnv)
    (hne : s.gClientWidth ≠ w ∨ s.gClientHeight ≠ h) :
    (resize s w h e).gFenceValue = (s.gFenceValue + 1) % UINT64_SIZE := by
  rw [resize_of_ne s w h e hne]
  simp

theorem resize_submitted (s : Renderer) (w h : Nat) (e : FrameEnv) :
    (resize s w h e).submitted = s.submitted := by
  by_cases hne : s.gClientWidth ≠ w ∨ s.gClientHeight ≠ h
  · rw [resize_of_ne s w h e hne]
    simp
  · unfold resize
    rw [if_neg hne]

theorem resize_gCurrentBackBufferIndex_of_ne (s : Renderer) (w h : Nat) (e : FrameEnv)
    (hne : s.gClientWidth ≠ w ∨ s.gClientHeight ≠ h) :
    (resize s w h e).gCurrentBackBufferIndex = e.nextIndex := by
  rw [resize_of_ne s w h e hne]
  simp

theorem resize_completed_of_ne (s : Renderer) (w h : Nat) (e : FrameEnv)
    (hne : s.gClientWidth ≠ w ∨ s.gClientHeight ≠ h) :
    (resize s w h e).completed
      = (flush { s with gClientWidth := max 1 w, gClientHeight := max 1 h }
          e.reached e.woken).completed := by
  rw [resize_of_ne s w h e hne]
  simp

theorem resize_gFrameFenceValues_of_ne (s : Renderer) (w h : Nat) (e : FrameEnv)
    (hne : s.gClientWidth ≠ w ∨ s.gClientHeight ≠ h) :
    (resize s w h e).gFrameFenceValues
      = ((s.gFrameFenceValues.set 0 (s.gFrameFenceValues.getD s.gCurrentBackBufferIndex 0)).set 1
          ((s.gFrameFenceValues.set 0
            (s.gFrameFenceValues.getD s.gCurrentBackBufferIndex 0)).getD
              s.gCurrentBackBufferIndex 0)).set 2
          (((s.gFrameFenceValues.set 0
            (s.gFrameFenceValues.getD s.gCurrentBackBufferIndex 0)).set 1
              ((s.gFrameFenceValues.set 0
                (s.gFrameFenceValues.getD s.gCurrentBackBufferIndex 0)).getD
                  s.gCurrentBackBufferIndex 0)).getD s.gCurrentBackBufferIndex 0) := by
  rw [resize_of_ne s w h e hne]
  simp only [updateRenderTargetViews_gFrameFenceValues, releaseBackBuffer_gFrameFenceValues,
    releaseBackBuffer_gCurrentBackBufferIndex, flush_gFrameFenceValues,
    flush_gCurrentBackBufferIndex]

theorem resize_signalled_of_ne (s : Renderer) (w h : Nat) (e : FrameEnv)
    (hne : s.gClientWidth ≠ w ∨ s.gClientHeight ≠ h) :
    signalled (resize s w h e).trace
      = signalled s.trace ++ [(s.gFenceValue + 1) % UINT64_SIZE] := by
  rw [resize_trace s w h e hne]
  simp only [signalled_append, flush_signalled]
  simp [signalled]

theorem frameInv_resize (s : Renderer) (w h : Nat) (e : FrameEnv) (inv : FrameInv s)
    (he : e.nextIndex < gNumFrames) (hno : s.gFenceValue + 1 < UINT64_SIZE) :
    FrameInv (resize s w h e) := by
  by_cases hne : s.gClientWidth ≠ w ∨ s.gClientHeight ≠ h
  · have hmod : (s.gFenceValue + 1) % UINT64_SIZE = s.gFenceValue + 1 := Nat.mod_eq_of_lt hno
    have hreach : s.gFenceValue + 1 ≤ (resize s w h e).completed := by
      rw [resize_completed_of_ne s w h e hne]
      have := flush_reached { s with gClientWidth := max 1 w, gClientHeight := max 1 h }
        e.reached e.woken
      rw [flush_gFenceValue] at this
      rw [← hmod]
      exact this
    have hmono : s.completed ≤ (resize s w h e).completed := by
      rw [resize_completed_of_ne s w h e hne]
      exact flush_mono { s with gClientWidth := max 1 w, gClientHeight := max 1 h }
        e.reached e.woken
    constructor
    · rw [resize_gCurrentBackBufferIndex_of_ne s w h e hne]; exact he
    · rw [resize_gFrameFenceValues_of_ne s w h e hne]
      simp only [List.length_set]
      exact inv.length_eq
    · intro f hf
      rw [resize_submitted] at hf
      rw [resize_gFenceValue_of_ne s w h e hne, hmod]
      have := inv.submitted_le f hf
      omega
    · intro v hv
      rw [resize_signalled_of_ne s w h e hne, List.mem_append, List.mem_singleton] at hv
      rw [resize_gFenceValue_of_ne s w h e hne, hmod]
      rcases hv with h1 | h1
      · have := inv.signalled_le v h1
        omega
      · rw [h1, hmod]
    · rw [resize_submitted]; exact inv.increasing
    · intro f hf hlt
      rw [resize_submitted] at hf
      have := inv.submitted_le f hf
      omega
    · rw [resize_gFrameFenceValues_of_ne s w h e hne,
        resize_gCurrentBackBufferIndex_of_ne s w h e hne,
        release_values_getD _ _ _ inv.length_eq inv.index_lt he]
      exact le_trans inv.current_idle hmono
  · unfold resize
    rw [if_neg hne]
    exact inv

theorem step_gFenceValue_le (s : Renderer) (a : Action) :
    (step s a).gFenceValue ≤ s.gFenceValue + 1 := by
  cases a with
  | render e =>
    show (render s e).gFenceValue ≤ _
    rw [render_gFenceValue]
    exact Nat.mod_le _ _
  | resize w h e =>
    show (resize s w h e).gFenceValue ≤ _
    by_cases hne : s.gClientWidth ≠ w ∨ s.gClientHeight ≠ h
    · rw [resize_gFenceValue_of_ne s w h e hne]
      exact Nat.mod_le _ _
    · unfold resize
      rw [if_neg hne]
      omega
  | gpu reached =>
    show s.gFenceValue ≤ _
    omega

theorem frameInv_step (s : Renderer) (a : Action) (inv : FrameInv s) (ha : a.indexOk)
    (hno : s.gFenceValue + 1 < UINT64_SIZE) : FrameInv (step s a) := by
  cases a with
  | render e => exact frameInv_render s e inv ha hno
  | resize w h e => exact frameInv_resize s w h e inv ha hno
  | gpu reached => exact frameInv_gpuAdvance s reached inv

/-- The invariant holds along every run that stays within the range of the 64-bit counter. -/
theorem frameInv_run (acts : List Action) :
    ∀ s : Renderer, FrameInv s → (∀ a ∈ acts, a.indexOk) →
      s.gFenceValue + acts.length < UINT64_SIZE → FrameInv (run s acts) := by
  induction acts with
  | nil => intro s inv _ _; exact inv
  | cons a rest ih =>
    intro s inv hok hlen
    have hlen' : s.gFenceValue + (rest.length + 1) < UINT64_SIZE := by
      simpa using hlen
    have h1 : FrameInv (step s a) :=
      frameInv_step s a inv (hok a (List.mem_cons_self _ _)) (by omega)
    have h2 := step_gFenceValue_le s a
    show FrameInv (run (step s a) rest)
    exact ih (step s a) h1 (fun x hx => hok x (List.mem_cons_of_mem _ hx)) (by omega)

/-- Under the invariant the fence has reached the fence value of every earlier submission
on the current slot. -/
theorem frameInv_current_slot_retired (s : Renderer) (inv : FrameInv s) (f : Nat × Nat)
    (hf : f ∈ s.submitted) (hslot : f.1 = s.gCurrentBackBufferIndex) : f.2 ≤ s.completed := by
  by_contra hc
  have hlt : s.completed < f.2 := by omega
  obtain ⟨_, h2⟩ := inv.recorded f hf hlt
  have hidle := inv.current_idle
  rw [← hslot, h2] at hidle
  omega

theorem lastSubmitted_mem (hist : List (Nat × Nat)) (slot v : Nat)
    (h : lastSubmitted hist slot = some v) : ∃ f ∈ hist, f.1 = slot ∧ f.2 = v := by
  unfold lastSubmitted at h
  rw [Option.map_eq_some'] at h
  obtain ⟨f, hf, hv⟩ := h
  have hmem := List.mem_of_getLast?_eq_some hf
  rw [List.mem_filter] at hmem
  exact ⟨f, hmem.1, by simpa using hmem.2, hv⟩

/-- Under the invariant at most `gNumFrames` submitted frames are still in flight. -/
theorem frameInv_inFlight_length (s : Renderer) (inv : FrameInv s) :
    (inFlight s).length ≤ gNumFrames := by
  have hmem : ∀ f ∈ inFlight s, f ∈ s.submitted ∧ s.completed < f.2 := by
    intro f hf
    unfold inFlight at hf
    rw [List.mem_filter] at hf
    exact ⟨hf.1, by simpa using hf.2⟩
  have hpw : (inFlight s).Pairwise fun a b => a.2 < b.2 :=
    inv.increasing.sublist (List.filter_sublist _)
  have hslots : (inFlight s).Pairwise fun a b => a.1 ≠ b.1 := by
    refine hpw.imp_of_mem ?_
    intro a b ha hb hab heq
    obtain ⟨_, h1⟩ := inv.recorded a (hmem a ha).1 (hmem a ha).2
    obtain ⟨_, h2⟩ := inv.recorded b (hmem b hb).1 (hmem b hb).2
    rw [heq, h2] at h1
    omega
  have hnodup : ((inFlight s).map Prod.fst).Nodup := by
    unfold List.Nodup
    rw [List.pairwise_map]
    exact hslots
  have hsub : (inFlight s).map Prod.fst ⊆ List.range gNumFrames := by
    intro x hx
    rw [List.mem_map] at hx
    obtain ⟨f, hf, hfx⟩ := hx
    rw [List.mem_range, ← hfx]
    exact (inv.recorded f (hmem f hf).1 (hmem f hf).2).1
  have hle := (hnodup.subperm hsub).length_le
  rw [List.length_map, List.length_range] at hle
  exact hle

/-- The first call `render` makes is the `Reset` of the current slot's allocator. -/
theorem render_trace (s : Renderer) (e : FrameEnv) :
    ∃ tail, (render s e).trace
      = s.trace ++ Event.allocatorReset s.gCurrentBackBufferIndex :: tail := by
  unfold render waitForFenceValue
  simp only [gpuAdvance, signal, toDWORD_millisecondsMax]
  split
  · exact ⟨_, by simp only [List.append_assoc, List.cons_append, List.nil_append]; rfl⟩
  · exact ⟨_, by simp only [List.append_assoc, List.cons_append, List.nil_append]; rfl⟩

theorem render_first_event (s : Renderer) (e : FrameEnv) :
    ((render s e).trace.drop s.trace.length).head?
      = some (Event.allocatorReset s.gCurrentBackBufferIndex) := by
  obtain ⟨tail, h⟩ := render_trace s e
  rw [h, List.drop_left]
  rfl

/-! ## Safety of the frame ring -/

/-- C1 (allocator-reuse safety): take any state reached from the end of start-up by a
sequence of `render()` and `resize(w, h)` calls, interleaved with GPU progress, in which the
swap chain reports arbitrary indices below `gNumFrames`, the completed value of the fence
never decreases and an infinite wait returns only once the awaited value is reached (the
run being short enough for the 64-bit counter not to wrap). The first thing a `render()` call
in that state does is reset the allocator of the current slot, and at that moment the
completed value of the fence is at least the fence value signalled at that slot's most
recent submission. -/
theorem allocator_reuse_safe (b : BootEnv) (acts : List Action)
    (hb : b.frame.nextIndex < gNumFrames)
    (hidx : ∀ a ∈ acts, a.indexOk)
    (hlen : acts.length + 1 < UINT64_SIZE) :
    (∀ e, ((render (run (wWinMainInit b) acts) e).trace.drop
        (run (wWinMainInit b) acts).trace.length).head?
      = some (Event.allocatorReset (run (wWinMainInit b) acts).gCurrentBackBufferIndex)) ∧
    (∀ v, lastSubmitted (run (wWinMainInit b) acts).submitted
        (run (wWinMainInit b) acts).gCurrentBackBufferIndex = some v →
      v ≤ (run (wWinMainInit b) acts).completed) := by
  have inv : FrameInv (run (wWinMainInit b) acts) :=
    frameInv_run acts (wWinMainInit b) (frameInv_wWinMainInit b hb) hidx
      (by rw [wWinMainInit_gFenceValue]; omega)
  refine ⟨fun e => render_first_event _ e, fun v hv => ?_⟩
  obtain ⟨f, hf, hslot, hval⟩ := lastSubmitted_mem _ _ _ hv
  rw [← hval]
  exact frameInv_current_slot_retired _ inv f hf hslot

/-- Instance of C1 on the sample run; the current slot is 1 and its last fence value is 3. -/
theorem allocator_reuse_safe_witness :
    bootDefault.frame.nextIndex < gNumFrames ∧
    (∀ a ∈ sampleRun, a.indexOk) ∧
    sampleRun.length + 1 < UINT64_SIZE ∧
    lastSubmitted (run (wWinMainInit bootDefault) sampleRun).submitted
        (run (wWinMainInit bootDefault) sampleRun).gCurrentBackBufferIndex = some 3 ∧
    (∀ e, ((render (run (wWinMainInit bootDefault) sampleRun) e).trace.drop
        (run (wWinMainInit bootDefault) sampleRun).trace.length).head?
      = some (Event.allocatorReset
          (run (wWinMainInit bootDefault) sampleRun).gCurrentBackBufferIndex)) ∧
    (∀ v, lastSubmitted (run (wWinMainInit bootDefault) sampleRun).submitted
        (run (wWinMainInit bootDefault) sampleRun).gCurrentBackBufferIndex = some v →
      v ≤ (run (wWinMainInit bootDefault) sampleRun).completed) :=
  ⟨by decide, by decide, by decide, by decide,
    allocator_reuse_safe bootDefault sampleRun (by decide) (by decide) (by decide)⟩

/-- C2 (bounded frames in flight): in every state reached from start-up by `render()` and
`resize()` calls (under the same conditions on the swap chain, the fence and the length of
the run as for C1), the number of submitted frames whose signalled fence value is still
greater than the completed value of the fence is at most `gNumFrames` = 3. -/
theorem frames_in_flight_bounded (b : BootEnv) (acts : List Action)
    (hb : b.frame.nextIndex < gNumFrames)
    (hidx : ∀ a ∈ acts, a.indexOk)
    (hlen : acts.length + 1 < UINT64_SIZE) :
    (inFlight (run (wWinMainInit b) acts)).length ≤ gNumFrames ∧ gNumFrames = 3 := by
  have inv : FrameInv (run (wWinMainInit b) acts) :=
    frameInv_run acts (wWinMainInit b) (frameInv_wWinMainInit b hb) hidx
      (by rw [wWinMainInit_gFenceValue]; omega)
  exact ⟨frameInv_inFlight_length _ inv, rfl⟩

/-- Instance of C2 after the first three frames of the sample run, with two frames in flight. -/
theorem frames_in_flight_bounded_witness :
    bootDefault.frame.nextIndex < gNumFrames ∧
    (∀ a ∈ sampleRun.take 3, a.indexOk) ∧
    (sampleRun.take 3).length + 1 < UINT64_SIZE ∧
    inFlight (run (wWinMainInit bootDefault) (sampleRun.take 3)) = [(1, 3), (2, 4)] ∧
    (inFlight (run (wWinMainInit bootDefault) (sampleRun.take 3))).length ≤ gNumFrames ∧
    gNumFrames = 3 :=
  ⟨by decide, by decide, by decide, by decide,
    frames_in_flight_bounded bootDefault (sampleRun.take 3) (by decide) (by decide) (by decide)⟩

/-! ## The dispatch descriptor and the recorded command list -/

/-- C11: in the ray-trace path of `render`, for SBT base address `B` and section sizes
`rg`, `ms`, `hg` reported by the generator (32-bit values, the table lying inside the 64-bit
address space), the dispatch descriptor has ray-gen start `B` with size `rg`, miss-table
start `B + rg` with size `ms` and hit-group-table start `B + rg + ms` with size `hg`; the
three sections are contiguous, appear in the order ray-gen, miss, hit-group, and no address
belongs to two of them. -/
theorem dispatch_sbt_section_offsets (s : Renderer)
    (hrg : s.sbt.rayGenSectionSize < UINT32_SIZE)
    (hms : s.sbt.missSectionSize < UINT32_SIZE)
    (hhg : s.sbt.hitGroupSectionSize < UINT32_SIZE)
    (hfit : s.sbt.address + s.sbt.rayGenSectionSize + s.sbt.missSectionSize
      + s.sbt.hitGroupSectionSize < UINT64_SIZE) :
    Cmd.dispatchRays (dispatchDesc s) ∈ recordCommands { s with gRayTracingEnabled := true } ∧
    (dispatchDesc s).rayGenStart = s.sbt.address ∧
    (dispatchDesc s).rayGenSize = s.sbt.rayGenSectionSize ∧
    (dispatchDesc s).missStart = s.sbt.address + s.sbt.rayGenSectionSize ∧
    (dispatchDesc s).missSize = s.sbt.missSectionSize ∧
    (dispatchDesc s).hitGroupStart
      = s.sbt.address + s.sbt.rayGenSectionSize + s.sbt.missSectionSize ∧
    (dispatchDesc s).hitGroupSize = s.sbt.hitGroupSectionSize ∧
    (dispatchDesc s).rayGenStart + (dispatchDesc s).rayGenSize = (dispatchDesc s).missStart ∧
    (dispatchDesc s).missStart + (dispatchDesc s).missSize = (dispatchDesc s).hitGroupStart ∧
    (dispatchDesc s).rayGenStart ≤ (dispatchDesc s).missStart ∧
    (dispatchDesc s).missStart ≤ (dispatchDesc s).hitGroupStart ∧
    (∀ a, ¬ ((dispatchDesc s).rayGenStart ≤ a ∧
          a < (dispatchDesc s).rayGenStart + (dispatchDesc s).rayGenSize ∧
          (dispatchDesc s).missStart ≤ a ∧
          a < (dispatchDesc s).missStart + (dispatchDesc s).missSize)) ∧
    (∀ a, ¬ ((dispatchDesc s).missStart ≤ a ∧
          a < (dispatchDesc s).missStart + (dispatchDesc s).missSize ∧
          (dispatchDesc s).hitGroupStart ≤ a ∧
          a < (dispatchDesc s).hitGroupStart + (dispatchDesc s).hitGroupSize)) ∧
    (∀ a, ¬ ((dispatchDesc s).rayGenStart ≤ a ∧
          a < (dispatchDesc s).rayGenStart + (dispatchDesc s).rayGenSize ∧
          (dispatchDesc s).hitGroupStart ≤ a ∧
          a < (dispatchDesc s).hitGroupStart + (dispatchDesc s).hitGroupSize)) := by
  have e1 : s.sbt.rayGenSectionSize % UINT32_SIZE = s.sbt.rayGenSectionSize :=
    Nat.mod_eq_of_lt hrg
  have e2 : s.sbt.missSectionSize % UINT32_SIZE = s.sbt.missSectionSize :=
    Nat.mod_eq_of_lt hms
  have e3 : s.sbt.hitGroupSectionSize % UINT32_SIZE = s.sbt.hitGroupSectionSize :=
    Nat.mod_eq_of_lt hhg
  have e4 : (s.sbt.address + s.sbt.rayGenSectionSize) % UINT64_SIZE
      = s.sbt.address + s.sbt.rayGenSectionSize := Nat.mod_eq_of_lt (by omega)
  have e5 : (s.sbt.address + s.sbt.rayGenSectionSize + s.sbt.missSectionSize) % UINT64_SIZE
      = s.sbt.address + s.sbt.rayGenSectionSize + s.sbt.missSectionSize :=
    Nat.mod_eq_of_lt (by omega)
  have hmem : Cmd.dispatchRays (dispatchDesc s)
      ∈ recordCommands { s with gRayTracingEnabled := true } := by
    simp [recordCommands, raytraceCommands, dispatchDesc]
  have h1 : (dispatchDesc s).rayGenStart = s.sbt.address := rfl
  have h2 : (dispatchDesc s).rayGenSize = s.sbt.rayGenSectionSize := e1
  have h3 : (dispatchDesc s).missStart = s.sbt.address + s.sbt.rayGenSectionSize := by
    show (s.sbt.address + s.sbt.rayGenSectionSize % UINT32_SIZE) % UINT64_SIZE = _
    rw [e1, e4]
  have h4 : (dispatchDesc s).missSize = s.sbt.missSectionSize := e2
  have h5 : (dispatchDesc s).hitGroupStart
      = s.sbt.address + s.sbt.rayGenSectionSize + s.sbt.missSectionSize := by
    show ((s.sbt.address + s.sbt.rayGenSectionSize % UINT32_SIZE) % UINT64_SIZE
      + s.sbt.missSectionSize % UINT32_SIZE) % UINT64_SIZE = _
    rw [e1, e2, e4, e5]
  have h6 : (dispatchDesc s).hitGroupSize = s.sbt.hitGroupSectionSize := e3
  refine ⟨hmem, h1, h2, h3, h4, h5, h6, ?_, ?_, ?_, ?_, ?_, ?_, ?_⟩
  · rw [h1, h2, h3]
  · rw [h3, h4, h5]
  · rw [h1, h3]; omega
  · rw [h3, h5]; omega
  · intro a; rw [h1, h2, h3, h4]; omega
  · intro a; rw [h3, h4, h5, h6]; omega
  · intro a; rw [h1, h2, h5, h6]; omega

/-- Instance of C11 at the state reached by the start-up `bootRayTracing`. -/
theorem dispatch_sbt_section_offsets_witness :
    ((wWinMainInit bootRayTracing).sbt.rayGenSectionSize < UINT32_SIZE) ∧
    ((wWinMainInit bootRayTracing).sbt.missSectionSize < UINT32_SIZE) ∧
    ((wWinMainInit bootRayTracing).sbt.hitGroupSectionSize < UINT32_SIZE) ∧
    ((wWinMainInit bootRayTracing).sbt.address + (wWinMainInit bootRayTracing).sbt.rayGenSectionSize + (wWinMainInit bootRayTracing).sbt.missSectionSize + (wWinMainInit bootRayTracing).sbt.hitGroupSectionSize < UINT64_SIZE) ∧
    (Cmd.dispatchRays (dispatchDesc (wWinMainInit bootRayTracing)) ∈ recordCommands { (wWinMainInit bootRayTracing) with gRayTracingEnabled := true } ∧
    (dispatchDesc (wWinMainInit bootRayTracing)).rayGenStart = (wWinMainInit bootRayTracing).sbt.address ∧
    (dispatchDesc (wWinMainInit bootRayTracing)).rayGenSize = (wWinMainInit bootRayTracing).sbt.rayGenSectionSize ∧
    (dispatchDesc (wWinMainInit bootRayTracing)).missStart = (wWinMainInit bootRayTracing).sbt.address + (wWinMainInit bootRayTracing).sbt.rayGenSectionSize ∧
    (dispatchDesc (wWinMainInit bootRayTracing)).missSize = (wWinMainInit bootRayTracing).sbt.missSectionSize ∧
    (dispatchDesc (wWinMainInit bootRayTracing)).hitGroupStart
      = (wWinMainInit bootRayTracing).sbt.address + (wWinMainInit bootRayTracing).sbt.rayGenSectionSize + (wWinMainInit bootRayTracing).sbt.missSectionSize ∧
    (dispatchDesc (wWinMainInit bootRayTracing)).hitGroupSize = (wWinMainInit bootRayTracing).sbt.hitGroupSectionSize ∧
    (dispatchDesc (wWinMainInit bootRayTracing)).rayGenStart + (dispatchDesc (wWinMainInit bootRayTracing)).rayGenSize = (dispatchDesc (wWinMainInit bootRayTracing)).missStart ∧
    (dispatchDesc (wWinMainInit bootRayTracing)).missStart + (dispatchDesc (wWinMainInit bootRayTracing)).missSize = (dispatchDesc (wWinMainInit bootRayTracing)).hitGroupStart ∧
    (dispatchDesc (wWinMainInit bootRayTracing)).rayGenStart ≤ (dispatchDesc (wWinMainInit bootRayTracing)).missStart ∧
    (dispatchDesc (wWinMainInit bootRayTracing)).missStart ≤ (dispatchDesc (wWinMainInit bootRayTracing)).hitGroupStart ∧
    (∀ a, ¬ ((dispatchDesc (wWinMainInit bootRayTracing)).rayGenStart ≤ a ∧
          a < (dispatchDesc (wWinMainInit bootRayTracing)).rayGenStart + (dispatchDesc (wWinMainInit bootRayTracing)).rayGenSize ∧
          (dispatchDesc (wWinMainInit bootRayTracing)).missStart ≤ a ∧
          a < (dispatchDesc (wWinMainInit bootRayTracing)).missStart + (dispatchDesc (wWinMainInit bootRayTracing)).missSize)) ∧
    (∀ a, ¬ ((dispatchDesc (wWinMainInit bootRayTracing)).missStart ≤ a ∧
          a < (dispatchDesc (wWinMainInit bootRayTracing)).missStart + (dispatchDesc (wWinMainInit bootRayTracing)).missSize ∧
          (dispatchDesc (wWinMainInit bootRayTracing)).hitGroupStart ≤ a ∧
          a < (dispatchDesc (wWinMainInit bootRayTracing)).hitGroupStart + (dispatchDesc (wWinMainInit bootRayTracing)).hitGroupSize)) ∧
    (∀ a, ¬ ((dispatchDesc (wWinMainInit bootRayTracing)).rayGenStart ≤ a ∧
          a < (dispatchDesc (wWinMainInit bootRayTracing)).rayGenStart + (dispatchDesc (wWinMainInit bootRayTracing)).rayGenSize ∧
          (dispatchDesc (wWinMainInit bootRayTracing)).hitGroupStart ≤ a ∧
          a < (dispatchDesc (wWinMainInit bootRayTracing)).hitGroupStart + (dispatchDesc (wWinMainInit bootRayTracing)).hitGroupSize))) :=
  ⟨by decide, by decide, by decide, by decide,
    dispatch_sbt_section_offsets (wWinMainInit bootRayTracing)
      (by decide) (by decide) (by decide) (by decide)⟩

/-- The events `render` appends: reset of the allocator and of the command list, `Close`,
the submission, `Present`, the `Signal` call, the index query, and the two calls of the wait
when the fence was still behind the value stored in the new current slot. -/
theorem render_new_events (s : Renderer) (e : FrameEnv) :
    ∃ wt : List Event,
      (wt = [] ∨
       wt = [Event.setEventOnCompletion
              ((s.gFrameFenceValues.set s.gCurrentBackBufferIndex
                ((s.gFenceValue + 1) % UINT64_SIZE)).getD e.nextIndex 0),
             Event.waitForSingleObject INFINITE]) ∧
      (render s e).trace = s.trace ++
        ([Event.allocatorReset s.gCurrentBackBufferIndex,
          Event.commandListReset s.gCurrentBackBufferIndex, Event.close,
          Event.executeCommandLists (recordCommands s),
          Event.present (if s.gVSync then 1 else 0)
            (if s.gTearingSupported && !s.gVSync then DXGI_PRESENT_ALLOW_TEARING else 0),
          Event.signal ((s.gFenceValue + 1) % UINT64_SIZE),
          Event.getCurrentBackBufferIndex] ++ wt) := by
  unfold render waitForFenceValue
  simp only [gpuAdvance, signal, toDWORD_millisecondsMax]
  split
  · exact ⟨_, Or.inr rfl, by simp⟩
  · exact ⟨_, Or.inl rfl, by simp⟩

/-- C17: the default duration of `waitForFenceValue`, `std::chrono::milliseconds::max()`
with count `2^63 - 1`, becomes `0xFFFFFFFF` = `INFINITE` when truncated to the 32-bit
`DWORD` timeout. Both call sites, `render` and `flush`, use this default: every
`WaitForSingleObject` call they make has timeout `INFINITE`, and when they return the fence
has reached the value they waited for. -/
theorem fence_waits_are_infinite :
    millisecondsMax = 2 ^ 63 - 1 ∧
    toDWORD millisecondsMax = millisecondsMax % 2 ^ 32 ∧
    toDWORD millisecondsMax = 0xFFFFFFFF ∧
    toDWORD millisecondsMax = INFINITE ∧
    (∀ (s : Renderer) (e : FrameEnv) (t : Nat),
      Event.waitForSingleObject t ∈ (render s e).trace.drop s.trace.length → t = INFINITE) ∧
    (∀ (s : Renderer) (reached woken t : Nat),
      Event.waitForSingleObject t ∈ (flush s reached woken).trace.drop s.trace.length →
        t = INFINITE) ∧
    (∀ (s : Renderer) (e : FrameEnv),
      (render s e).gFrameFenceValues.getD (render s e).gCurrentBackBufferIndex 0
        ≤ (render s e).completed) ∧
    (∀ (s : Renderer) (reached woken : Nat),
      (flush s reached woken).gFenceValue ≤ (flush s reached woken).completed) := by
  refine ⟨rfl, rfl, by decide, by decide, ?_, ?_, fun s e => render_reached s e,
    fun s r w => flush_reached s r w⟩
  · intro s e t ht
    obtain ⟨wt, hwt, htr⟩ := render_new_events s e
    rw [htr, List.drop_left] at ht
    rcases hwt with h | h <;> simp [h] at ht
    exact ht
  · intro s r w t ht
    rcases flush_trace s r w with h | h <;> rw [h, List.drop_left] at ht <;> simp at ht
    exact ht

/-! ## Resource states of the recorded frame -/

/-- C19: for both render modes, walking through the command list `render` records while
tracking the back buffer from `present` and the ray-trace output image from `copySource`:
every transition barrier names the tracked state of its resource as its `before` state,
clear and draw find the back buffer in `renderTarget`, `DispatchRays` finds the output image
in `unorderedAccess`, `CopyResource` finds the output image in `copySource` and the back
buffer in `copyDest` (the walk reports no violation), and at the end of the list the back
buffer is in `present` and the output image in `copySource` again. The raster list does
contain the clear and the draw, the ray-trace list the dispatch and the copy. -/
theorem recorded_resource_states_consistent (s : Renderer) (rt : Bool) :
    trackCommands s.gCurrentBackBufferIndex betweenFrames
        (recordCommands { s with gRayTracingEnabled := rt })
      = some betweenFrames ∧
    betweenFrames.backBuffer = ResourceState.present ∧
    betweenFrames.output = ResourceState.copySource ∧
    (rt = false →
      Cmd.clearRenderTargetView s.gCurrentBackBufferIndex
        ∈ recordCommands { s with gRayTracingEnabled := rt } ∧
      Cmd.drawInstanced 3 1 0 0 ∈ recordCommands { s with gRayTracingEnabled := rt }) ∧
    (rt = true →
      Cmd.dispatchRays (dispatchDesc s) ∈ recordCommands { s with gRayTracingEnabled := rt } ∧
      Cmd.copyResource (Resource.backBuffer s.gCurrentBackBufferIndex)
          Resource.raytracingOutput
        ∈ recordCommands { s with gRayTracingEnabled := rt }) := by
  cases rt
  · refine ⟨?_, rfl, rfl, fun _ => ?_, fun h => absurd h (by decide)⟩
    · simp [recordCommands, rasterCommands, trackCommands, trackCmd, betweenFrames]
    · simp [recordCommands, rasterCommands]
  · refine ⟨?_, rfl, rfl, fun h => absurd h (by decide), fun _ => ?_⟩
    · simp [recordCommands, raytraceCommands, trackCommands, trackCmd, betweenFrames]
    · simp [recordCommands, raytraceCommands, dispatchDesc]

/-! ## Fullscreen switch -/

theorem setFullscreen_of_eq (s : Renderer) (b : Bool) (w : WindowEnv)
    (h : s.gFullscreen = b) : setFullscreen s b w = s := by
  unfold setFullscreen
  rw [if_neg (not_not.mpr h)]

@[simp] theorem setFullscreen_gFullscreen (s : Renderer) (b : Bool) (w : WindowEnv) :
    (setFullscreen s b w).gFullscreen = b := by
  by_cases h : s.gFullscreen = b
  · rw [setFullscreen_of_eq s b w h]; exact h
  · unfold setFullscreen
    rw [if_pos h]
    cases b <;> simp

/-- The state after going fullscreen from the windowed state. -/
theorem setFullscreen_true_of_windowed (s : Renderer) (w : WindowEnv)
    (h : s.gFullscreen = false) :
    setFullscreen s true w = { s with
      gFullscreen := true,
      gWindowRect := w.windowRect,
      trace := s.trace ++ [Event.getWindowRect] ++
        [Event.setWindowLong (WS_OVERLAPPEDWINDOW &&& complement32
            (WS_CAPTION ||| WS_SYSMENU ||| WS_THICKFRAME ||| WS_MINIMIZEBOX ||| WS_MAXIMIZEBOX)),
          Event.monitorFromWindow, Event.getMonitorInfo,
          Event.setWindowPos HWND_TOP w.monitorRect.left w.monitorRect.top
            (subLONG w.monitorRect.right w.monitorRect.left)
            (subLONG w.monitorRect.bottom w.monitorRect.top)
            (SWP_FRAMECHANGED ||| SWP_NOACTIVATE),
          Event.showWindow SW_MAXIMIZE] } := by
  simp [setFullscreen, h]

/-- The state after leaving fullscreen. -/
theorem setFullscreen_false_of_fullscreen (s : Renderer) (w : WindowEnv)
    (h : s.gFullscreen = true) :
    setFullscreen s false w = { s with
      gFullscreen := false,
      trace := s.trace ++ [Event.setWindowLong WS_OVERLAPPEDWINDOW,
          Event.setWindowPos HWND_NOTOPMOST s.gWindowRect.left s.gWindowRect.top
            (subLONG s.gWindowRect.right s.gWindowRect.left)
            (subLONG s.gWindowRect.bottom s.gWindowRect.top)
            (SWP_FRAMECHANGED ||| SWP_NOACTIVATE),
          Event.showWindow SW_NORMAL] } := by
  simp [setFullscreen, h]

/-- C15: `setFullscreen(b)` called when `gFullscreen` already equals `b` changes nothing:
the state is returned as it was, so no window style or position call is made and
`gWindowRect` and `gFullscreen` are unchanged. Hence a second `setFullscreen(b)` right after
a first one (in particular `setFullscreen(true)` twice) leaves everything, the window
rectangle included, as the first call left it. -/
theorem setFullscreen_idempotent (s : Renderer) (b : Bool) (w w2 : WindowEnv) :
    (s.gFullscreen = b → setFullscreen s b w = s) ∧
    setFullscreen (setFullscreen s b w) b w2 = setFullscreen s b w ∧
    (setFullscreen (setFullscreen s true w) true w2).gWindowRect
      = (setFullscreen s true w).gWindowRect ∧
    (setFullscreen (setFullscreen s true w) true w2).trace = (setFullscreen s true w).trace := by
  have h2 : ∀ c : Bool, setFullscreen (setFullscreen s c w) c w2 = setFullscreen s c w :=
    fun c => setFullscreen_of_eq _ c w2 (setFullscreen_gFullscreen s c w)
  exact ⟨fun h => setFullscreen_of_eq s b w h, h2 b, by rw [h2 true], by rw [h2 true]⟩

/-- Instance of C15: after start-up (windowed), `setFullscreen(false)` changes nothing, and
a second `setFullscreen(true)` changes nothing after the first. -/
theorem setFullscreen_idempotent_witness :
    (wWinMainInit bootDefault).gFullscreen = false ∧
    setFullscreen (wWinMainInit bootDefault) false envDefault.window = wWinMainInit bootDefault ∧
    setFullscreen (setFullscreen (wWinMainInit bootDefault) true envDefault.window) true
        { windowRect := { left := 0, top := 0, right := 1920, bottom := 1080 },
          monitorRect := { left := 0, top := 0, right := 1920, bottom := 1080 } }
      = setFullscreen (wWinMainInit bootDefault) true envDefault.window :=
  ⟨by decide,
    (setFullscreen_idempotent (wWinMainInit bootDefault) false envDefault.window
      envDefault.window).1 (by decide),
    (setFullscreen_idempotent (wWinMainInit bootDefault) true envDefault.window
      { windowRect := { left := 0, top := 0, right := 1920, bottom := 1080 },
        monitorRect := { left := 0, top := 0, right := 1920, bottom := 1080 } }).2.1⟩

/-- A value in the range of a `LONG` is its own 32-bit value, and no other value is. -/
theorem toLONG_eq_iff (x : Int) : toLONG x = x ↔ LONG_MIN ≤ x ∧ x ≤ LONG_MAX := by
  unfold toLONG LONG_MIN LONG_MAX
  constructor
  · intro h
    have h1 := Int.emod_nonneg (x - -(2 ^ 31)) (show ((2 : Int) ^ 32) ≠ 0 by norm_num)
    have h2 := Int.emod_lt_of_pos (x - -(2 ^ 31)) (show (0 : Int) < 2 ^ 32 by norm_num)
    omega
  · rintro ⟨h1, h2⟩
    rw [Int.emod_eq_of_lt (by omega) (by omega)]
    omega

/-- The 32-bit difference of two `LONG` values is the exact difference exactly when the
exact difference is in the range of a `LONG`. -/
theorem subLONG_eq_sub_iff (a b : Int) :
    subLONG a b = a - b ↔ LONG_MIN ≤ a - b ∧ a - b ≤ LONG_MAX :=
  toLONG_eq_iff (a - b)

/-- C16 (counterexample): from the windowed state after start-up, with the window rectangle
`R = (-2^31, 0, 2^31 - 1, 100)` current when `setFullscreen(true)` is called, the following
`setFullscreen(false)` requests the position `(-2^31, 0)` with size `(-1, 100)`: the 32-bit
`LONG` difference `right - left` has overflowed. The requested width is not
`right - left = 2^32 - 1`, the request is not the one the claim describes, and position plus
width give `-2^31 - 1`, not `right`, so `R` is not restored. -/
theorem fullscreen_round_trip_overflow_counterexample :
    (wWinMainInit bootDefault).gFullscreen = false ∧
    (setFullscreen (wWinMainInit bootDefault) true wideWindow).gWindowRect
      = { left := -2147483648, top := 0, right := 2147483647, bottom := 100 } ∧
    (setFullscreen (setFullscreen (wWinMainInit bootDefault) true wideWindow) false
        wideWindow).trace
      = (setFullscreen (wWinMainInit bootDefault) true wideWindow).trace ++
        [Event.setWindowLong WS_OVERLAPPEDWINDOW,
         Event.setWindowPos HWND_NOTOPMOST (-2147483648) 0 (-1) 100
           (SWP_FRAMECHANGED ||| SWP_NOACTIVATE),
         Event.showWindow SW_NORMAL] ∧
    wideWindow.windowRect.right - wideWindow.windowRect.left = 4294967295 ∧
    ¬ ((setFullscreen (setFullscreen (wWinMainInit bootDefault) true wideWindow) false
          wideWindow).trace
        = (setFullscreen (wWinMainInit bootDefault) true wideWindow).trace ++
          [Event.setWindowLong WS_OVERLAPPEDWINDOW,
           Event.setWindowPos HWND_NOTOPMOST wideWindow.windowRect.left
             wideWindow.windowRect.top
             (wideWindow.windowRect.right - wideWindow.windowRect.left)
             (wideWindow.windowRect.bottom - wideWindow.windowRect.top)
             (SWP_FRAMECHANGED ||| SWP_NOACTIVATE),
           Event.showWindow SW_NORMAL]) ∧
    wideWindow.windowRect.left
        + subLONG wideWindow.windowRect.right wideWindow.windowRect.left
      ≠ wideWindow.windowRect.right := by
  decide

/-- C16 (amended): let `R = (left, top, right, bottom)` be the window rectangle current when
`setFullscreen(true)` is called from the windowed state, with extents `right - left` and
`bottom - top` in the range of a 32-bit `LONG`, from `-2^31` to `2^31 - 1`. The call stores
`R` in `gWindowRect`, and a following `setFullscreen(false)` requests exactly: the style
`WS_OVERLAPPEDWINDOW`, then the position `(left, top)` with size
`(right - left, bottom - top)`, then the normal show state. Position plus the size the code
computed give back `right` and `bottom`, so the requested rectangle is `R`, and
`gFullscreen` is false again. -/
theorem fullscreen_round_trip (s : Renderer) (w1 w2 : WindowEnv)
    (hwin : s.gFullscreen = false)
    (hcx : LONG_MIN ≤ w1.windowRect.right - w1.windowRect.left ∧
      w1.windowRect.right - w1.windowRect.left ≤ LONG_MAX)
    (hcy : LONG_MIN ≤ w1.windowRect.bottom - w1.windowRect.top ∧
      w1.windowRect.bottom - w1.windowRect.top ≤ LONG_MAX) :
    (setFullscreen s true w1).gFullscreen = true ∧
    (setFullscreen s true w1).gWindowRect = w1.windowRect ∧
    (setFullscreen (setFullscreen s true w1) false w2).trace
      = (setFullscreen s true w1).trace ++
        [Event.setWindowLong WS_OVERLAPPEDWINDOW,
         Event.setWindowPos HWND_NOTOPMOST w1.windowRect.left w1.windowRect.top
           (w1.windowRect.right - w1.windowRect.left)
           (w1.windowRect.bottom - w1.windowRect.top)
           (SWP_FRAMECHANGED ||| SWP_NOACTIVATE),
         Event.showWindow SW_NORMAL] ∧
    w1.windowRect.left + subLONG w1.windowRect.right w1.windowRect.left
      = w1.windowRect.right ∧
    w1.windowRect.top + subLONG w1.windowRect.bottom w1.windowRect.top
      = w1.windowRect.bottom ∧
    (setFullscreen (setFullscreen s true w1) false w2).gFullscreen = false ∧
    (setFullscreen (setFullscreen s true w1) false w2).gWindowRect = w1.windowRect := by
  have h1 := setFullscreen_true_of_windowed s w1 hwin
  have hfs : (setFullscreen s true w1).gFullscreen = true := setFullscreen_gFullscreen s true w1
  have hrect : (setFullscreen s true w1).gWindowRect = w1.windowRect := by rw [h1]
  have h2 := setFullscreen_false_of_fullscreen (setFullscreen s true w1) w2 hfs
  have hx := (subLONG_eq_sub_iff w1.windowRect.right w1.windowRect.left).mpr hcx
  have hy := (subLONG_eq_sub_iff w1.windowRect.bottom w1.windowRect.top).mpr hcy
  refine ⟨hfs, hrect, ?_, by rw [hx]; omega, by rw [hy]; omega,
    setFullscreen_gFullscreen _ false w2, ?_⟩
  · rw [h2, hrect, hx, hy]
  · rw [h2]
    exact hrect

/-- Instance of C16: fullscreen and back right after start-up, with the 1296 x 759 window
at (320, 180). -/
theorem fullscreen_round_trip_witness :
    (wWinMainInit bootDefault).gFullscreen = false ∧
    (LONG_MIN ≤ envDefault.window.windowRect.right - envDefault.window.windowRect.left ∧
      envDefault.window.windowRect.right - envDefault.window.windowRect.left ≤ LONG_MAX) ∧
    (LONG_MIN ≤ envDefault.window.windowRect.bottom - envDefault.window.windowRect.top ∧
      envDefault.window.windowRect.bottom - envDefault.window.windowRect.top ≤ LONG_MAX) ∧
    ((setFullscreen (wWinMainInit bootDefault) true envDefault.window).gFullscreen = true ∧
    (setFullscreen (wWinMainInit bootDefault) true envDefault.window).gWindowRect
      = envDefault.window.windowRect ∧
    (setFullscreen (setFullscreen (wWinMainInit bootDefault) true envDefault.window) false
        envDefault.window).trace
      = (setFullscreen (wWinMainInit bootDefault) true envDefault.window).trace ++
        [Event.setWindowLong WS_OVERLAPPEDWINDOW,
         Event.setWindowPos HWND_NOTOPMOST envDefault.window.windowRect.left
           envDefault.window.windowRect.top
           (envDefault.window.windowRect.right - envDefault.window.windowRect.left)
           (envDefault.window.windowRect.bottom - envDefault.window.windowRect.top)
           (SWP_FRAMECHANGED ||| SWP_NOACTIVATE),
         Event.showWindow SW_NORMAL] ∧
    envDefault.window.windowRect.left
        + subLONG envDefault.window.windowRect.right envDefault.window.windowRect.left
      = envDefault.window.windowRect.right ∧
    envDefault.window.windowRect.top
        + subLONG envDefault.window.windowRect.bottom envDefault.window.windowRect.top
      = envDefault.window.windowRect.bottom ∧
    (setFullscreen (setFullscreen (wWinMainInit bootDefault) true envDefault.window) false
        envDefault.window).gFullscreen = false ∧
    (setFullscreen (setFullscreen (wWinMainInit bootDefault) true envDefault.window) false
        envDefault.window).gWindowRect = envDefault.window.windowRect) :=
  ⟨by decide, by decide, by decide,
    fullscreen_round_trip (wWinMainInit bootDefault) envDefault.window envDefault.window
      (by decide) (by decide) (by decide)⟩

/-! ## Window procedure: key bindings -/

@[simp] theorem setFullscreen_gVSync (s : Renderer) (b : Bool) (w : WindowEnv) :
    (setFullscreen s b w).gVSync = s.gVSync := by
  by_cases h : s.gFullscreen = b
  · rw [setFullscreen_of_eq s b w h]
  · cases b <;> simp [setFullscreen, h]

@[simp] theorem setFullscreen_gRayTracingEnabled (s : Renderer) (b : Bool) (w : WindowEnv) :
    (setFullscreen s b w).gRayTracingEnabled = s.gRayTracingEnabled := by
  by_cases h : s.gFullscreen = b
  · rw [setFullscreen_of_eq s b w h]
  · cases b <;> simp [setFullscreen, h]

@[simp] theorem quitRequests_append (t u : List Event) :
    quitRequests (t ++ u) = quitRequests t ++ quitRequests u := by
  simp [quitRequests, List.filterMap_append]

@[simp] theorem setFullscreen_quitRequests (s : Renderer) (b : Bool) (w : WindowEnv) :
    quitRequests (setFullscreen s b w).trace = quitRequests s.trace := by
  by_cases h : s.gFullscreen = b
  · rw [setFullscreen_of_eq s b w h]
  · cases b <;> simp [setFullscreen, h, quitRequests]

/-- The state `WndProc` returns for the Space key. -/
theorem keyDown_space (s : Renderer) (env : MessageEnv) :
    keyDown s VK_SPACE env = { s with
      gRayTracingEnabled := !s.gRayTracingEnabled,
      trace := s.trace ++
        [Event.setWindowText (if !s.gRayTracingEnabled then titleRtxOn else titleRtxOff)] } := by
  unfold keyDown
  rw [if_neg (by decide), if_pos rfl]
  cases h : s.gRayTracingEnabled <;> simp

/-- C13: handling a Space key-down (`WM_KEYDOWN` or `WM_SYSKEYDOWN`) in the initialised
state flips `gRayTracingEnabled` (and sets the window title) and leaves the current
back-buffer index, the client width and height, `gFenceValue`, every `gFrameFenceValues`
entry, `gVSync` and `gFullscreen` unchanged; a second Space key-down restores the original
mode. -/
theorem toggle_render_mode_framed (s : Renderer) (m : Message) (env env2 : MessageEnv)
    (hinit : s.gIsInitialized = true)
    (hm : m = Message.WM_KEYDOWN ∨ m = Message.WM_SYSKEYDOWN) :
    WndProc s m VK_SPACE env = { s with
      gRayTracingEnabled := !s.gRayTracingEnabled,
      trace := s.trace ++
        [Event.setWindowText (if !s.gRayTracingEnabled then titleRtxOn else titleRtxOff)] } ∧
    (WndProc s m VK_SPACE env).gRayTracingEnabled = !s.gRayTracingEnabled ∧
    (WndProc s m VK_SPACE env).gCurrentBackBufferIndex = s.gCurrentBackBufferIndex ∧
    (WndProc s m VK_SPACE env).gClientWidth = s.gClientWidth ∧
    (WndProc s m VK_SPACE env).gClientHeight = s.gClientHeight ∧
    (WndProc s m VK_SPACE env).gFenceValue = s.gFenceValue ∧
    (WndProc s m VK_SPACE env).gFrameFenceValues = s.gFrameFenceValues ∧
    (WndProc s m VK_SPACE env).gVSync = s.gVSync ∧
    (WndProc s m VK_SPACE env).gFullscreen = s.gFullscreen ∧
    (WndProc (WndProc s m VK_SPACE env) m VK_SPACE env2).gRayTracingEnabled
      = s.gRayTracingEnabled := by
  have h1 : ∀ (t : Renderer) (e : MessageEnv), t.gIsInitialized = true →
      WndProc t m VK_SPACE e = keyDown t VK_SPACE e := by
    intro t e ht
    unfold WndProc
    rw [if_pos ht]
    rcases hm with h | h <;> rw [h]
  have h2 := h1 s env hinit
  rw [keyDown_space] at h2
  have h3 : (WndProc s m VK_SPACE env).gIsInitialized = true := by rw [h2]; exact hinit
  refine ⟨h2, ?_, ?_, ?_, ?_, ?_, ?_, ?_, ?_, ?_⟩
  · rw [h2]
  · rw [h2]
  · rw [h2]
  · rw [h2]
  · rw [h2]
  · rw [h2]
  · rw [h2]
  · rw [h2]
  · rw [h1 _ env2 h3, keyDown_space, h2]
    simp

/-- Instance of C13 at the state reached by start-up. -/
theorem toggle_render_mode_framed_witness :
    (wWinMainInit bootDefault).gIsInitialized = true ∧
    (WndProc (wWinMainInit bootDefault) Message.WM_KEYDOWN VK_SPACE envDefault).gRayTracingEnabled
      = true ∧
    (WndProc (WndProc (wWinMainInit bootDefault) Message.WM_KEYDOWN VK_SPACE envDefault)
      Message.WM_KEYDOWN VK_SPACE envDefault).gRayTracingEnabled = false ∧
    (WndProc (wWinMainInit bootDefault) Message.WM_KEYDOWN VK_SPACE envDefault).gFenceValue
      = (wWinMainInit bootDefault).gFenceValue ∧
    (WndProc (wWinMainInit bootDefault) Message.WM_KEYDOWN VK_SPACE envDefault).gFrameFenceValues
      = (wWinMainInit bootDefault).gFrameFenceValues :=
  ⟨by decide, by decide, by decide,
    (toggle_render_mode_framed (wWinMainInit bootDefault) Message.WM_KEYDOWN envDefault
      envDefault (by decide) (Or.inl rfl)).2.2.2.2.2.1,
    (toggle_render_mode_framed (wWinMainInit bootDefault) Message.WM_KEYDOWN envDefault
      envDefault (by decide) (Or.inl rfl)).2.2.2.2.2.2.1⟩

/-- C14: for every key code `k` and Alt state delivered as a key-down (`WM_KEYDOWN` or
`WM_SYSKEYDOWN`) in the initialised state: fullscreen is toggled iff `k` is F11, or `k` is
Enter and Alt is held; vertical sync is toggled iff `k` is `'V'`; the render mode is toggled
iff `k` is Space; quit is requested iff `k` is Esc; and for every other key and Alt state,
Enter without Alt included, the state is returned as it was, so `gVSync`,
`gRayTracingEnabled` and `gFullscreen` are unchanged and no quit is requested. -/
theorem key_binding_map (s : Renderer) (m : Message) (k : Nat) (env : MessageEnv)
    (hinit : s.gIsInitialized = true)
    (hm : m = Message.WM_KEYDOWN ∨ m = Message.WM_SYSKEYDOWN) :
    ((WndProc s m k env).gFullscreen = (!s.gFullscreen)
      ↔ (k = VK_F11 ∨ (k = VK_RETURN ∧ env.alt = true))) ∧
    ((WndProc s m k env).gVSync = (!s.gVSync) ↔ k = VK_V) ∧
    ((WndProc s m k env).gRayTracingEnabled = (!s.gRayTracingEnabled) ↔ k = VK_SPACE) ∧
    (quitRequests (WndProc s m k env).trace = quitRequests s.trace ++ [0] ↔ k = VK_ESCAPE) ∧
    (k ≠ VK_ESCAPE → quitRequests (WndProc s m k env).trace = quitRequests s.trace) ∧
    (¬ (k = VK_F11 ∨ (k = VK_RETURN ∧ env.alt = true) ∨ k = VK_V ∨ k = VK_SPACE
        ∨ k = VK_ESCAPE) → WndProc s m k env = s) := by
  have h1 : WndProc s m k env = keyDown s k env := by
    unfold WndProc
    rw [if_pos hinit]
    rcases hm with h | h <;> rw [h]
  rw [h1]
  have hne : ∀ l : List Int, l ≠ l ++ [0] := by
    intro l h
    have := congrArg List.length h
    simp at this
  by_cases hV : k = VK_V
  · subst hV
    have hk : keyDown s VK_V env = { s with gVSync := !s.gVSync } := by
      unfold keyDown; rw [if_pos rfl]
    rw [hk]
    refine ⟨?_, ?_, ?_, ?_, ?_, ?_⟩
    · simp [VK_V, VK_F11, VK_RETURN]
    · simp
    · simp [VK_V, VK_SPACE]
    · simp only [VK_V, VK_ESCAPE]
      constructor
      · intro h; exact absurd h (hne _)
      · intro h; exact absurd h (by decide)
    · intro _; rfl
    · intro h; exact absurd (Or.inr (Or.inr (Or.inl rfl))) h
  by_cases hS : k = VK_SPACE
  · subst hS
    rw [keyDown_space]
    refine ⟨?_, ?_, ?_, ?_, ?_, ?_⟩
    · simp [VK_SPACE, VK_F11, VK_RETURN]
    · simp [VK_V, VK_SPACE]
    · simp
    · simp only [VK_SPACE, VK_ESCAPE]
      constructor
      · intro h
        simp [quitRequests] at h
      · intro h; exact absurd h (by decide)
    · intro _; simp [quitRequests]
    · intro h; exact absurd (Or.inr (Or.inr (Or.inr (Or.inl rfl)))) h
  by_cases hE : k = VK_ESCAPE
  · subst hE
    have hk : keyDown s VK_ESCAPE env
        = { s with trace := s.trace ++ [Event.postQuitMessage 0] } := by
      unfold keyDown
      rw [if_neg (by decide), if_neg (by decide), if_pos rfl]
    rw [hk]
    refine ⟨?_, ?_, ?_, ?_, ?_, ?_⟩
    · simp [VK_ESCAPE, VK_F11, VK_RETURN]
    · simp [VK_V, VK_ESCAPE]
    · simp [VK_SPACE, VK_ESCAPE]
    · simp [quitRequests]
    · intro h; exact absurd rfl h
    · intro h; exact absurd (Or.inr (Or.inr (Or.inr (Or.inr rfl)))) h
  by_cases hR : k = VK_RETURN
  · subst hR
    have hk : keyDown s VK_RETURN env
        = if env.alt then setFullscreen s (!s.gFullscreen) env.window else s := by
      unfold keyDown
      rw [if_neg (by decide), if_neg (by decide), if_neg (by decide), if_pos rfl]
    rw [hk]
    by_cases halt : env.alt = true
    · rw [if_pos halt]
      refine ⟨?_, ?_, ?_, ?_, ?_, ?_⟩
      · simp [halt]
      · simp [VK_V, VK_RETURN]
      · simp [VK_SPACE, VK_RETURN]
      · rw [setFullscreen_quitRequests]
        simp only [VK_RETURN, VK_ESCAPE]
        constructor
        · intro h; exact absurd h (hne _)
        · intro h; exact absurd h (by decide)
      · intro _; exact setFullscreen_quitRequests _ _ _
      · intro h; exact absurd (Or.inr (Or.inl ⟨rfl, halt⟩)) h
    · rw [if_neg halt]
      refine ⟨?_, ?_, ?_, ?_, ?_, ?_⟩
      · simp [VK_F11, VK_RETURN, halt]
      · simp [VK_V, VK_RETURN]
      · simp [VK_SPACE, VK_RETURN]
      · simp only [VK_RETURN, VK_ESCAPE]
        constructor
        · intro h; exact absurd h (hne _)
        · intro h; exact absurd h (by decide)
      · intro _; rfl
      · intro _; rfl
  by_cases hF : k = VK_F11
  · subst hF
    have hk : keyDown s VK_F11 env = setFullscreen s (!s.gFullscreen) env.window := by
      unfold keyDown
      rw [if_neg (by decide), if_neg (by decide), if_neg (by decide), if_neg (by decide),
        if_pos rfl]
    rw [hk]
    refine ⟨?_, ?_, ?_, ?_, ?_, ?_⟩
    · simp
    · simp [VK_V, VK_F11]
    · simp [VK_SPACE, VK_F11]
    · rw [setFullscreen_quitRequests]
      simp only [VK_F11, VK_ESCAPE]
      constructor
      · intro h; exact absurd h (hne _)
      · intro h; exact absurd h (by decide)
    · intro _; exact setFullscreen_quitRequests _ _ _
    · intro h; exact absurd (Or.inl rfl) h
  · have hk : keyDown s k env = s := by
      unfold keyDown
      rw [if_neg hV, if_neg hS, if_neg hE, if_neg hR, if_neg hF]
    rw [hk]
    refine ⟨?_, ?_, ?_, ?_, ?_, ?_⟩
    · simp [hF, hR]
    · simp [hV]
    · simp [hS]
    · constructor
      · intro h; exact absurd h (hne _)
      · intro h; exact absurd h hE
    · intro _; rfl
    · intro _; rfl

/-- Instance of C14: Alt+Enter after start-up, which toggles fullscreen and nothing else. -/
theorem key_binding_map_witness :
    (wWinMainInit bootDefault).gIsInitialized = true ∧
    (Message.WM_SYSKEYDOWN = Message.WM_KEYDOWN ∨ Message.WM_SYSKEYDOWN = Message.WM_SYSKEYDOWN) ∧
    (WndProc (wWinMainInit bootDefault) Message.WM_SYSKEYDOWN VK_RETURN envAlt).gFullscreen = true ∧
    (((WndProc (wWinMainInit bootDefault) Message.WM_SYSKEYDOWN VK_RETURN envAlt).gFullscreen = (!(wWinMainInit bootDefault).gFullscreen)
      ↔ (VK_RETURN = VK_F11 ∨ (VK_RETURN = VK_RETURN ∧ envAlt.alt = true))) ∧
    ((WndProc (wWinMainInit bootDefault) Message.WM_SYSKEYDOWN VK_RETURN envAlt).gVSync = (!(wWinMainInit bootDefault).gVSync) ↔ VK_RETURN = VK_V) ∧
    ((WndProc (wWinMainInit bootDefault) Message.WM_SYSKEYDOWN VK_RETURN envAlt).gRayTracingEnabled = (!(wWinMainInit bootDefault).gRayTracingEnabled) ↔ VK_RETURN = VK_SPACE) ∧
    (quitRequests (WndProc (wWinMainInit bootDefault) Message.WM_SYSKEYDOWN VK_RETURN envAlt).trace = quitRequests (wWinMainInit bootDefault).trace ++ [0] ↔ VK_RETURN = VK_ESCAPE) ∧
    (VK_RETURN ≠ VK_ESCAPE → quitRequests (WndProc (wWinMainInit bootDefault) Message.WM_SYSKEYDOWN VK_RETURN envAlt).trace = quitRequests (wWinMainInit bootDefault).trace) ∧
    (¬ (VK_RETURN = VK_F11 ∨ (VK_RETURN = VK_RETURN ∧ envAlt.alt = true) ∨ VK_RETURN = VK_V ∨ VK_RETURN = VK_SPACE
        ∨ VK_RETURN = VK_ESCAPE) → WndProc (wWinMainInit bootDefault) Message.WM_SYSKEYDOWN VK_RETURN envAlt = (wWinMainInit bootDefault))) :=
  ⟨by decide, by decide, by decide,
    key_binding_map (wWinMainInit bootDefault) Message.WM_SYSKEYDOWN VK_RETURN envAlt
      (by decide) (by decide)⟩

/-! ## Adapter selection -/

theorem getAdapterStep_of_taken (st : AdapterScan) (i : Nat) (d : AdapterDesc)
    (he : d.eligible = true) (hm : st.maxDedicatedVideoMemory < d.dedicatedVideoMemory) :
    getAdapterStep st i d
      = { maxDedicatedVideoMemory := d.dedicatedVideoMemory, dxgiAdapter4 := some i } := by
  unfold getAdapterStep
  rw [if_pos]
  simp only [AdapterDesc.eligible, Bool.and_eq_true, beq_iff_eq] at he
  exact ⟨he.1, he.2, hm⟩

theorem getAdapterStep_of_not_taken (st : AdapterScan) (i : Nat) (d : AdapterDesc)
    (h : d.eligible = true → d.dedicatedVideoMemory ≤ st.maxDedicatedVideoMemory) :
    getAdapterStep st i d = st := by
  unfold getAdapterStep
  rw [if_neg]
  rintro ⟨h1, h2, h3⟩
  have he : d.eligible = true := by
    simp only [AdapterDesc.eligible, Bool.and_eq_true, beq_iff_eq]
    exact ⟨h1, h2⟩
  have := h he
  omega

/-- What the loop of `getAdapter` computes: either it keeps its state, and then no eligible
adapter in the list has more memory than the maximum so far; or it ends holding an eligible
adapter of the list whose memory is the new maximum, exceeds the old one, is at least that
of every eligible adapter in the list and strictly more than that of every eligible adapter
enumerated before it. -/
theorem getAdapterLoop_spec (l : List AdapterDesc) :
    ∀ (st : AdapterScan) (i : Nat),
      (getAdapterLoop st i l = st ∧
        ∀ d ∈ l, d.eligible = true → d.dedicatedVideoMemory ≤ st.maxDedicatedVideoMemory) ∨
      (∃ k d, l[k]? = some d ∧
        (getAdapterLoop st i l).dxgiAdapter4 = some (i + k) ∧
        d.eligible = true ∧
        d.dedicatedVideoMemory = (getAdapterLoop st i l).maxDedicatedVideoMemory ∧
        st.maxDedicatedVideoMemory < d.dedicatedVideoMemory ∧
        (∀ d2 ∈ l, d2.eligible = true → d2.dedicatedVideoMemory ≤ d.dedicatedVideoMemory) ∧
        (∀ k2 d2, k2 < k → l[k2]? = some d2 → d2.eligible = true →
          d2.dedicatedVideoMemory < d.dedicatedVideoMemory)) := by
  induction l with
  | nil => intro st i; left; exact ⟨rfl, fun d hd => absurd hd (List.not_mem_nil d)⟩
  | cons d rest ih =>
    intro st i
    by_cases htaken : d.eligible = true ∧ st.maxDedicatedVideoMemory < d.dedicatedVideoMemory
    · have hstep := getAdapterStep_of_taken st i d htaken.1 htaken.2
      have hloop : getAdapterLoop st i (d :: rest)
          = getAdapterLoop
              { maxDedicatedVideoMemory := d.dedicatedVideoMemory, dxgiAdapter4 := some i }
              (i + 1) rest := by
        rw [getAdapterLoop, hstep]
      right
      rcases ih { maxDedicatedVideoMemory := d.dedicatedVideoMemory, dxgiAdapter4 := some i }
          (i + 1) with ⟨heq, hall⟩ | ⟨k, d1, hk, hsel, hel, hmax, hgt, hall, hfirst⟩
      · refine ⟨0, d, by simp, ?_, htaken.1, ?_, htaken.2, ?_, ?_⟩
        · rw [hloop, heq]; rfl
        · rw [hloop, heq]
        · intro d2 hd2 he2
          rcases List.mem_cons.mp hd2 with h | h
          · rw [h]
          · exact hall d2 h he2
        · intro k2 d2 hk2; omega
      · refine ⟨k + 1, d1, ?_, ?_, hel, ?_, ?_, ?_, ?_⟩
        · simpa using hk
        · rw [hloop, hsel]; congr 1; omega
        · rw [hloop]; exact hmax
        · have : d.dedicatedVideoMemory < d1.dedicatedVideoMemory := hgt
          omega
        · intro d2 hd2 he2
          rcases List.mem_cons.mp hd2 with h | h
          · rw [h]; exact Nat.le_of_lt hgt
          · exact hall d2 h he2
        · intro k2 d2 hk2 hget he2
          cases k2 with
          | zero =>
            have : d2 = d := by simpa using hget.symm
            rw [this]; exact hgt
          | succ j =>
            exact hfirst j d2 (by omega) (by simpa using hget) he2
    · have hnot : d.eligible = true → d.dedicatedVideoMemory ≤ st.maxDedicatedVideoMemory := by
        intro he
        by_contra hc
        exact htaken ⟨he, by omega⟩
      have hstep := getAdapterStep_of_not_taken st i d hnot
      have hloop : getAdapterLoop st i (d :: rest) = getAdapterLoop st (i + 1) rest := by
        rw [getAdapterLoop, hstep]
      rcases ih st (i + 1) with ⟨heq, hall⟩ | ⟨k, d1, hk, hsel, hel, hmax, hgt, hall, hfirst⟩
      · left
        refine ⟨by rw [hloop, heq], ?_⟩
        intro d2 hd2 he2
        rcases List.mem_cons.mp hd2 with h | h
        · rw [h]; exact hnot (h ▸ he2)
        · exact hall d2 h he2
      · right
        refine ⟨k + 1, d1, ?_, ?_, hel, ?_, hgt, ?_, ?_⟩
        · simpa using hk
        · rw [hloop, hsel]; congr 1; omega
        · rw [hloop]; exact hmax
        · intro d2 hd2 he2
          rcases List.mem_cons.mp hd2 with h | h
          · have := hnot (h ▸ he2)
            rw [h]; omega
          · exact hall d2 h he2
        · intro k2 d2 hk2 hget he2
          cases k2 with
          | zero =>
            have hd : d2 = d := by simpa using hget.symm
            have := hnot (hd ▸ he2)
            rw [hd]; omega
          | succ j =>
            exact hfirst j d2 (by omega) (by simpa using hget) he2

/-- What `getAdapter` does get right: whenever some eligible adapter has non-zero dedicated
video memory, it returns an eligible adapter whose dedicated video memory is at least that
of every eligible adapter, and strictly more than that of every eligible adapter enumerated
before it (so among several with the largest memory it returns the first). -/
theorem getAdapter_largest_first (l : List AdapterDesc)
    (h : ∃ d ∈ l, d.eligible = true ∧ 0 < d.dedicatedVideoMemory) :
    ∃ j d, getAdapter l = some j ∧ l[j]? = some d ∧ d.eligible = true ∧
      (∀ d2 ∈ l, d2.eligible = true → d2.dedicatedVideoMemory ≤ d.dedicatedVideoMemory) ∧
      (∀ k2 d2, k2 < j → l[k2]? = some d2 → d2.eligible = true →
        d2.dedicatedVideoMemory < d.dedicatedVideoMemory) := by
  obtain ⟨d0, hd0, he0, hpos⟩ := h
  unfold getAdapter
  rcases getAdapterLoop_spec l { maxDedicatedVideoMemory := 0, dxgiAdapter4 := none } 0
    with ⟨_, hall⟩ | ⟨k, d, hk, hsel, hel, _, _, hall, hfirst⟩
  · have := hall d0 hd0 he0
    simp only at this
    omega
  · exact ⟨k, d, by rw [hsel, Nat.zero_add], hk, hel, hall, hfirst⟩

/-- `getAdapter` returns the empty pointer exactly when no eligible adapter has non-zero
dedicated video memory. -/
theorem getAdapter_eq_none_iff (l : List AdapterDesc) :
    getAdapter l = none ↔ ∀ d ∈ l, d.eligible = true → d.dedicatedVideoMemory = 0 := by
  constructor
  · intro hnone d hd he
    by_contra hc
    obtain ⟨j, _, hj, _⟩ := getAdapter_largest_first l ⟨d, hd, he, by omega⟩
    rw [hnone] at hj
    exact absurd hj (by simp)
  · intro hall
    unfold getAdapter
    rcases getAdapterLoop_spec l { maxDedicatedVideoMemory := 0, dxgiAdapter4 := none } 0
      with ⟨heq, _⟩ | ⟨k, d, hk, _, hel, _, hgt, _, _⟩
    · rw [heq]
    · have := hall d (List.getElem?_mem hk) hel
      simp only at hgt
      omega

/-- C20 (the code at the failing input): the adapter list consists of one hardware adapter
that can create a D3D12 device and reports no dedicated video memory. It is eligible, and
it has the largest dedicated video memory of all eligible adapters, yet `getAdapter`
returns the empty pointer: the comparison `DedicatedVideoMemory > maxDedicatedVideoMemory`
starts from 0 and is strict. -/
theorem getAdapter_zero_memory_returns_none :
    ({ flags := 0, dedicatedVideoMemory := 0, createsDevice := true } : AdapterDesc).eligible
      = true ∧
    getAdapter [{ flags := 0, dedicatedVideoMemory := 0, createsDevice := true }] = none ∧
    getAdapter [{ flags := 0, dedicatedVideoMemory := 0, createsDevice := true },
                { flags := 2, dedicatedVideoMemory := 4096, createsDevice := true }] = none ∧
    getAdapter [{ flags := 0, dedicatedVideoMemory := 1, createsDevice := true }] = some 0 := by
  decide

/-! ## Acceleration structures -/

/-- What the registration loop of `createTopLevelAS` appends to the generator. -/
theorem addInstances_spec (l : List (Nat × Transform)) :
    ∀ (g : TopLevelASGenerator) (i : Nat),
      ∃ added : List Instance,
        (addInstances g i l).instances = g.instances ++ added ∧
        added.map (fun x => (x.bottomLevelAS, x.transform)) = l ∧
        added.map Instance.instanceID = (List.range' i l.length).map (fun j => j % UINT32_SIZE) ∧
        (∀ x ∈ added, x.hitGroupIndex = 0) := by
  induction l with
  | nil => intro g i; exact ⟨[], by simp [addInstances], rfl, rfl, by simp⟩
  | cons inst rest ih =>
    intro g i
    obtain ⟨added, h1, h2, h3, h4⟩ := ih (g.AddInstance inst.1 inst.2 (i % UINT32_SIZE) 0) (i + 1)
    refine ⟨{ bottomLevelAS := inst.1, transform := inst.2, instanceID := i % UINT32_SIZE,
              hitGroupIndex := 0 } :: added, ?_, ?_, ?_, ?_⟩
    · rw [addInstances, h1]
      simp [TopLevelASGenerator.AddInstance]
    · simp [h2]
    · simp [h3, List.range'_succ]
    · intro x hx
      rcases List.mem_cons.mp hx with h | h
      · rw [h]
      · exact h4 x h

theorem map_mod_range (n : Nat) (hn : n ≤ UINT32_SIZE) :
    (List.range' 0 n).map (fun j => j % UINT32_SIZE) = List.range n := by
  rw [List.range_eq_range']
  conv_rhs => rw [← List.map_id (List.range' 0 n)]
  apply List.map_congr_left
  intro j hj
  rw [List.mem_range'_1] at hj
  exact Nat.mod_eq_of_lt (by omega)

/-- C18: `createAccelerationStructures` (called, as at start-up, with the generator still
empty) appends to the command list first the bottom-level build command and then the
top-level build command, and the single instance of the top-level build, with instance index
0 at the identity transform, refers to exactly the result buffer the bottom-level build
writes. More generally `createTopLevelAS` registers instance `i` of its input list with
instance index `i`: for an input of `n` instances (`n` within the range of the `int` loop
counter) the instance indices registered by the call are `0, ..., n-1`, pairwise distinct,
in input order. -/
theorem acceleration_structure_build_order (commandList : List Cmd)
    (vertexBuffer sizeofVertex : Nat) (env : ASEnv)
    (g : TopLevelASGenerator) (instances : List (Nat × Transform))
    (scratch result instanceDesc : Nat)
    (hn : instances.length ≤ INT_MAX) :
    (createAccelerationStructures commandList vertexBuffer sizeofVertex
        { instances := [] } env).commandList
      = commandList ++
        [Cmd.buildBottomLevelAS
            [{ vertexBuffer := vertexBuffer, vertexOffsetInBytes := 0, vertexCount := 3,
               vertexSizeInBytes := sizeofVertex, transformBuffer := 0,
               transformOffsetInBytes := 0 }]
            env.bottomScratch env.bottomResult,
         Cmd.buildTopLevelAS
            [{ bottomLevelAS := env.bottomResult, transform := Transform.identity,
               instanceID := 0, hitGroupIndex := 0 }]
            env.topScratch env.topResult env.topInstanceDesc] ∧
    (createAccelerationStructures commandList vertexBuffer sizeofVertex
        { instances := [] } env).bottomLevelBuffers.pResult = env.bottomResult ∧
    (createAccelerationStructures commandList vertexBuffer sizeofVertex
        { instances := [] } env).topLevelBuffers.pResult = env.topResult ∧
    (∃ added : List Instance,
      (createTopLevelAS commandList g instances scratch result instanceDesc).2.1.instances
        = g.instances ++ added ∧
      added.map (fun x => (x.bottomLevelAS, x.transform)) = instances ∧
      added.map Instance.instanceID = List.range instances.length ∧
      (added.map Instance.instanceID).Nodup ∧
      (createTopLevelAS commandList g instances scratch result instanceDesc).2.2
        = commandList ++
          [Cmd.buildTopLevelAS (g.instances ++ added) scratch result instanceDesc]) := by
  refine ⟨?_, rfl, rfl, ?_⟩
  · simp [createAccelerationStructures, createBottomLevelAS, createTopLevelAS, addInstances,
      BottomLevelASGenerator.Generate, BottomLevelASGenerator.AddVertexBuffer,
      TopLevelASGenerator.Generate, TopLevelASGenerator.AddInstance, UINT32_SIZE]
  · obtain ⟨added, h1, h2, h3, _⟩ := addInstances_spec instances g 0
    have hle : instances.length ≤ UINT32_SIZE := by
      unfold INT_MAX at hn
      unfold UINT32_SIZE
      omega
    rw [map_mod_range _ hle] at h3
    refine ⟨added, h1, h2, h3, ?_, ?_⟩
    · rw [h3]; exact List.nodup_range _
    · show TopLevelASGenerator.Generate (addInstances g 0 instances) commandList scratch result
        instanceDesc = _
      unfold TopLevelASGenerator.Generate
      rw [h1]

/-- Instance of C18: three instances registered on top of an empty generator. -/
theorem acceleration_structure_build_order_witness :
    ([(7, Transform.identity), (7, Transform.other 1), (9, Transform.identity)]
      : List (Nat × Transform)).length ≤ INT_MAX ∧
    (createTopLevelAS [] { instances := [] }
        [(7, Transform.identity), (7, Transform.other 1), (9, Transform.identity)]
        20 21 22).2.1.instances.map Instance.instanceID = [0, 1, 2] ∧
    (createAccelerationStructures [] 5 28 { instances := [] }
        { bottomScratch := 10, bottomResult := 11, topScratch := 12, topResult := 13,
          topInstanceDesc := 14 }).commandList
      = [] ++
        [Cmd.buildBottomLevelAS
            [{ vertexBuffer := 5, vertexOffsetInBytes := 0, vertexCount := 3,
               vertexSizeInBytes := 28, transformBuffer := 0,
               transformOffsetInBytes := 0 }]
            10 11,
         Cmd.buildTopLevelAS
            [{ bottomLevelAS := 11, transform := Transform.identity,
               instanceID := 0, hitGroupIndex := 0 }]
            12 13 14] :=
  ⟨by decide, by decide,
    (acceleration_structure_build_order [] 5 28
      { bottomScratch := 10, bottomResult := 11, topScratch := 12, topResult := 13,
        topInstanceDesc := 14 }
      { instances := [] }
      [(7, Transform.identity), (7, Transform.other 1), (9, Transform.identity)]
      20 21 22 (by decide)).1⟩

/-! ## Shader binding table -/

/-- The record set `createShaderBindingTable` registers, whatever the generator held. -/
theorem createShaderBindingTable_records (g0 : ShaderBindingTableGenerator) (c : SBTConstants)
    (heapPointer vertexBufferAddress : Nat) :
    (createShaderBindingTable g0 c heapPointer vertexBufferAddress).1
      = { rayGen := [{ entryPoint := nameRayGen, inputData := [heapPointer] }]
          miss := [{ entryPoint := nameMiss, inputData := [] },
                   { entryPoint := nameMiss, inputData := [] }]
          hitGroup := [{ entryPoint := nameHitGroup, inputData := [vertexBufferAddress] }] } := by
  simp [createShaderBindingTable, ShaderBindingTableGenerator.Reset,
    ShaderBindingTableGenerator.AddRayGenerationProgram,
    ShaderBindingTableGenerator.AddMissProgram, ShaderBindingTableGenerator.AddHitGroup]

/-- C12: for the record set registered by `createShaderBindingTable` (after `Reset`: one
ray-gen record with one root argument, two miss records without root arguments, one
hit-group record with one root argument), the size returned by `ComputeSBTSize()` and used
to allocate the table equals `alignUp(rayGenStride, A) + alignUp(missStride * 2, A) +
alignUp(hitGroupStride * 1, A)` for the section alignment `A`, and the section offsets
`render` uses at dispatch match that formula: the miss table starts `alignUp(rayGenStride,
A)` after the base, the hit-group table `alignUp(missStride * 2, A)` after that, and the
hit-group table ends where the allocated table ends. The total is assumed to fit the
`uint32_t` it is stored in and the table to lie inside the 64-bit address space. -/
theorem sbt_total_size_matches_formula (g0 : ShaderBindingTableGenerator) (c : SBTConstants)
    (heapPointer vertexBufferAddress B : Nat) (s : Renderer)
    (hsize : (createShaderBindingTable g0 c heapPointer vertexBufferAddress).1.ComputeSBTSize c
      < UINT32_SIZE)
    (hfit : B + (createShaderBindingTable g0 c heapPointer vertexBufferAddress).1.ComputeSBTSize c
      < UINT64_SIZE) :
    (createShaderBindingTable g0 c heapPointer vertexBufferAddress).1.rayGen.map
        (fun e => e.inputData.length) = [1] ∧
    (createShaderBindingTable g0 c heapPointer vertexBufferAddress).1.miss.map
        (fun e => e.inputData.length) = [0, 0] ∧
    (createShaderBindingTable g0 c heapPointer vertexBufferAddress).1.hitGroup.map
        (fun e => e.inputData.length) = [1] ∧
    entrySize c (createShaderBindingTable g0 c heapPointer vertexBufferAddress).1.rayGen
      = alignUp (c.identifierSize + c.argumentSize * 1) c.recordAlignment ∧
    entrySize c (createShaderBindingTable g0 c heapPointer vertexBufferAddress).1.miss
      = alignUp (c.identifierSize + c.argumentSize * 0) c.recordAlignment ∧
    entrySize c (createShaderBindingTable g0 c heapPointer vertexBufferAddress).1.hitGroup
      = alignUp (c.identifierSize + c.argumentSize * 1) c.recordAlignment ∧
    (createShaderBindingTable g0 c heapPointer vertexBufferAddress).2
      = alignUp
          (entrySize c (createShaderBindingTable g0 c heapPointer vertexBufferAddress).1.rayGen)
          c.sectionAlignment
        + alignUp
          (entrySize c (createShaderBindingTable g0 c heapPointer vertexBufferAddress).1.miss * 2)
          c.sectionAlignment
        + alignUp
          (entrySize c (createShaderBindingTable g0 c heapPointer vertexBufferAddress).1.hitGroup
            * 1)
          c.sectionAlignment ∧
    (dispatchDesc { s with
        sbt := (createShaderBindingTable g0 c heapPointer vertexBufferAddress).1.info c B }).rayGenStart
      = B ∧
    (dispatchDesc { s with
        sbt := (createShaderBindingTable g0 c heapPointer vertexBufferAddress).1.info c B }).missStart
      = B + alignUp
          (entrySize c (createShaderBindingTable g0 c heapPointer vertexBufferAddress).1.rayGen)
          c.sectionAlignment ∧
    (dispatchDesc { s with
        sbt := (createShaderBindingTable g0 c heapPointer vertexBufferAddress).1.info c B }).hitGroupStart
      = B + alignUp
          (entrySize c (createShaderBindingTable g0 c heapPointer vertexBufferAddress).1.rayGen)
          c.sectionAlignment
        + alignUp
          (entrySize c (createShaderBindingTable g0 c heapPointer vertexBufferAddress).1.miss * 2)
          c.sectionAlignment ∧
    (dispatchDesc { s with
        sbt := (createShaderBindingTable g0 c heapPointer vertexBufferAddress).1.info c B }).hitGroupStart
      + (dispatchDesc { s with
        sbt := (createShaderBindingTable g0 c heapPointer vertexBufferAddress).1.info c B }).hitGroupSize
      = B + (createShaderBindingTable g0 c heapPointer vertexBufferAddress).2 := by
  have hrec := createShaderBindingTable_records g0 c heapPointer vertexBufferAddress
  have hsnd : (createShaderBindingTable g0 c heapPointer vertexBufferAddress).2
      = (createShaderBindingTable g0 c heapPointer vertexBufferAddress).1.ComputeSBTSize c
        % UINT32_SIZE := rfl
  rw [hsnd, Nat.mod_eq_of_lt hsize]
  rw [hrec] at hsize hfit ⊢
  have hA : sectionSize c [{ entryPoint := nameRayGen, inputData := [heapPointer] }]
      = alignUp (entrySize c [{ entryPoint := nameRayGen, inputData := [heapPointer] }])
          c.sectionAlignment := by
    simp [sectionSize]
  have hB : sectionSize c [{ entryPoint := nameMiss, inputData := [] },
        { entryPoint := nameMiss, inputData := [] }]
      = alignUp (entrySize c [{ entryPoint := nameMiss, inputData := [] },
          { entryPoint := nameMiss, inputData := [] }] * 2) c.sectionAlignment := by
    simp [sectionSize]
  have hC : sectionSize c [{ entryPoint := nameHitGroup, inputData := [vertexBufferAddress] }]
      = alignUp (entrySize c
          [{ entryPoint := nameHitGroup, inputData := [vertexBufferAddress] }] * 1)
          c.sectionAlignment := by
    simp [sectionSize]
  simp only [ShaderBindingTableGenerator.ComputeSBTSize] at hsize hfit ⊢
  have e1 := Nat.mod_eq_of_lt (show sectionSize c
      [{ entryPoint := nameRayGen, inputData := [heapPointer] }] < UINT32_SIZE by omega)
  have e2 := Nat.mod_eq_of_lt (show sectionSize c [{ entryPoint := nameMiss, inputData := [] },
      { entryPoint := nameMiss, inputData := [] }] < UINT32_SIZE by omega)
  have e3 := Nat.mod_eq_of_lt (show sectionSize c
      [{ entryPoint := nameHitGroup, inputData := [vertexBufferAddress] }] < UINT32_SIZE by
        omega)
  have e4 := Nat.mod_eq_of_lt (show B + sectionSize c
      [{ entryPoint := nameRayGen, inputData := [heapPointer] }] < UINT64_SIZE by omega)
  have e5 := Nat.mod_eq_of_lt (show B + sectionSize c
      [{ entryPoint := nameRayGen, inputData := [heapPointer] }]
      + sectionSize c [{ entryPoint := nameMiss, inputData := [] },
      { entryPoint := nameMiss, inputData := [] }] < UINT64_SIZE by omega)
  refine ⟨rfl, rfl, rfl, ?_, ?_, ?_, ?_, rfl, ?_, ?_, ?_⟩
  · simp [entrySize, recordSize]
  · simp [entrySize, recordSize]
  · simp [entrySize, recordSize]
  · rw [hA, hB, hC]
  · show (B + sectionSize c [{ entryPoint := nameRayGen, inputData := [heapPointer] }]
        % UINT32_SIZE) % UINT64_SIZE = _
    rw [e1, e4, hA]
  · show ((B + sectionSize c [{ entryPoint := nameRayGen, inputData := [heapPointer] }]
        % UINT32_SIZE) % UINT64_SIZE
        + sectionSize c [{ entryPoint := nameMiss, inputData := [] },
            { entryPoint := nameMiss, inputData := [] }] % UINT32_SIZE) % UINT64_SIZE = _
    rw [e1, e2, e4, e5, hA, hB]
  · show ((B + sectionSize c [{ entryPoint := nameRayGen, inputData := [heapPointer] }]
        % UINT32_SIZE) % UINT64_SIZE
        + sectionSize c [{ entryPoint := nameMiss, inputData := [] },
            { entryPoint := nameMiss, inputData := [] }] % UINT32_SIZE) % UINT64_SIZE
        + sectionSize c [{ entryPoint := nameHitGroup, inputData := [vertexBufferAddress] }]
          % UINT32_SIZE = _
    rw [e1, e2, e3, e4, e5]
    omega

/-- Instance of C12 with the sizes of Direct3D 12: strides 64, 32 and 64, three 64-byte
sections, 192 bytes in all. -/
theorem sbt_total_size_matches_formula_witness :
    ((createShaderBindingTable { rayGen := [], miss := [], hitGroup := [] } d3d12Constants 1000 2000).1.ComputeSBTSize d3d12Constants
      < UINT32_SIZE) ∧
    (65536 + (createShaderBindingTable { rayGen := [], miss := [], hitGroup := [] } d3d12Constants 1000 2000).1.ComputeSBTSize d3d12Constants
      < UINT64_SIZE) ∧
    (createShaderBindingTable { rayGen := [], miss := [], hitGroup := [] } d3d12Constants 1000 2000).2 = 192 ∧
    ((createShaderBindingTable { rayGen := [], miss := [], hitGroup := [] } d3d12Constants 1000 2000).1.rayGen.map
        (fun e => e.inputData.length) = [1] ∧
    (createShaderBindingTable { rayGen := [], miss := [], hitGroup := [] } d3d12Constants 1000 2000).1.miss.map
        (fun e => e.inputData.length) = [0, 0] ∧
    (createShaderBindingTable { rayGen := [], miss := [], hitGroup := [] } d3d12Constants 1000 2000).1.hitGroup.map
        (fun e => e.inputData.length) = [1] ∧
    entrySize d3d12Constants (createShaderBindingTable { rayGen := [], miss := [], hitGroup := [] } d3d12Constants 1000 2000).1.rayGen
      = alignUp (d3d12Constants.identifierSize + d3d12Constants.argumentSize * 1) d3d12Constants.recordAlignment ∧
    entrySize d3d12Constants (createShaderBindingTable { rayGen := [], miss := [], hitGroup := [] } d3d12Constants 1000 2000).1.miss
      = alignUp (d3d12Constants.identifierSize + d3d12Constants.argumentSize * 0) d3d12Constants.recordAlignment ∧
    entrySize d3d12Constants (createShaderBindingTable { rayGen := [], miss := [], hitGroup := [] } d3d12Constants 1000 2000).1.hitGroup
      = alignUp (d3d12Constants.identifierSize + d3d12Constants.argumentSize * 1) d3d12Constants.recordAlignment ∧
    (createShaderBindingTable { rayGen := [], miss := [], hitGroup := [] } d3d12Constants 1000 2000).2
      = alignUp
          (entrySize d3d12Constants (createShaderBindingTable { rayGen := [], miss := [], hitGroup := [] } d3d12Constants 1000 2000).1.rayGen)
          d3d12Constants.sectionAlignment
        + alignUp
          (entrySize d3d12Constants (createShaderBindingTable { rayGen := [], miss := [], hitGroup := [] } d3d12Constants 1000 2000).1.miss * 2)
          d3d12Constants.sectionAlignment
        + alignUp
          (entrySize d3d12Constants (createShaderBindingTable { rayGen := [], miss := [], hitGroup := [] } d3d12Constants 1000 2000).1.hitGroup
            * 1)
          d3d12Constants.sectionAlignment ∧
    (dispatchDesc { (wWinMainInit bootDefault) with
        sbt := (createShaderBindingTable { rayGen := [], miss := [], hitGroup := [] } d3d12Constants 1000 2000).1.info d3d12Constants 65536 }).rayGenStart
      = 65536 ∧
    (dispatchDesc { (wWinMainInit bootDefault) with
        sbt := (createShaderBindingTable { rayGen := [], miss := [], hitGroup := [] } d3d12Constants 1000 2000).1.info d3d12Constants 65536 }).missStart
      = 65536 + alignUp
          (entrySize d3d12Constants (createShaderBindingTable { rayGen := [], miss := [], hitGroup := [] } d3d12Constants 1000 2000).1.rayGen)
          d3d12Constants.sectionAlignment ∧
    (dispatchDesc { (wWinMainInit bootDefault) with
        sbt := (createShaderBindingTable { rayGen := [], miss := [], hitGroup := [] } d3d12Constants 1000 2000).1.info d3d12Constants 65536 }).hitGroupStart
      = 65536 + alignUp
          (entrySize d3d12Constants (createShaderBindingTable { rayGen := [], miss := [], hitGroup := [] } d3d12Constants 1000 2000).1.rayGen)
          d3d12Constants.sectionAlignment
        + alignUp
          (entrySize d3d12Constants (createShaderBindingTable { rayGen := [], miss := [], hitGroup := [] } d3d12Constants 1000 2000).1.miss * 2)
          d3d12Constants.sectionAlignment ∧
    (dispatchDesc { (wWinMainInit bootDefault) with
        sbt := (createShaderBindingTable { rayGen := [], miss := [], hitGroup := [] } d3d12Constants 1000 2000).1.info d3d12Constants 65536 }).hitGroupStart
      + (dispatchDesc { (wWinMainInit bootDefault) with
        sbt := (createShaderBindingTable { rayGen := [], miss := [], hitGroup := [] } d3d12Constants 1000 2000).1.info d3d12Constants 65536 }).hitGroupSize
      = 65536 + (createShaderBindingTable { rayGen := [], miss := [], hitGroup := [] } d3d12Constants 1000 2000).2) :=
  ⟨by decide, by decide, by decide,
    sbt_total_size_matches_formula { rayGen := [], miss := [], hitGroup := [] } d3d12Constants 1000 2000 65536
      (wWinMainInit bootDefault) (by decide) (by decide)⟩

/-- The walk of `trackCommands` does reject misplaced commands: a draw while the back
buffer is still in `present`, a barrier whose `before` state is not the tracked one, and a
dispatch while the output image is a copy source. -/
theorem trackCommands_rejects_misplaced :
    trackCommands 0 betweenFrames [Cmd.drawInstanced 3 1 0 0] = none ∧
    trackCommands 0 betweenFrames
      [Cmd.resourceBarrier (Resource.backBuffer 0) ResourceState.renderTarget
        ResourceState.present] = none ∧
    trackCommands 0 betweenFrames [Cmd.dispatchRays (dispatchDesc startup)] = none := by
  decide

/-! ## Extents of the images a frame touches: properties -/

theorem backBufferExtents_append (t u : List Event) :
    backBufferExtents (t ++ u) = backBufferExtents t ++ backBufferExtents u := by
  simp [backBufferExtents, List.filterMap_append]

theorem outputImageExtents_append (t u : List Event) :
    outputImageExtents (t ++ u) = outputImageExtents t ++ outputImageExtents u := by
  simp [outputImageExtents, List.filterMap_append]

/-- Start-up creates the swap chain and the ray-tracing output image with the same extent,
the client size of the start-up. -/
theorem wWinMainInit_extents (b : BootEnv) :
    backBufferExtents (wWinMainInit b).trace = [(b.width, b.height)] ∧
    outputImageExtents (wWinMainInit b).trace = [(b.width, b.height)] ∧
    (wWinMainInit b).gClientWidth = b.width ∧ (wWinMainInit b).gClientHeight = b.height := by
  have key : ∀ S : Renderer,
      backBufferExtents S.trace = [(b.width, b.height)] →
      outputImageExtents S.trace = [(b.width, b.height)] →
      backBufferExtents (flush S b.frame.reached b.frame.woken).trace
          ++ backBufferExtents [Event.getCurrentBackBufferIndex] = [(b.width, b.height)] ∧
      outputImageExtents (flush S b.frame.reached b.frame.woken).trace
          ++ outputImageExtents [Event.getCurrentBackBufferIndex] = [(b.width, b.height)] := by
    intro S hb ho
    rcases flush_trace S b.frame.reached b.frame.woken with hf | hf
    · rw [hf, backBufferExtents_append, outputImageExtents_append, hb, ho]
      simp [backBufferExtents, outputImageExtents]
    · rw [hf, backBufferExtents_append, outputImageExtents_append, hb, ho]
      simp [backBufferExtents, outputImageExtents]
  refine ⟨?_, ?_, ?_, ?_⟩
  · unfold wWinMainInit
    simp only [backBufferExtents_append]
    refine (key _ ?_ ?_).1
    · simp [updateRenderTargetViews_eq, startup, backBufferExtents]
    · simp [updateRenderTargetViews_eq, startup, outputImageExtents]
  · unfold wWinMainInit
    simp only [outputImageExtents_append]
    refine (key _ ?_ ?_).2
    · simp [updateRenderTargetViews_eq, startup, backBufferExtents]
    · simp [updateRenderTargetViews_eq, startup, outputImageExtents]
  · simp [wWinMainInit, updateRenderTargetViews_eq]
  · simp [wWinMainInit, updateRenderTargetViews_eq]

/-- A frame creates and resizes no image. -/
theorem render_extents (s : Renderer) (e : FrameEnv) :
    backBufferExtents (render s e).trace = backBufferExtents s.trace ∧
    outputImageExtents (render s e).trace = outputImageExtents s.trace := by
  obtain ⟨wt, hwt, ht⟩ := render_new_events s e
  rcases hwt with rfl | rfl
  · rw [ht, backBufferExtents_append, outputImageExtents_append]
    simp [backBufferExtents, outputImageExtents]
  · rw [ht, backBufferExtents_append, outputImageExtents_append]
    simp [backBufferExtents, outputImageExtents]

/-- A call of `resize` that changes the client size gives the back buffers the new client
size and creates no ray-tracing output image. -/
theorem resize_extents_of_ne (s : Renderer) (w h : Nat) (e : FrameEnv)
    (hne : s.gClientWidth ≠ w ∨ s.gClientHeight ≠ h) :
    backBufferExtents (resize s w h e).trace
      = backBufferExtents s.trace ++ [(max 1 w, max 1 h)] ∧
    outputImageExtents (resize s w h e).trace = outputImageExtents s.trace := by
  obtain ⟨fl, hfl, -, ht⟩ := resize_new_events s w h e hne
  rcases hfl with rfl | rfl
  · rw [ht]
    simp [backBufferExtents, outputImageExtents]
  · rw [ht]
    simp [backBufferExtents, outputImageExtents]

/-- What holds of the extents in every state reached from start-up by frames, resizes and
GPU progress: the back buffers have the client size, the dispatch has the client size and
depth 1, and the ray-tracing output image still has the client size of the start-up. -/
theorem extents_run (b : BootEnv) (acts : List Action) :
    backBufferExtent (run (wWinMainInit b) acts).trace
      = some ((run (wWinMainInit b) acts).gClientWidth,
              (run (wWinMainInit b) acts).gClientHeight) ∧
    (dispatchDesc (run (wWinMainInit b) acts)).width
      = (run (wWinMainInit b) acts).gClientWidth ∧
    (dispatchDesc (run (wWinMainInit b) acts)).height
      = (run (wWinMainInit b) acts).gClientHeight ∧
    (dispatchDesc (run (wWinMainInit b) acts)).depth = 1 ∧
    outputImageExtent (run (wWinMainInit b) acts).trace = some (b.width, b.height) := by
  have inv : ∀ (acts : List Action) (s : Renderer),
      backBufferExtent s.trace = some (s.gClientWidth, s.gClientHeight) →
      outputImageExtents s.trace = [(b.width, b.height)] →
      backBufferExtent (run s acts).trace
        = some ((run s acts).gClientWidth, (run s acts).gClientHeight) ∧
      outputImageExtents (run s acts).trace = [(b.width, b.height)] := by
    intro acts
    induction acts with
    | nil => intro s hb ho; exact ⟨hb, ho⟩
    | cons a rest ih =>
      intro s hb ho
      have hrun : run s (a :: rest) = run (step s a) rest := rfl
      rw [hrun]
      apply ih
      · cases a with
        | render e =>
          have hs : step s (Action.render e) = render s e := rfl
          rw [hs]
          unfold backBufferExtent
          rw [(render_extents s e).1, render_gClientWidth, render_gClientHeight]
          exact hb
        | resize w h e =>
          have hs : step s (Action.resize w h e) = resize s w h e := rfl
          rw [hs]
          by_cases hne : s.gClientWidth ≠ w ∨ s.gClientHeight ≠ h
          · unfold backBufferExtent
            rw [(resize_extents_of_ne s w h e hne).1, resize_gClientWidth_of_ne s w h e hne,
              resize_gClientHeight_of_ne s w h e hne]
            simp
          · have hw : s.gClientWidth = w := by
              by_contra hc
              exact hne (Or.inl hc)
            have hh : s.gClientHeight = h := by
              by_contra hc
              exact hne (Or.inr hc)
            rw [resize_of_eq s w h e hw hh]
            exact hb
        | gpu reached => exact hb
      · cases a with
        | render e => exact (render_extents s e).2.trans ho
        | resize w h e =>
          have hs : step s (Action.resize w h e) = resize s w h e := rfl
          rw [hs]
          by_cases hne : s.gClientWidth ≠ w ∨ s.gClientHeight ≠ h
          · rw [(resize_extents_of_ne s w h e hne).2]
            exact ho
          · have hw : s.gClientWidth = w := by
              by_contra hc
              exact hne (Or.inl hc)
            have hh : s.gClientHeight = h := by
              by_contra hc
              exact hne (Or.inr hc)
            rw [resize_of_eq s w h e hw hh]
            exact ho
        | gpu reached => exact ho
  obtain ⟨hb0, ho0, hw0, hh0⟩ := wWinMainInit_extents b
  have h := inv acts (wWinMainInit b) (by unfold backBufferExtent; rw [hb0, hw0, hh0]; rfl) ho0
  refine ⟨h.1, rfl, rfl, rfl, ?_⟩
  unfold outputImageExtent
  rw [h.2]
  rfl

/-- C21: the state reached from the start-up with a 1280 x 720 client area by one call
`resize(800, 600)` breaks the claim. In it the extent `render` passes to `DispatchRays` is
800 x 600 x 1 and the back buffers are 800 x 600, but the ray-tracing output image still has
the 1280 x 720 extent it was created with at start-up, because `resize` resizes the swap
chain and never creates the output image again. With ray tracing turned on by a Space
key-down, the frame recorded in that state holds this `DispatchRays` and a `CopyResource`
from the output image into the current back buffer, two images of different extent. -/
theorem dispatch_extent_differs_from_output_image_after_resize :
    ((dispatchDesc (run (wWinMainInit bootDefault) [Action.resize 800 600 ⟨0, 0, 0⟩])).width,
     (dispatchDesc (run (wWinMainInit bootDefault) [Action.resize 800 600 ⟨0, 0, 0⟩])).height,
     (dispatchDesc (run (wWinMainInit bootDefault) [Action.resize 800 600 ⟨0, 0, 0⟩])).depth)
      = (800, 600, 1) ∧
    backBufferExtent (run (wWinMainInit bootDefault) [Action.resize 800 600 ⟨0, 0, 0⟩]).trace
      = some (800, 600) ∧
    outputImageExtent (run (wWinMainInit bootDefault) [Action.resize 800 600 ⟨0, 0, 0⟩]).trace
      = some (1280, 720) ∧
    (WndProc (run (wWinMainInit bootDefault) [Action.resize 800 600 ⟨0, 0, 0⟩])
        Message.WM_KEYDOWN VK_SPACE envDefault).gRayTracingEnabled = true ∧
    dispatchDesc (WndProc (run (wWinMainInit bootDefault) [Action.resize 800 600 ⟨0, 0, 0⟩])
        Message.WM_KEYDOWN VK_SPACE envDefault)
      = dispatchDesc (run (wWinMainInit bootDefault) [Action.resize 800 600 ⟨0, 0, 0⟩]) ∧
    backBufferExtent (WndProc (run (wWinMainInit bootDefault) [Action.resize 800 600 ⟨0, 0, 0⟩])
        Message.WM_KEYDOWN VK_SPACE envDefault).trace = some (800, 600) ∧
    outputImageExtent (WndProc (run (wWinMainInit bootDefault) [Action.resize 800 600 ⟨0, 0, 0⟩])
        Message.WM_KEYDOWN VK_SPACE envDefault).trace = some (1280, 720) ∧
    Cmd.dispatchRays (dispatchDesc (run (wWinMainInit bootDefault) [Action.resize 800 600 ⟨0, 0, 0⟩]))
      ∈ recordCommands (WndProc (run (wWinMainInit bootDefault) [Action.resize 800 600 ⟨0, 0, 0⟩])
        Message.WM_KEYDOWN VK_SPACE envDefault) ∧
    Cmd.copyResource
        (Resource.backBuffer (WndProc (run (wWinMainInit bootDefault) [Action.resize 800 600 ⟨0, 0, 0⟩])
        Message.WM_KEYDOWN VK_SPACE envDefault).gCurrentBackBufferIndex)
        Resource.raytracingOutput
      ∈ recordCommands (WndProc (run (wWinMainInit bootDefault) [Action.resize 800 600 ⟨0, 0, 0⟩])
        Message.WM_KEYDOWN VK_SPACE envDefault) := by
  decide

/-! ## Command line: properties -/

theorem readValue_of_lt (argv : List String) (st : ArgScan) (j : Nat)
    (store : Renderer → Nat → Renderer) (h : j < argv.length) :
    (readValue argv st j store).fault = st.fault ∧
    (readValue argv st j store).reads = st.reads ++ [j] := by
  unfold readValue
  rw [List.getElem?_eq_getElem h]
  exact ⟨rfl, rfl⟩

theorem readValue_of_le (argv : List String) (st : ArgScan) (j : Nat)
    (store : Renderer → Nat → Renderer) (h : argv.length ≤ j) :
    readValue argv st j store = { st with reads := st.reads ++ [j], fault := true } := by
  unfold readValue
  rw [List.getElem?_eq_none h]

theorem readValue_fault_of_fault (argv : List String) (st : ArgScan) (j : Nat)
    (store : Renderer → Nat → Renderer) (h : argv.length ≤ j) :
    (readValue argv st j store).fault = true ∧ j ∈ (readValue argv st j store).reads := by
  rw [readValue_of_le argv st j store h]
  simp

/-- An argument that is none of the four options is read and nothing else happens. -/
theorem parseStep_of_not_option (argv : List String) (st : ArgScan) (i : Nat)
    (hf : st.fault = false) (h : isSizeOption (argv.getD i "") = false) :
    parseStep argv st i = { st with reads := st.reads ++ [i] } := by
  simp only [isSizeOption, Bool.or_eq_false_iff, beq_eq_false_iff_ne, ne_eq] at h
  obtain ⟨⟨⟨h1, h2⟩, h3⟩, h4⟩ := h
  unfold parseStep
  rw [if_neg (by simp [hf])]
  simp only [if_neg (not_or.mpr ⟨h1, h2⟩), if_neg (not_or.mpr ⟨h3, h4⟩)]

/-- An iteration that is not the last one reads no element past the end of `argv`. -/
theorem parseStep_of_lt (argv : List String) (st : ArgScan) (i : Nat)
    (hf : st.fault = false) (h : i + 1 < argv.length) :
    (parseStep argv st i).fault = false ∧
    ∀ r ∈ (parseStep argv st i).reads, r ∈ st.reads ∨ r < argv.length := by
  unfold parseStep
  rw [if_neg (by simp [hf])]
  by_cases h1 : argv.getD i "" = optW ∨ argv.getD i "" = optWidth
  · by_cases h2 : argv.getD i "" = optH ∨ argv.getD i "" = optHeight
    · simp only [if_pos h1, if_pos h2]
      obtain ⟨a1, a2⟩ := readValue_of_lt argv { st with reads := st.reads ++ [i] } (i + 1)
        (fun s v => { s with gClientWidth := v }) h
      obtain ⟨b1, b2⟩ := readValue_of_lt argv
        (readValue argv { st with reads := st.reads ++ [i] } (i + 1)
          (fun s v => { s with gClientWidth := v })) (i + 1)
        (fun s v => { s with gClientHeight := v }) h
      refine ⟨by rw [b1, a1]; exact hf, ?_⟩
      intro r hr
      rw [b2, a2] at hr
      by_cases hm : r ∈ st.reads
      · exact Or.inl hm
      · right
        simp only [List.mem_append, List.mem_singleton, hm, false_or] at hr
        omega
    · simp only [if_pos h1, if_neg h2]
      obtain ⟨a1, a2⟩ := readValue_of_lt argv { st with reads := st.reads ++ [i] } (i + 1)
        (fun s v => { s with gClientWidth := v }) h
      refine ⟨by rw [a1]; exact hf, ?_⟩
      intro r hr
      rw [a2] at hr
      by_cases hm : r ∈ st.reads
      · exact Or.inl hm
      · right
        simp only [List.mem_append, List.mem_singleton, hm, false_or] at hr
        omega
  · by_cases h2 : argv.getD i "" = optH ∨ argv.getD i "" = optHeight
    · simp only [if_neg h1, if_pos h2]
      obtain ⟨a1, a2⟩ := readValue_of_lt argv { st with reads := st.reads ++ [i] } (i + 1)
        (fun s v => { s with gClientHeight := v }) h
      refine ⟨by rw [a1]; exact hf, ?_⟩
      intro r hr
      rw [a2] at hr
      by_cases hm : r ∈ st.reads
      · exact Or.inl hm
      · right
        simp only [List.mem_append, List.mem_singleton, hm, false_or] at hr
        omega
    · simp only [if_neg h1, if_neg h2]
      refine ⟨hf, ?_⟩
      intro r hr
      by_cases hm : r ∈ st.reads
      · exact Or.inl hm
      · right
        simp only [List.mem_append, List.mem_singleton, hm, false_or] at hr
        omega

/-- An option in the last position makes the iteration read the element past the end. -/
theorem parseStep_of_option_last (argv : List String) (st : ArgScan) (i : Nat)
    (hf : st.fault = false) (h : isSizeOption (argv.getD i "") = true)
    (hlast : argv.length ≤ i + 1) :
    (parseStep argv st i).fault = true ∧ i + 1 ∈ (parseStep argv st i).reads := by
  unfold parseStep
  rw [if_neg (by simp [hf])]
  by_cases h1 : argv.getD i "" = optW ∨ argv.getD i "" = optWidth
  · by_cases h2 : argv.getD i "" = optH ∨ argv.getD i "" = optHeight
    · simp only [if_pos h1, if_pos h2]
      exact readValue_fault_of_fault argv _ (i + 1) _ hlast
    · simp only [if_pos h1, if_neg h2]
      exact readValue_fault_of_fault argv _ (i + 1) _ hlast
  · by_cases h2 : argv.getD i "" = optH ∨ argv.getD i "" = optHeight
    · simp only [if_neg h1, if_pos h2]
      exact readValue_fault_of_fault argv _ (i + 1) _ hlast
    · exfalso
      simp only [isSizeOption, Bool.or_eq_true, beq_iff_eq] at h
      tauto

/-- The iterations before the last one read `argv` only at indices below `argc`. -/
theorem parse_before_last (s : Renderer) (argv : List String) (n : Nat) (hn : n < argv.length) :
    ((List.range n).foldl (parseStep argv) { state := s, reads := [], fault := false }).fault
      = false ∧
    ∀ r ∈ ((List.range n).foldl (parseStep argv)
        { state := s, reads := [], fault := false }).reads, r < argv.length := by
  induction n with
  | zero => simp
  | succ k ih =>
    obtain ⟨hf, hr⟩ := ih (by omega)
    rw [List.range_succ, List.foldl_append]
    obtain ⟨hf2, hr2⟩ := parseStep_of_lt argv _ k hf hn
    refine ⟨hf2, ?_⟩
    intro r hmem
    rcases hr2 r hmem with h | h
    · exact hr r h
    · exact h

/-- When `parseCommandLineArguments` reads past the end of `argv`: exactly when the last
argument is one of the four options. -/
theorem parse_fault_eq (s : Renderer) (argv : List String) :
    (parseCommandLineArguments s argv).fault = isSizeOption (argv.getLast?.getD "") := by
  unfold parseCommandLineArguments
  rcases Nat.eq_zero_or_pos argv.length with h0 | hpos
  · have hnil : argv = [] := List.length_eq_zero.mp h0
    subst hnil
    simp only [List.length_nil, List.range_zero, List.foldl_nil, List.getLast?_nil,
      Option.getD_none]
    decide
  · obtain ⟨m, hm⟩ : ∃ m, argv.length = m + 1 := ⟨argv.length - 1, by omega⟩
    have hlast : argv.getLast?.getD "" = argv.getD m "" := by
      rw [List.getLast?_eq_getElem?, hm]
      simp [List.getD_eq_getElem?_getD]
    obtain ⟨hf, -⟩ := parse_before_last s argv m (by omega)
    rw [hm, List.range_succ, List.foldl_append, hlast]
    cases hopt : isSizeOption (argv.getD m "")
    · rw [List.foldl_cons, List.foldl_nil, parseStep_of_not_option argv _ m hf hopt]
      exact hf
    · exact (parseStep_of_option_last argv _ m hf hopt (by omega)).1

/-- With a last argument that is none of the four options, `parseCommandLineArguments`
reads `argv` only at indices below `argc`. -/
theorem parse_reads_in_bounds (s : Renderer) (argv : List String)
    (hlast : isSizeOption (argv.getLast?.getD "") = false) :
    ∀ r ∈ (parseCommandLineArguments s argv).reads, r < argv.length := by
  unfold parseCommandLineArguments
  rcases Nat.eq_zero_or_pos argv.length with h0 | hpos
  · have hnil : argv = [] := List.length_eq_zero.mp h0
    subst hnil
    simp
  · obtain ⟨m, hm⟩ : ∃ m, argv.length = m + 1 := ⟨argv.length - 1, by omega⟩
    have hl : argv.getLast?.getD "" = argv.getD m "" := by
      rw [List.getLast?_eq_getElem?, hm]
      simp [List.getD_eq_getElem?_getD]
    obtain ⟨hf, hr⟩ := parse_before_last s argv m (by omega)
    rw [hl] at hlast
    intro r hmem
    rw [hm, List.range_succ, List.foldl_append, List.foldl_cons, List.foldl_nil,
      parseStep_of_not_option argv _ m hf hlast] at hmem
    simp only [List.mem_append, List.mem_singleton] at hmem
    rcases hmem with h | h
    · have := hr r h
      omega
    · omega

/-- An option in the last position makes `parseCommandLineArguments` read `argv[argc]`. -/
theorem parse_reads_argc_of_last_option (s : Renderer) (argv : List String)
    (hlast : isSizeOption (argv.getLast?.getD "") = true) :
    argv.length ∈ (parseCommandLineArguments s argv).reads := by
  unfold parseCommandLineArguments
  rcases Nat.eq_zero_or_pos argv.length with h0 | hpos
  · have hnil : argv = [] := List.length_eq_zero.mp h0
    subst hnil
    exact absurd hlast (by decide)
  · obtain ⟨m, hm⟩ : ∃ m, argv.length = m + 1 := ⟨argv.length - 1, by omega⟩
    have hl : argv.getLast?.getD "" = argv.getD m "" := by
      rw [List.getLast?_eq_getElem?, hm]
      simp [List.getD_eq_getElem?_getD]
    obtain ⟨hf, -⟩ := parse_before_last s argv m (by omega)
    rw [hl] at hlast
    have h := (parseStep_of_option_last argv _ m hf hlast (by omega)).2
    rw [hm, List.range_succ, List.foldl_append]
    exact h

/-- An argument vector with none of the four options leaves the globals as they were; from
the start-up state the client size stays 1280 x 720. -/
theorem parse_no_options (s : Renderer) (argv : List String)
    (hnone : ∀ a ∈ argv, isSizeOption a = false) :
    parseCommandLineArguments s argv
      = { state := s, reads := List.range argv.length, fault := false } := by
  unfold parseCommandLineArguments
  have key : ∀ n, n ≤ argv.length →
      (List.range n).foldl (parseStep argv) { state := s, reads := [], fault := false }
        = { state := s, reads := List.range n, fault := false } := by
    intro n
    induction n with
    | zero => intro _; rfl
    | succ k ih =>
      intro hk
      have hlt : k < argv.length := by omega
      rw [List.range_succ, List.foldl_append, ih (by omega), List.foldl_cons, List.foldl_nil,
        parseStep_of_not_option argv _ k rfl]
      rw [List.getD_eq_getElem _ _ hlt]
      exact hnone _ (List.getElem_mem hlt)
  exact key argv.length le_rfl

/-- C22: on the argument vector of length 2 whose last element is `-w`,
`parseCommandLineArguments` reads `argv` at the indices 0, 1 and 2: the element at index 1
is one of the four options although `1 + 1 < argc` is false, and the read of `argv[i + 1]`
at index 2 = `argc` is past the end. The same happens with `--width`, `-h` and `--height`
in the last position. An argument vector holding only the program name leaves
`gClientWidth` and `gClientHeight` at 1280 and 720, by reads below `argc` only. -/
theorem parseCommandLineArguments_reads_past_end :
    [programName, optW].length = 2 ∧
    [programName, optW][1]? = some optW ∧
    ¬ (1 + 1 < [programName, optW].length) ∧
    (parseCommandLineArguments startup [programName, optW]).reads = [0, 1, 2] ∧
    (parseCommandLineArguments startup [programName, optW]).fault = true ∧
    (parseCommandLineArguments startup [programName, optWidth]).reads = [0, 1, 2] ∧
    (parseCommandLineArguments startup [programName, optWidth]).fault = true ∧
    (parseCommandLineArguments startup [programName, optH]).reads = [0, 1, 2] ∧
    (parseCommandLineArguments startup [programName, optH]).fault = true ∧
    (parseCommandLineArguments startup [programName, optHeight]).reads = [0, 1, 2] ∧
    (parseCommandLineArguments startup [programName, optHeight]).fault = true ∧
    (parseCommandLineArguments startup [programName]).reads = [0] ∧
    (parseCommandLineArguments startup [programName]).fault = false ∧
    (parseCommandLineArguments startup [programName]).state.gClientWidth = 1280 ∧
    (parseCommandLineArguments startup [programName]).state.gClientHeight = 720 := by
  decide

end DX12
